import Mathlib

/-! Five-stage pipelined RISC-V simulator: shallow embedding of `src/main.cpp`

The C++ class `RISCVSimulator` is a record of mutable members; every
member function is embedded as a pure function from simulator states to
simulator states, statement by statement.

Conventions for machine integers:

* `uint32_t` values are natural numbers, reduced modulo `2^32` wherever the
  source performs arithmetic on them;
* `int32_t` values are integers; every arithmetic result is brought back
  into the signed 32-bit range with `wrap32` (two's complement);
* the `int` counters (`totalCycles`, `instructionsCompleted`, utilisation
  counters) are natural numbers that only ever count up;
* both memories are `vector`s resized once to 512 words; they are embedded
  as functions from the word index, and every access keeps the bound check
  of the source.
-/

namespace RISCV

/-! ## Machine integers -/

/-- Two's complement reduction of an integer into the `int32_t` range. -/
def wrap32 (x : Int) : Int := (x + 2147483648) % 4294967296 - 2147483648

/-- Conversion `int32_t -> uint32_t` (value modulo `2^32`). -/
def toU32 (x : Int) : Nat := (x % 4294967296).toNat

/-- Conversion `uint32_t -> int32_t`. -/
def toS32 (u : Nat) : Int := wrap32 (u : Int)

/-- Addition of two `uint32_t`. -/
def add32 (a b : Nat) : Nat := (a + b) % 4294967296

/-- Subtraction of two `uint32_t`. -/
def sub32 (a b : Nat) : Nat := (a + 4294967296 - b % 4294967296) % 4294967296

/-! ## Pipeline latches (classes `IF_ID`, `ID_EX`, `EX_MEM`, `MEM_WB`) -/

/-- Latch between fetch and decode; the defaults are the C++ constructor. -/
structure IF_ID where
  IR : Nat := 0
  NPC : Nat := 0
  valid : Bool := false
deriving DecidableEq, Repr

/-- Latch between decode and execute. -/
structure ID_EX where
  IR : Nat := 0
  NPC : Nat := 0
  A : Int := 0
  B : Int := 0
  Imm : Int := 0
  valid : Bool := false
deriving DecidableEq, Repr

/-- Latch between execute and memory. -/
structure EX_MEM where
  IR : Nat := 0
  B : Int := 0
  ALUOutput : Int := 0
  cond : Bool := false
  valid : Bool := false
deriving DecidableEq, Repr

/-- Latch between memory and writeback. -/
structure MEM_WB where
  IR : Nat := 0
  ALUOutput : Int := 0
  LMD : Int := 0
  valid : Bool := false
deriving DecidableEq, Repr

/-- The private members of `class RISCVSimulator`. -/
structure RISCVSimulator where
  instructionMemory : Nat → Nat
  dataMemory : Nat → Int
  registers : Nat → Int
  PC : Nat
  if_id : IF_ID
  if_id_next : IF_ID
  id_ex : ID_EX
  id_ex_next : ID_EX
  ex_mem : EX_MEM
  ex_mem_next : EX_MEM
  mem_wb : MEM_WB
  mem_wb_next : MEM_WB
  totalCycles : Nat
  if_utilization : Nat
  id_utilization : Nat
  ex_utilization : Nat
  mem_utilization : Nat
  wb_utilization : Nat
  stall : Bool
  branch_taken : Bool
  squash_if_id : Bool
  branch_target : Nat
  instructionsCompleted : Nat

/-! ## Instruction decode helpers -/

/-- `instruction & 0x7F`. -/
def getOpcode (instruction : Nat) : Nat := instruction &&& 0x7F

/-- `(instruction >> 7) & 0x1F`. -/
def getRd (instruction : Nat) : Nat := (instruction >>> 7) &&& 0x1F

/-- `(instruction >> 15) & 0x1F`. -/
def getRs1 (instruction : Nat) : Nat := (instruction >>> 15) &&& 0x1F

/-- `(instruction >> 20) & 0x1F`. -/
def getRs2 (instruction : Nat) : Nat := (instruction >>> 20) &&& 0x1F

/-- `(instruction >> 12) & 0x7`. -/
def getFunct3 (instruction : Nat) : Nat := (instruction >>> 12) &&& 0x7

/-- `(instruction >> 25) & 0x7F`. -/
def getFunct7 (instruction : Nat) : Nat := (instruction >>> 25) &&& 0x7F

/-- I-format immediate; the bit operations act on the 32-bit pattern. -/
def getImmI (instruction : Nat) : Int :=
  let imm := instruction >>> 20
  if imm &&& 0x800 ≠ 0 then toS32 (imm ||| 0xFFFFF000) else toS32 imm

/-- S-format immediate. -/
def getImmS (instruction : Nat) : Int :=
  let imm := ((instruction >>> 7) &&& 0x1F) ||| ((instruction >>> 20) &&& 0xFE0)
  if imm &&& 0x800 ≠ 0 then toS32 (imm ||| 0xFFFFF000) else toS32 imm

/-- B-format immediate. -/
def getImmB (instruction : Nat) : Int :=
  let imm := ((instruction >>> 7) &&& 0x1E) ||| ((instruction >>> 20) &&& 0x7E0) |||
             (((instruction <<< 4) % 4294967296) &&& 0x800) ||| ((instruction >>> 19) &&& 0x1000)
  if imm &&& 0x1000 ≠ 0 then toS32 (imm ||| 0xFFFFE000) else toS32 imm

/-- U-format immediate. -/
def getImmU (instruction : Nat) : Int := toS32 (instruction &&& 0xFFFFF000)

/-- J-format immediate. -/
def getImmJ (instruction : Nat) : Int :=
  let imm := ((instruction >>> 20) &&& 0x7FE) ||| ((instruction >>> 9) &&& 0x800) |||
             (instruction &&& 0xFF000) ||| ((instruction >>> 11) &&& 0x100000)
  if imm &&& 0x100000 ≠ 0 then toS32 (imm ||| 0xFFE00000) else toS32 imm

namespace RISCVSimulator

/-! ## Construction, reset, program loading -/

/-- The member function `reset()`: it leaves both memories, the four `_next`
latches and `branch_target` as they are. -/
def reset (s : RISCVSimulator) : RISCVSimulator :=
  { s with
    registers := fun _ => 0
    PC := 0
    totalCycles := 0
    if_utilization := 0
    id_utilization := 0
    ex_utilization := 0
    mem_utilization := 0
    wb_utilization := 0
    stall := false
    branch_taken := false
    squash_if_id := false
    instructionsCompleted := 0
    if_id := {}
    id_ex := {}
    ex_mem := {}
    mem_wb := {} }

/-- The constructor: both memories zero-filled, latches default-constructed,
then `reset()`. (`branch_target` is uninitialised in the source and is never
read; it is given the value 0 here.) -/
def construct : RISCVSimulator :=
  reset
    { instructionMemory := fun _ => 0
      dataMemory := fun _ => 0
      registers := fun _ => 0
      PC := 0
      if_id := {}
      if_id_next := {}
      id_ex := {}
      id_ex_next := {}
      ex_mem := {}
      ex_mem_next := {}
      mem_wb := {}
      mem_wb_next := {}
      totalCycles := 0
      if_utilization := 0
      id_utilization := 0
      ex_utilization := 0
      mem_utilization := 0
      wb_utilization := 0
      stall := false
      branch_taken := false
      squash_if_id := false
      branch_target := 0
      instructionsCompleted := 0 }

/-- The effect of `loadProgram` once the file has been read: `words` are the
parsed hexadecimal tokens in file order; the first 512 are stored, each
truncated to 32 bits, at word indices 0, 1, 2, ... -/
def loadProgram (words : List Nat) (s : RISCVSimulator) : RISCVSimulator :=
  { s with
    instructionMemory := fun i =>
      if i < words.length ∧ i < 512 then words.getD i 0 % 4294967296
      else s.instructionMemory i }

/-- The simulator as `main` has it before the first cycle. -/
def initial (words : List Nat) : RISCVSimulator := loadProgram words construct

/-! ## Hazard detection -/

/-- One of the two identical blocks of `checkDataHazard`: does the valid
in-flight instruction `ir` produce a register that the decoding instruction
uses? -/
def producerHazard (rs1 rs2 : Nat) (uses_rs1 uses_rs2 : Bool) (ir : Nat) : Bool :=
  let rd := getRd ir
  let opc := getOpcode ir
  if rd ≠ 0 ∧ (opc = 0x33 ∨ opc = 0x13 ∨ opc = 0x03 ∨ opc = 0x37 ∨ opc = 0x6F ∨ opc = 0x67) then
    if uses_rs1 = true ∧ rd = rs1 then true
    else if uses_rs2 = true ∧ rd = rs2 then true
    else false
  else false

/-- The member function `checkDataHazard()`. -/
def checkDataHazard (s : RISCVSimulator) : Bool :=
  if s.if_id.valid = false then false
  else
    let rs1 := getRs1 s.if_id.IR
    let rs2 := getRs2 s.if_id.IR
    let opcode := getOpcode s.if_id.IR
    let uses_rs1 : Bool := decide (opcode ≠ 0x37 ∧ opcode ≠ 0x6F)
    let uses_rs2 : Bool := decide (opcode = 0x33 ∨ opcode = 0x23 ∨ opcode = 0x63)
    if s.id_ex.valid = true ∧ producerHazard rs1 rs2 uses_rs1 uses_rs2 s.id_ex.IR = true then true
    else if s.ex_mem.valid = true ∧ producerHazard rs1 rs2 uses_rs1 uses_rs2 s.ex_mem.IR = true then true
    else false

/-! ## Stage functions -/

/-- The member function `IF_stage()`. -/
def IF_stage (s : RISCVSimulator) : RISCVSimulator :=
  if s.branch_taken = true then { s with if_id_next := {} }
  else if s.PC / 4 < 512 ∧ s.instructionMemory (s.PC / 4) ≠ 0 then
    { s with
      if_id_next := { IR := s.instructionMemory (s.PC / 4), NPC := add32 s.PC 4, valid := true }
      if_utilization := s.if_utilization + 1 }
  else { s with if_id_next := {} }

/-- The member function `ID_stage()`. In the normal path `Imm` of
`id_ex_next` is assigned only for the opcodes listed; otherwise it keeps the
value `id_ex_next` already had. -/
def ID_stage (s : RISCVSimulator) : RISCVSimulator :=
  if s.squash_if_id = true then { s with id_ex_next := {}, squash_if_id := false }
  else if s.if_id.valid = false then { s with id_ex_next := {} }
  else
    let opcode := getOpcode s.if_id.IR
    let rs1 := getRs1 s.if_id.IR
    let rs2 := getRs2 s.if_id.IR
    if checkDataHazard s = true ∧ opcode ≠ 0x63 ∧ opcode ≠ 0x6F ∧ opcode ≠ 0x67 then
      { s with id_ex_next := {}, if_id_next := s.if_id, stall := true }
    else
      let n : ID_EX :=
        { s.id_ex_next with
          IR := s.if_id.IR
          NPC := s.if_id.NPC
          A := s.registers rs1
          B := s.registers rs2
          valid := true }
      let s1 := { s with id_ex_next := n, id_utilization := s.id_utilization + 1 }
      if opcode = 0x13 ∨ opcode = 0x03 ∨ opcode = 0x67 then
        { s1 with id_ex_next := { n with Imm := getImmI s.if_id.IR } }
      else if opcode = 0x23 then
        { s1 with id_ex_next := { n with Imm := getImmS s.if_id.IR } }
      else if opcode = 0x63 then
        { s1 with id_ex_next := { n with Imm := getImmB s.if_id.IR } }
      else if opcode = 0x37 then
        { s1 with id_ex_next := { n with Imm := getImmU s.if_id.IR } }
      else if opcode = 0x6F then
        { s1 with id_ex_next := { n with Imm := getImmJ s.if_id.IR } }
      else s1

/-- Assignment `ex_mem_next.ALUOutput = v`. -/
def setALU (s : RISCVSimulator) (v : Int) : RISCVSimulator :=
  { s with ex_mem_next := { s.ex_mem_next with ALUOutput := v } }

/-- The member function `EX_stage()`. Signed arithmetic wraps; the shift
amounts `B & 0x1F` and `Imm & 0x1F` are taken on the 32-bit pattern. For an
opcode or funct combination without a branch of its own `ALUOutput` of
`ex_mem_next` is not assigned. -/
def EX_stage (s : RISCVSimulator) : RISCVSimulator :=
  if s.id_ex.valid = false then { s with ex_mem_next := {} }
  else
    let opcode := getOpcode s.id_ex.IR
    let funct3 := getFunct3 s.id_ex.IR
    let funct7 := getFunct7 s.id_ex.IR
    let A := s.id_ex.A
    let B := s.id_ex.B
    let Imm := s.id_ex.Imm
    let s1 : RISCVSimulator :=
      { s with
        ex_mem_next := { s.ex_mem_next with IR := s.id_ex.IR, B := B, valid := true, cond := false }
        ex_utilization := s.ex_utilization + 1 }
    if opcode = 0x33 then
      if funct3 = 0x0 ∧ funct7 = 0x00 then setALU s1 (wrap32 (A + B))
      else if funct3 = 0x0 ∧ funct7 = 0x20 then setALU s1 (wrap32 (A - B))
      else if funct3 = 0x0 ∧ funct7 = 0x01 then
        setALU s1 (wrap32 ((A * B) % 4294967296))
      else if funct3 = 0x4 ∧ funct7 = 0x01 then
        setALU s1 (if B ≠ 0 then wrap32 (Int.tdiv A B) else -1)
      else if funct3 = 0x6 ∧ funct7 = 0x01 then
        setALU s1 (if B ≠ 0 then wrap32 (Int.tmod A B) else A)
      else if funct3 = 0x7 ∧ funct7 = 0x00 then
        setALU s1 (toS32 (toU32 A &&& toU32 B))
      else if funct3 = 0x6 ∧ funct7 = 0x00 then
        setALU s1 (toS32 (toU32 A ||| toU32 B))
      else if funct3 = 0x1 ∧ funct7 = 0x00 then
        setALU s1 (wrap32 (A * 2 ^ (toU32 B &&& 0x1F)))
      else if funct3 = 0x5 ∧ funct7 = 0x00 then
        setALU s1 (toS32 (toU32 A >>> (toU32 B &&& 0x1F)))
      else if funct3 = 0x2 ∧ funct7 = 0x00 then
        setALU s1 (if A < B then 1 else 0)
      else if funct3 = 0x3 ∧ funct7 = 0x00 then
        setALU s1 (if toU32 A < toU32 B then 1 else 0)
      else s1
    else if opcode = 0x13 then
      if funct3 = 0x0 then
        let bit30 := (s.id_ex.IR >>> 30) &&& 0x1
        if bit30 = 1 then setALU s1 (wrap32 (A - Imm))
        else setALU s1 (wrap32 (A + Imm))
      else if funct3 = 0x7 then setALU s1 (toS32 (toU32 A &&& toU32 Imm))
      else if funct3 = 0x6 then setALU s1 (toS32 (toU32 A ||| toU32 Imm))
      else if funct3 = 0x1 then setALU s1 (wrap32 (A * 2 ^ (toU32 Imm &&& 0x1F)))
      else if funct3 = 0x5 then setALU s1 (toS32 (toU32 A >>> (toU32 Imm &&& 0x1F)))
      else if funct3 = 0x2 then setALU s1 (if A < Imm then 1 else 0)
      else if funct3 = 0x3 then setALU s1 (if toU32 A < toU32 Imm then 1 else 0)
      else s1
    else if opcode = 0x03 then setALU s1 (wrap32 (A + Imm))
    else if opcode = 0x23 then setALU s1 (wrap32 (A + Imm))
    else if opcode = 0x63 then
      let cond : Bool := if funct3 = 0x0 then decide (A = B) else false
      let target := add32 (sub32 s.id_ex.NPC 4) (toU32 Imm)
      { s1 with
        ex_mem_next := { s1.ex_mem_next with cond := cond }
        branch_target := target
        PC := if cond = true then target else s.id_ex.NPC
        branch_taken := true
        squash_if_id := true }
    else if opcode = 0x37 then setALU s1 Imm
    else if opcode = 0x6F then
      { setALU s1 (toS32 s.id_ex.NPC) with
        PC := add32 (sub32 s.id_ex.NPC 4) (toU32 Imm)
        branch_taken := true
        squash_if_id := true }
    else if opcode = 0x67 then
      { setALU s1 (toS32 s.id_ex.NPC) with
        PC := toU32 (wrap32 (A + Imm)) &&& 0xFFFFFFFE
        branch_taken := true
        squash_if_id := true }
    else s1

/-- The member function `MEM_stage()`. `ALUOutput / 4` is the truncating
division of C++; a load whose index is out of range leaves `LMD` of
`mem_wb_next` unassigned. -/
def MEM_stage (s : RISCVSimulator) : RISCVSimulator :=
  if s.ex_mem.valid = false then { s with mem_wb_next := {} }
  else
    let opcode := getOpcode s.ex_mem.IR
    let s1 : RISCVSimulator :=
      { s with
        mem_wb_next :=
          { s.mem_wb_next with IR := s.ex_mem.IR, ALUOutput := s.ex_mem.ALUOutput, valid := true }
        mem_utilization := s.mem_utilization + 1 }
    if opcode = 0x03 then
      let address := Int.tdiv s.ex_mem.ALUOutput 4
      if 0 ≤ address ∧ address < 512 then
        { s1 with mem_wb_next := { s1.mem_wb_next with LMD := s.dataMemory address.toNat } }
      else s1
    else if opcode = 0x23 then
      let address := Int.tdiv s.ex_mem.ALUOutput 4
      if 0 ≤ address ∧ address < 512 then
        { s1 with dataMemory := fun i => if i = address.toNat then s.ex_mem.B else s.dataMemory i }
      else s1
    else s1

/-- Assignment `registers[r] = v`. -/
def setReg (regs : Nat → Int) (r : Nat) (v : Int) : Nat → Int :=
  fun i => if i = r then v else regs i

/-- The member function `WB_stage()`. The multiply's product is formed from
the register file as it is after `registers[rd]` has been written; `>> 32`
on the 64-bit product is the floor division by `2^32`. -/
def WB_stage (s : RISCVSimulator) : RISCVSimulator :=
  if s.mem_wb.valid = false then s
  else
    let opcode := getOpcode s.mem_wb.IR
    let rd := getRd s.mem_wb.IR
    let s1 : RISCVSimulator := { s with wb_utilization := s.wb_utilization + 1 }
    let s2 : RISCVSimulator :=
      if rd ≠ 0 then
        if opcode = 0x03 then { s1 with registers := setReg s1.registers rd s.mem_wb.LMD }
        else if opcode = 0x33 ∨ opcode = 0x13 ∨ opcode = 0x37 ∨ opcode = 0x6F ∨ opcode = 0x67 then
          let s3 : RISCVSimulator :=
            { s1 with registers := setReg s1.registers rd s.mem_wb.ALUOutput }
          if opcode = 0x33 ∧ getFunct3 s.mem_wb.IR = 0x0 ∧ getFunct7 s.mem_wb.IR = 0x01 ∧ rd < 31 then
            let rs1 := getRs1 s.mem_wb.IR
            let rs2 := getRs2 s.mem_wb.IR
            let result : Int := s3.registers rs1 * s3.registers rs2
            { s3 with registers := setReg s3.registers (rd + 1) (wrap32 (result / 4294967296)) }
          else s3
        else s1
      else s1
    { s2 with
      registers := setReg s2.registers 0 0
      instructionsCompleted := s2.instructionsCompleted + 1 }

/-! ## Cycle driver -/

/-- The member function `runCycle()`. -/
def runCycle (s : RISCVSimulator) : RISCVSimulator :=
  let was_stalled := s.stall
  let s1 := ID_stage (EX_stage (MEM_stage (WB_stage { s with stall := false })))
  let s2 : RISCVSimulator :=
    if was_stalled = false ∨ s1.stall = false then IF_stage s1
    else { s1 with if_id_next := s1.if_id }
  let s3 : RISCVSimulator :=
    { s2 with mem_wb := s2.mem_wb_next, ex_mem := s2.ex_mem_next, id_ex := s2.id_ex_next }
  let s4 : RISCVSimulator :=
    if s3.stall = false then { s3 with if_id := s3.if_id_next } else s3
  let s5 : RISCVSimulator :=
    if s4.stall = false ∧ s4.branch_taken = false then { s4 with PC := add32 s4.PC 4 } else s4
  { s5 with branch_taken := false, totalCycles := s5.totalCycles + 1 }

/-- The member function `isProgramComplete()`. -/
def isProgramComplete (s : RISCVSimulator) : Bool :=
  !s.if_id.valid && !s.id_ex.valid && !s.ex_mem.valid && !s.mem_wb.valid &&
    decide (512 ≤ s.PC / 4 ∨ s.instructionMemory (s.PC / 4) = 0)

/-- The state after `n` calls of `runCycle`. -/
def runCycles : Nat → RISCVSimulator → RISCVSimulator
  | 0, s => s
  | n + 1, s => runCycles n (runCycle s)

/-- The cycle-mode loop of `main`: call `runCycle` while
`isProgramComplete` is false. The result is the final state, or `none` when
`fuel` cycles were not enough. -/
def runToCompletion : Nat → RISCVSimulator → Option RISCVSimulator
  | 0, s => if isProgramComplete s = true then some s else none
  | fuel + 1, s =>
    if isProgramComplete s = true then some s else runToCompletion fuel (runCycle s)

end RISCVSimulator

/-! ## Auxiliary notions used in the statements and proofs -/

open RISCVSimulator

/-- Opcodes of the control transfers resolved by `EX_stage`: branch, JAL, JALR. -/
@[reducible] def ctlOpcode (opc : Nat) : Prop := opc = 0x63 ∨ opc = 0x6F ∨ opc = 0x67

/-- A valid control transfer sits in ID/EX, so `EX_stage` redirects `PC`. -/
@[reducible] def ctlInEX (s : RISCVSimulator) : Prop :=
  s.id_ex.valid = true ∧ ctlOpcode (getOpcode s.id_ex.IR)

/-- The squash flag as `ID_stage` finds it: already set, or set by `EX_stage`
earlier in the same cycle. -/
@[reducible] def squashSeen (s : RISCVSimulator) : Prop :=
  s.squash_if_id = true ∨ ctlInEX s

/-- The condition under which `ID_stage` raises `stall` in the cycle that
starts in state `s`. -/
@[reducible] def stallNow (s : RISCVSimulator) : Prop :=
  ¬ squashSeen s ∧ s.if_id.valid = true ∧ checkDataHazard s = true ∧
    ¬ ctlOpcode (getOpcode s.if_id.IR)

/-- Fields that `WB_stage` never assigns. -/
@[reducible] def WBFrame (s t : RISCVSimulator) : Prop :=
  t.instructionMemory = s.instructionMemory ∧ t.dataMemory = s.dataMemory ∧ t.PC = s.PC ∧
  t.if_id = s.if_id ∧ t.if_id_next = s.if_id_next ∧ t.id_ex = s.id_ex ∧
  t.id_ex_next = s.id_ex_next ∧ t.ex_mem = s.ex_mem ∧ t.ex_mem_next = s.ex_mem_next ∧
  t.mem_wb = s.mem_wb ∧ t.mem_wb_next = s.mem_wb_next ∧ t.totalCycles = s.totalCycles ∧
  t.stall = s.stall ∧ t.branch_taken = s.branch_taken ∧ t.squash_if_id = s.squash_if_id

/-- Fields that `MEM_stage` never assigns. -/
@[reducible] def MEMFrame (s t : RISCVSimulator) : Prop :=
  t.instructionMemory = s.instructionMemory ∧ t.registers = s.registers ∧ t.PC = s.PC ∧
  t.if_id = s.if_id ∧ t.if_id_next = s.if_id_next ∧ t.id_ex = s.id_ex ∧
  t.id_ex_next = s.id_ex_next ∧ t.ex_mem = s.ex_mem ∧ t.ex_mem_next = s.ex_mem_next ∧
  t.mem_wb = s.mem_wb ∧ t.totalCycles = s.totalCycles ∧
  t.stall = s.stall ∧ t.branch_taken = s.branch_taken ∧ t.squash_if_id = s.squash_if_id ∧
  t.instructionsCompleted = s.instructionsCompleted

/-- Fields that `EX_stage` never assigns. -/
@[reducible] def EXFrame (s t : RISCVSimulator) : Prop :=
  t.instructionMemory = s.instructionMemory ∧ t.dataMemory = s.dataMemory ∧
  t.registers = s.registers ∧
  t.if_id = s.if_id ∧ t.if_id_next = s.if_id_next ∧ t.id_ex = s.id_ex ∧
  t.id_ex_next = s.id_ex_next ∧ t.ex_mem = s.ex_mem ∧
  t.mem_wb = s.mem_wb ∧ t.mem_wb_next = s.mem_wb_next ∧ t.totalCycles = s.totalCycles ∧
  t.stall = s.stall ∧ t.instructionsCompleted = s.instructionsCompleted

/-- Fields that `ID_stage` never assigns. -/
@[reducible] def IDFrame (s t : RISCVSimulator) : Prop :=
  t.instructionMemory = s.instructionMemory ∧ t.dataMemory = s.dataMemory ∧
  t.registers = s.registers ∧ t.PC = s.PC ∧
  t.if_id = s.if_id ∧ t.id_ex = s.id_ex ∧ t.ex_mem = s.ex_mem ∧ t.ex_mem_next = s.ex_mem_next ∧
  t.mem_wb = s.mem_wb ∧ t.mem_wb_next = s.mem_wb_next ∧ t.totalCycles = s.totalCycles ∧
  t.branch_taken = s.branch_taken ∧ t.instructionsCompleted = s.instructionsCompleted

/-- Fields that `IF_stage` never assigns. -/
@[reducible] def IFFrame (s t : RISCVSimulator) : Prop :=
  t.instructionMemory = s.instructionMemory ∧ t.dataMemory = s.dataMemory ∧
  t.registers = s.registers ∧ t.PC = s.PC ∧
  t.if_id = s.if_id ∧ t.id_ex = s.id_ex ∧ t.id_ex_next = s.id_ex_next ∧
  t.ex_mem = s.ex_mem ∧ t.ex_mem_next = s.ex_mem_next ∧
  t.mem_wb = s.mem_wb ∧ t.mem_wb_next = s.mem_wb_next ∧ t.totalCycles = s.totalCycles ∧
  t.stall = s.stall ∧ t.branch_taken = s.branch_taken ∧ t.squash_if_id = s.squash_if_id ∧
  t.instructionsCompleted = s.instructionsCompleted

/-- The state in the middle of `runCycle`, after `WB_stage`, `MEM_stage` and
`EX_stage` have run. -/
def afterEX (s : RISCVSimulator) : RISCVSimulator :=
  EX_stage (MEM_stage (WB_stage { s with stall := false }))

/-- The state in the middle of `runCycle`, after `ID_stage` has run. -/
def afterID (s : RISCVSimulator) : RISCVSimulator := ID_stage (afterEX s)

/-- The latch `IF_stage` produces when it fetches at byte address `pc`. -/
def fetchLatch (mem : Nat → Nat) (pc : Nat) : IF_ID :=
  if pc / 4 < 512 ∧ mem (pc / 4) ≠ 0 then { IR := mem (pc / 4), NPC := add32 pc 4, valid := true }
  else {}

/-- Scenario 2 of the specification: `addi x1,x0,5; addi x2,x0,10; add x3,x1,x2`. -/
def hazardProgram : List Nat := [0x00500093, 0x00A00113, 0x002081B3]

/-- The hazard program after three cycles: `add` is in IF/ID and both of its
producers are in flight. -/
def hazardState : RISCVSimulator := runCycles 3 (initial hazardProgram)

/-- The parity invariant behind the alignment of `PC`: `PC` and the latched
`NPC`s are even, and so is the immediate of a branch or JAL held in ID/EX. -/
def PCEven (s : RISCVSimulator) : Prop :=
  s.PC % 2 = 0 ∧ s.if_id.NPC % 2 = 0 ∧ s.id_ex.NPC % 2 = 0 ∧
    (getOpcode s.id_ex.IR = 0x63 ∨ getOpcode s.id_ex.IR = 0x6F → s.id_ex.Imm % 2 = 0)

/-- Scenario 3 of the specification: `addi x1,x0,5; addi x2,x0,5;
beq x1,x2,+8; addi x3,x0,10; addi x4,x0,20`. -/
def branchProgram : List Nat := [0x00500093, 0x00500113, 0x00208463, 0x00A00193, 0x01400213]

/-- The taken-branch program after four cycles: the BEQ is in ID/EX. -/
def branchState : RISCVSimulator := runCycles 4 (initial branchProgram)

/-- The fetch step of `runCycle`: `IF_stage`, unless the stall of the previous
cycle was raised again. -/
def fetchOrHold (was_stalled : Bool) (d : RISCVSimulator) : RISCVSimulator :=
  if was_stalled = false ∨ d.stall = false then IF_stage d else { d with if_id_next := d.if_id }

/-- The commit step of `runCycle`: the latch copies, the `PC` increment, the
reset of `branch_taken` and the cycle count. -/
def commit (f : RISCVSimulator) : RISCVSimulator :=
  { f with
    mem_wb := f.mem_wb_next
    ex_mem := f.ex_mem_next
    id_ex := f.id_ex_next
    if_id := if f.stall = false then f.if_id_next else f.if_id
    PC := if f.stall = false ∧ f.branch_taken = false then add32 f.PC 4 else f.PC
    branch_taken := false
    totalCycles := f.totalCycles + 1 }

/-- The states before and after each of the first `n` cycles. -/
def runTrace : Nat → RISCVSimulator → List RISCVSimulator
  | 0, s => [s]
  | n + 1, s => s :: runTrace n (runCycle s)

/-- The standard I-type instruction word: immediate in bits 31:20, `rs1` in
19:15, `funct3` in 14:12, `rd` in 11:7, opcode in 6:0. -/
def encodeI (imm12 rs1 funct3 rd opcode : Nat) : Nat :=
  imm12 * 2 ^ 20 + rs1 * 2 ^ 15 + funct3 * 2 ^ 12 + rd * 2 ^ 7 + opcode

/-- The program of C9: `addi x1,x0,a ; addi x2,x0,b ; add x3,x1,x2`, the two
immediates given as 12-bit fields. -/
def addChain (a b : Nat) : List Nat := [encodeI a 0 0 1 0x13, encodeI b 0 0 2 0x13, 0x002081B3]

/-- The registers `checkDataHazard` takes the instruction `ir` in IF/ID to
read: `rs1` unless the opcode is LUI or JAL, `rs2` for register-register ALU
operations, stores and branches. -/
def idReads (ir : Nat) : List Nat :=
  (if getOpcode ir ≠ 0x37 ∧ getOpcode ir ≠ 0x6F then [getRs1 ir] else []) ++
  (if getOpcode ir = 0x33 ∨ getOpcode ir = 0x23 ∨ getOpcode ir = 0x63 then [getRs2 ir] else [])

/-- The registers `WB_stage` assigns when it retires the instruction `ir`
(apart from its final `registers[0] = 0`): `rd`, and for the multiply also
`rd + 1`. -/
def wbWrites (ir : Nat) : List Nat :=
  if getRd ir ≠ 0 then
    if getOpcode ir = 0x03 then [getRd ir]
    else if getOpcode ir = 0x33 ∨ getOpcode ir = 0x13 ∨ getOpcode ir = 0x37 ∨
        getOpcode ir = 0x6F ∨ getOpcode ir = 0x67 then
      if getOpcode ir = 0x33 ∧ getFunct3 ir = 0x0 ∧ getFunct7 ir = 0x01 ∧ getRd ir < 31
      then [getRd ir, getRd ir + 1] else [getRd ir]
    else []
  else []

/-- A multiply followed at once by a reader of the register above its `rd`:
`addi x4,x0,9 ; addi x1,x0,3 ; addi x2,x0,7 ; mul x3,x1,x2 ; addi x5,x4,0`. -/
def mulHighProgram : List Nat := [0x00900213, 0x00300093, 0x00700113, 0x022081B3, 0x00020293]

/-- No instruction reads, through `rs1`, the nonzero `rd` of one of the two
instructions before it. -/
def NoRAW (prog : List Nat) : Prop :=
  ∀ i j, i < j → j < prog.length → j ≤ i + 2 → getRd (prog.getD i 0) ≠ 0 →
    getRs1 (prog.getD j 0) ≠ getRd (prog.getD i 0)

/-- The pipeline `k` cycles into a stall-free run of the straight-line
program `prog`: instruction `k - 1` is in IF/ID, `k - 2` in ID/EX, `k - 3` in
EX/MEM and `k - 4` in MEM/WB, each while it exists. -/
def PipeInv (prog : List Nat) (k : Nat) (s : RISCVSimulator) : Prop :=
  s.instructionMemory = (initial prog).instructionMemory ∧
  s.PC = 4 * k ∧ s.stall = false ∧ s.squash_if_id = false ∧ s.branch_taken = false ∧
  s.if_id = (if 1 ≤ k ∧ k ≤ prog.length
    then { IR := prog.getD (k - 1) 0, NPC := 4 * k, valid := true } else {}) ∧
  (s.id_ex.valid = true ↔ 2 ≤ k ∧ k ≤ prog.length + 1) ∧
  (s.id_ex.valid = true → s.id_ex.IR = prog.getD (k - 2) 0) ∧
  (s.ex_mem.valid = true ↔ 3 ≤ k ∧ k ≤ prog.length + 2) ∧
  (s.ex_mem.valid = true → s.ex_mem.IR = prog.getD (k - 3) 0) ∧
  (s.mem_wb.valid = true ↔ 4 ≤ k ∧ k ≤ prog.length + 3) ∧
  s.instructionsCompleted = k - 4 ∧ s.totalCycles = k

/-- Two ALU-immediate instructions with distinct `rd` of which the second
reads the first: `addi x1,x0,5 ; addi x2,x1,1`. -/
def dependentPair : List Nat := [0x00500093, 0x00108113]

/-- The state in the middle of `runCycle` on which `EX_stage` runs. -/
def beforeEX (s : RISCVSimulator) : RISCVSimulator := MEM_stage (WB_stage { s with stall := false })

/-- A simulator whose ID/EX latch holds the valid instruction `ir` with the
operands `a` and `b`; everything else is as the constructor leaves it. -/
def stateInEX (ir : Nat) (a b : Int) : RISCVSimulator :=
  { construct with id_ex := { IR := ir, A := a, B := b, valid := true } }

/-- `addi x1,x0,5` followed by a word of opcode 0x33 with funct3 = 4 and
funct7 = 0, a combination `EX_stage` has no branch for (`rd` = 3). -/
def unsupportedProgram : List Nat := [0x00500093, 0x000041B3]

/-- `addi x1,x0,42 ; sw x1,0(x0) ; lw x2,0(x0) ; lw x3,-4(x0)`: the last load
has the byte address -4, word index -1. -/
def staleLoadProgram : List Nat := [0x02A00093, 0x00102023, 0x00002103, 0xFFC02183]

/-- A simulator whose EX/MEM latch holds the valid instruction `ir` with the
address `alu` and the store data `b`; everything else is as the constructor
leaves it. -/
def stateInMEM (ir : Nat) (alu b : Int) : RISCVSimulator :=
  { construct with ex_mem := { IR := ir, B := b, ALUOutput := alu, valid := true } }

/-- `addi x1,x0,42 ; sw x1,-1(x0)`: a store to the byte address -1. -/
def negativeStoreProgram : List Nat := [0x02A00093, 0xFE102FA3]

/-- `addi x1,x0,5 ; addi x5,x0,1 ; addi x6,x0,1 ; addi x2,x1,0`: the last
instruction is decoded in the cycle in which the first is written back. -/
def sameCycleProgram : List Nat := [0x00500093, 0x00100293, 0x00100313, 0x00008113]

/-- A simulator whose MEM/WB latch holds the valid instruction `ir` with the
result `alu`, over the register file `regs`; everything else is as the
constructor leaves it. -/
def stateInWB (ir : Nat) (alu : Int) (regs : Nat → Int) : RISCVSimulator :=
  { construct with registers := regs, mem_wb := { IR := ir, ALUOutput := alu, valid := true } }

/-- `lui x1,16 ; lui x2,16 ; mul x1,x1,x2`: the product of 65536 and 65536 is
`2^32`, and `rd` is also `rs1`. -/
def mulOverwriteProgram : List Nat := [0x000100B7, 0x00010137, 0x022080B3]

/-- `lui x1,16 ; lui x2,16 ; mul x0,x1,x2`: the same product with `rd = 0`. -/
def mulZeroRdProgram : List Nat := [0x000100B7, 0x00010137, 0x02208033]

/-- `WB_stage` retires the instruction `ir` (valid in MEM/WB) in the cycle
that starts in state `s`. -/
def retiresIn (ir : Nat) (s : RISCVSimulator) : Bool :=
  s.mem_wb.valid && decide (s.mem_wb.IR = ir)

/-- The cycle that starts in state `s` leaves `instructionsCompleted` as it is. -/
def idleCycle (s : RISCVSimulator) : Bool :=
  decide ((runCycle s).instructionsCompleted = s.instructionsCompleted)

/-- The (0-based) cycles among the first `n` of the run of `prog` in which
`ir` retires. -/
def retireCycles (prog : List Nat) (ir : Nat) (n : Nat) : List Nat :=
  (List.range n).filter (fun k => retiresIn ir (runCycles k (initial prog)))

/-- The (0-based) cycles strictly between `a` and `b` of the run of `prog` in
which `instructionsCompleted` does not increase. -/
def idleCyclesBetween (prog : List Nat) (a b : Nat) : List Nat :=
  (List.range b).filter (fun k => decide (a < k) && idleCycle (runCycles k (initial prog)))

/-- The J-type word `jal rd,+8`: opcode 0x6F, `rd` in bits 11:7, and the
immediate 8, whose bits 10:1 (the value 4) sit in bits 30:21. -/
def jalPlus8 (rd : Nat) : Nat := 4 * 2 ^ 21 + rd * 2 ^ 7 + 0x6F

/-- The standard S-type instruction word: immediate bits 11:5 in bits 31:25,
`rs2` in 24:20, `rs1` in 19:15, `funct3` in 14:12, immediate bits 4:0 in 11:7,
opcode in 6:0. -/
def encodeS (imm12 rs2 rs1 funct3 opcode : Nat) : Nat :=
  imm12 / 32 * 2 ^ 25 + rs2 * 2 ^ 20 + rs1 * 2 ^ 15 + funct3 * 2 ^ 12 + imm12 % 32 * 2 ^ 7 + opcode

/-- The program of C11: `addi x1,x0,v ; sw x1,k(x0) ; lw x2,k(x0)`. -/
def storeLoad (v k : Nat) : List Nat :=
  [encodeI v 0 0 1 0x13, encodeS k 1 0 2 0x23, encodeI k 0 2 2 0x03]

/-- The standard B-type instruction word for the 13-bit immediate pattern
`imm13`: imm[12] in bit 31, imm[10:5] in bits 30:25, `rs2` in 24:20, `rs1` in
19:15, `funct3` in 14:12, imm[4:1] in bits 11:8, imm[11] in bit 7, opcode in
6:0. -/
def encodeB (imm13 rs2 rs1 funct3 opcode : Nat) : Nat :=
  imm13 / 4096 * 2 ^ 31 + imm13 / 32 % 64 * 2 ^ 25 + rs2 * 2 ^ 20 + rs1 * 2 ^ 15 +
    funct3 * 2 ^ 12 + imm13 / 2 % 16 * 2 ^ 8 + imm13 / 2048 % 2 * 2 ^ 7 + opcode

/-- The standard J-type instruction word for the 21-bit immediate pattern
`imm21`: imm[20] in bit 31, imm[10:1] in bits 30:21, imm[11] in bit 20,
imm[19:12] in bits 19:12, `rd` in 11:7, opcode in 6:0. -/
def encodeJ (imm21 rd opcode : Nat) : Nat :=
  imm21 / 1048576 * 2 ^ 31 + imm21 / 2 % 1024 * 2 ^ 21 + imm21 / 2048 % 2 * 2 ^ 20 +
    imm21 / 4096 % 256 * 2 ^ 12 + rd * 2 ^ 7 + opcode

/-- The pipeline of a run without control transfers in which the words at the
indices `k..k+4` are 0, while `PC` is at word `p`: every valid latch holds a
word fetched from an index below `k`, and the latches behind the zero words
are bubbles. -/
def ZeroInv (mem : Nat → Nat) (k p : Nat) (s : RISCVSimulator) : Prop :=
  s.instructionMemory = mem ∧ s.squash_if_id = false ∧ s.branch_taken = false ∧
  s.PC = 4 * p ∧ p ≤ k + 4 ∧
  (k < p → s.if_id.valid = false) ∧ (k + 1 < p → s.id_ex.valid = false) ∧
  (k + 2 < p → s.ex_mem.valid = false) ∧ (k + 3 < p → s.mem_wb.valid = false) ∧
  (s.if_id.valid = true → ∃ i, i < k ∧ s.if_id.IR = mem i ∧ s.if_id.NPC = 4 * (i + 1)) ∧
  (s.id_ex.valid = true → ∃ i, i < k ∧ s.id_ex.IR = mem i ∧ s.id_ex.NPC = 4 * (i + 1)) ∧
  (s.ex_mem.valid = true → ∃ i, i < k ∧ s.ex_mem.IR = mem i) ∧
  (s.mem_wb.valid = true → ∃ i, i < k ∧ s.mem_wb.IR = mem i)

/-- How far the producers have drained: 0 with a valid ID/EX latch, 1 with a
bubble there and a valid EX/MEM latch, 2 with bubbles in both. -/
def drainRank (s : RISCVSimulator) : Nat :=
  if s.id_ex.valid = true then 0 else if s.ex_mem.valid = true then 1 else 2

/-- `addi x1,x0,5 ; 0 ; addi x2,x0,7`: a zero word between two instructions. -/
def zeroGapProgram : List Nat := [0x00500093, 0, 0x00700113]

/-- `addi x1,x0,5`, four zero words, `addi x2,x0,7`. -/
def zeroGap4Program : List Nat := [0x00500093, 0, 0, 0, 0, 0x00700113]

/-- `addi x1,x0,5`, five zero words, `addi x2,x0,7`. -/
def zeroGap5Program : List Nat := [0x00500093, 0, 0, 0, 0, 0, 0x00700113]

/-! ## Frames of the five stages -/

/-- Case analysis on a conditional under a predicate. -/
theorem ite_cases {α : Type} (P : α → Prop) (c : Prop) [Decidable c] (a b : α)
    (ha : c → P a) (hb : ¬c → P b) : P (if c then a else b) := by
  split
  · exact ha ‹_›
  · exact hb ‹_›

@[simp] theorem WB_stage_frame (s : RISCVSimulator) : WBFrame s (WB_stage s) := by
  unfold WB_stage
  dsimp only
  split_ifs <;> simp [WBFrame]

@[simp] theorem MEM_stage_frame (s : RISCVSimulator) : MEMFrame s (MEM_stage s) := by
  unfold MEM_stage
  dsimp only
  split_ifs <;> simp [MEMFrame]

@[simp] theorem EX_stage_frame (s : RISCVSimulator) : EXFrame s (EX_stage s) := by
  unfold EX_stage setALU
  dsimp only
  repeat' (refine ite_cases (EXFrame s) _ _ _ (fun _ => ?_) (fun _ => ?_))
  all_goals exact ⟨rfl, rfl, rfl, rfl, rfl, rfl, rfl, rfl, rfl, rfl, rfl, rfl, rfl⟩

@[simp] theorem ID_stage_frame (s : RISCVSimulator) : IDFrame s (ID_stage s) := by
  unfold ID_stage
  dsimp only
  repeat' (refine ite_cases (IDFrame s) _ _ _ (fun _ => ?_) (fun _ => ?_))
  all_goals exact ⟨rfl, rfl, rfl, rfl, rfl, rfl, rfl, rfl, rfl, rfl, rfl, rfl, rfl⟩

@[simp] theorem IF_stage_frame (s : RISCVSimulator) : IFFrame s (IF_stage s) := by
  unfold IF_stage
  split_ifs <;> simp [IFFrame]

/-! ## Writeback -/

theorem WB_stage_instructionsCompleted (s : RISCVSimulator) :
    (WB_stage s).instructionsCompleted
      = s.instructionsCompleted + (if s.mem_wb.valid = true then 1 else 0) := by
  unfold WB_stage
  dsimp only
  split_ifs <;> simp_all

theorem WB_stage_registers_zero (s : RISCVSimulator) (h : s.registers 0 = 0) :
    (WB_stage s).registers 0 = 0 := by
  unfold WB_stage
  dsimp only
  split_ifs <;> simp_all [setReg]

/-! ## Memory -/

theorem MEM_stage_next_valid (s : RISCVSimulator) :
    (MEM_stage s).mem_wb_next.valid = s.ex_mem.valid := by
  unfold MEM_stage
  dsimp only
  split_ifs <;> simp_all

theorem MEM_stage_next_IR (s : RISCVSimulator) (h : s.ex_mem.valid = true) :
    (MEM_stage s).mem_wb_next.IR = s.ex_mem.IR := by
  unfold MEM_stage
  dsimp only
  split_ifs <;> simp_all

/-! ## Execute -/

theorem EX_stage_next_valid (s : RISCVSimulator) :
    (EX_stage s).ex_mem_next.valid = s.id_ex.valid := by
  unfold EX_stage setALU
  dsimp only
  repeat' (
    refine ite_cases (fun t : RISCVSimulator => t.ex_mem_next.valid = s.id_ex.valid)
      _ _ _ (fun _ => ?_) (fun _ => ?_))
  all_goals simp_all

theorem EX_stage_next_IR (s : RISCVSimulator) (h : s.id_ex.valid = true) :
    (EX_stage s).ex_mem_next.IR = s.id_ex.IR := by
  unfold EX_stage setALU
  dsimp only
  repeat' (
    refine ite_cases (fun t : RISCVSimulator => t.ex_mem_next.IR = s.id_ex.IR)
      _ _ _ (fun _ => ?_) (fun _ => ?_))
  all_goals simp_all

theorem EX_stage_ctl (s : RISCVSimulator) (h : ctlInEX s) :
    (EX_stage s).squash_if_id = true ∧ (EX_stage s).branch_taken = true := by
  obtain ⟨hv, hc | hc | hc⟩ := h <;> simp [EX_stage, setALU, hv, hc]

theorem EX_stage_not_ctl (s : RISCVSimulator) (h : ¬ ctlInEX s) :
    (EX_stage s).squash_if_id = s.squash_if_id ∧ (EX_stage s).branch_taken = s.branch_taken ∧
      (EX_stage s).PC = s.PC := by
  unfold EX_stage setALU
  dsimp only
  repeat' (
    refine ite_cases (fun t : RISCVSimulator => t.squash_if_id = s.squash_if_id ∧
      t.branch_taken = s.branch_taken ∧ t.PC = s.PC) _ _ _ (fun _ => ?_) (fun _ => ?_))
  all_goals simp_all [ctlInEX, ctlOpcode]


theorem EX_stage_squash_iff (s : RISCVSimulator) :
    (EX_stage s).squash_if_id = true ↔ squashSeen s := by
  by_cases h : ctlInEX s
  · exact ⟨fun _ => Or.inr h, fun _ => (EX_stage_ctl s h).1⟩
  · rw [(EX_stage_not_ctl s h).1]
    exact ⟨Or.inl, fun h1 => h1.resolve_right h⟩

/-! ## Decode -/

theorem checkDataHazard_congr (s t : RISCVSimulator) (h1 : t.if_id = s.if_id)
    (h2 : t.id_ex = s.id_ex) (h3 : t.ex_mem = s.ex_mem) :
    checkDataHazard t = checkDataHazard s := by
  unfold checkDataHazard
  rw [h1, h2, h3]

theorem ID_stage_squash (s : RISCVSimulator) : (ID_stage s).squash_if_id = false := by
  unfold ID_stage
  dsimp only
  repeat' (
    refine ite_cases (fun t : RISCVSimulator => t.squash_if_id = false)
      _ _ _ (fun _ => ?_) (fun _ => ?_))
  all_goals simp_all

/-- The condition of the stall branch of `ID_stage`. -/
theorem ID_stage_stall_iff (s : RISCVSimulator) :
    (ID_stage s).stall = true ↔
      s.stall = true ∨ (s.squash_if_id = false ∧ s.if_id.valid = true ∧
        checkDataHazard s = true ∧ ¬ ctlOpcode (getOpcode s.if_id.IR)) := by
  unfold ID_stage
  dsimp only
  repeat' (
    refine ite_cases (fun t : RISCVSimulator => t.stall = true ↔
      s.stall = true ∨ (s.squash_if_id = false ∧ s.if_id.valid = true ∧
        checkDataHazard s = true ∧ ¬ ctlOpcode (getOpcode s.if_id.IR)))
      _ _ _ (fun _ => ?_) (fun _ => ?_))
  all_goals simp_all [ctlOpcode]

/-- Whenever `ID_stage` does not latch the decoded instruction, the next
ID/EX latch is the default-constructed bubble. -/
theorem ID_stage_bubble (s : RISCVSimulator)
    (h : s.squash_if_id = true ∨ s.if_id.valid = false ∨
      (checkDataHazard s = true ∧ ¬ ctlOpcode (getOpcode s.if_id.IR))) :
    (ID_stage s).id_ex_next = {} := by
  unfold ID_stage
  dsimp only
  repeat' (
    refine ite_cases (fun t : RISCVSimulator => t.id_ex_next = {})
      _ _ _ (fun _ => ?_) (fun _ => ?_))
  all_goals simp_all [ctlOpcode]

/-- The normal path of `ID_stage`. -/
theorem ID_stage_latch (s : RISCVSimulator) (h1 : s.squash_if_id = false)
    (h2 : s.if_id.valid = true)
    (h3 : ¬ (checkDataHazard s = true ∧ ¬ ctlOpcode (getOpcode s.if_id.IR))) :
    (ID_stage s).id_ex_next.valid = true ∧ (ID_stage s).id_ex_next.IR = s.if_id.IR ∧
    (ID_stage s).id_ex_next.NPC = s.if_id.NPC ∧
    (ID_stage s).id_ex_next.A = s.registers (getRs1 s.if_id.IR) ∧
    (ID_stage s).id_ex_next.B = s.registers (getRs2 s.if_id.IR) := by
  unfold ID_stage
  dsimp only
  repeat' (
    refine ite_cases (fun t : RISCVSimulator => t.id_ex_next.valid = true ∧
      t.id_ex_next.IR = s.if_id.IR ∧ t.id_ex_next.NPC = s.if_id.NPC ∧
      t.id_ex_next.A = s.registers (getRs1 s.if_id.IR) ∧
      t.id_ex_next.B = s.registers (getRs2 s.if_id.IR))
      _ _ _ (fun _ => ?_) (fun _ => ?_))
  all_goals simp_all [ctlOpcode]

/-! ## The cycle driver, field by field -/

theorem runCycle_stall (s : RISCVSimulator) : (runCycle s).stall = (afterID s).stall := by
  unfold runCycle afterID afterEX
  dsimp only
  split_ifs <;> simp

theorem runCycle_squash_if_id (s : RISCVSimulator) : (runCycle s).squash_if_id = false := by
  have h := ID_stage_squash (afterEX s)
  unfold runCycle
  unfold afterEX at h
  dsimp only
  split_ifs <;> simp [h]

theorem runCycle_branch_taken (s : RISCVSimulator) : (runCycle s).branch_taken = false := by
  unfold runCycle
  dsimp only

theorem runCycle_totalCycles (s : RISCVSimulator) :
    (runCycle s).totalCycles = s.totalCycles + 1 := by
  unfold runCycle
  dsimp only
  split_ifs <;> simp

theorem runCycle_instructionMemory (s : RISCVSimulator) :
    (runCycle s).instructionMemory = s.instructionMemory := by
  unfold runCycle
  dsimp only
  split_ifs <;> simp

theorem runCycle_registers (s : RISCVSimulator) :
    (runCycle s).registers = (WB_stage { s with stall := false }).registers := by
  unfold runCycle
  dsimp only
  split_ifs <;> simp

theorem runCycle_dataMemory (s : RISCVSimulator) :
    (runCycle s).dataMemory = (MEM_stage (WB_stage { s with stall := false })).dataMemory := by
  unfold runCycle
  dsimp only
  split_ifs <;> simp

theorem runCycle_instructionsCompleted (s : RISCVSimulator) :
    (runCycle s).instructionsCompleted
      = s.instructionsCompleted + (if s.mem_wb.valid = true then 1 else 0) := by
  have h : (runCycle s).instructionsCompleted
      = (WB_stage { s with stall := false }).instructionsCompleted := by
    unfold runCycle
    dsimp only
    split_ifs <;> simp
  rw [h, WB_stage_instructionsCompleted]

theorem runCycle_mem_wb (s : RISCVSimulator) :
    (runCycle s).mem_wb = (MEM_stage (WB_stage { s with stall := false })).mem_wb_next := by
  unfold runCycle
  dsimp only
  split_ifs <;> simp

theorem runCycle_ex_mem (s : RISCVSimulator) :
    (runCycle s).ex_mem = (afterEX s).ex_mem_next := by
  unfold runCycle afterEX
  dsimp only
  split_ifs <;> simp

theorem runCycle_id_ex (s : RISCVSimulator) :
    (runCycle s).id_ex = (afterID s).id_ex_next := by
  unfold runCycle afterID afterEX
  dsimp only
  split_ifs <;> simp

theorem runCycle_if_id (s : RISCVSimulator) :
    (runCycle s).if_id =
      if (afterID s).stall = false then (IF_stage (afterID s)).if_id_next else s.if_id := by
  unfold runCycle afterID afterEX
  dsimp only
  split_ifs <;> simp_all

theorem runCycle_PC (s : RISCVSimulator) :
    (runCycle s).PC =
      if (afterID s).stall = false ∧ (afterEX s).branch_taken = false
      then add32 (afterEX s).PC 4 else (afterEX s).PC := by
  unfold runCycle afterID afterEX
  dsimp only
  split_ifs <;> simp_all

/-- `runCycle` as the composition of its three phases. -/
theorem runCycle_eq (s : RISCVSimulator) :
    runCycle s = commit (fetchOrHold s.stall (afterID s)) := by
  unfold runCycle commit fetchOrHold afterID afterEX
  dsimp only
  split_ifs <;> simp_all

theorem runCycles_succ (n : Nat) (s : RISCVSimulator) :
    runCycles (n + 1) s = runCycles n (runCycle s) := rfl

theorem runCycles_zero (s : RISCVSimulator) : runCycles 0 s = s := rfl

/-! ## The middle of a cycle in terms of the state at its start -/

@[simp] theorem afterEX_frame (s : RISCVSimulator) :
    (afterEX s).if_id = s.if_id ∧ (afterEX s).id_ex = s.id_ex ∧ (afterEX s).ex_mem = s.ex_mem ∧
    (afterEX s).stall = false ∧ (afterEX s).instructionMemory = s.instructionMemory ∧
    (afterEX s).registers = (WB_stage { s with stall := false }).registers := by
  simp [afterEX]

theorem afterEX_squash_iff (s : RISCVSimulator) :
    (afterEX s).squash_if_id = true ↔ squashSeen s := by
  unfold afterEX
  rw [EX_stage_squash_iff]
  simp [squashSeen, ctlInEX]

theorem afterEX_checkDataHazard (s : RISCVSimulator) :
    checkDataHazard (afterEX s) = checkDataHazard s :=
  checkDataHazard_congr s (afterEX s) (afterEX_frame s).1 (afterEX_frame s).2.1
    (afterEX_frame s).2.2.1

theorem afterID_stall_iff (s : RISCVSimulator) : (afterID s).stall = true ↔ stallNow s := by
  unfold afterID
  rw [ID_stage_stall_iff, afterEX_checkDataHazard]
  have h := afterEX_squash_iff s
  by_cases hq : squashSeen s
  · have : (afterEX s).squash_if_id = true := h.2 hq
    simp [stallNow, hq, this]
  · have : (afterEX s).squash_if_id = false := by
      cases hb : (afterEX s).squash_if_id
      · rfl
      · exact absurd (h.1 hb) hq
    simp [stallNow, hq, this]

theorem runCycle_stall_iff (s : RISCVSimulator) : (runCycle s).stall = true ↔ stallNow s := by
  rw [runCycle_stall, afterID_stall_iff]

/-- When the cycle does not redirect, `EX_stage` leaves `PC` and
`branch_taken` as they were. -/
theorem afterEX_not_ctl (s : RISCVSimulator) (h : ¬ ctlInEX s) :
    (afterEX s).PC = s.PC ∧ (afterEX s).branch_taken = s.branch_taken := by
  have h1 : ¬ ctlInEX (MEM_stage (WB_stage { s with stall := false })) := by
    simpa [ctlInEX] using h
  have h2 := EX_stage_not_ctl _ h1
  unfold afterEX
  simp [h2]

theorem afterEX_ctl (s : RISCVSimulator) (h : ctlInEX s) :
    (afterEX s).branch_taken = true := by
  have h1 : ctlInEX (MEM_stage (WB_stage { s with stall := false })) := by
    simpa [ctlInEX] using h
  exact (EX_stage_ctl _ h1).2

theorem afterEX_squash_false (s : RISCVSimulator) (h : ¬ squashSeen s) :
    (afterEX s).squash_if_id = false := by
  cases hb : (afterEX s).squash_if_id
  · rfl
  · exact absurd ((afterEX_squash_iff s).1 hb) h

/-- In a stalling cycle the next ID/EX latch is the bubble. -/
theorem runCycle_id_ex_of_stall (s : RISCVSimulator) (h : stallNow s) :
    (runCycle s).id_ex = {} := by
  rw [runCycle_id_ex]
  unfold afterID
  apply ID_stage_bubble
  right; right
  rw [afterEX_checkDataHazard, (afterEX_frame s).1]
  exact ⟨h.2.2.1, h.2.2.2⟩

/-- In a cycle that neither stalls nor squashes, a valid IF/ID instruction
is latched into ID/EX with the register values `ID_stage` reads, which are
those left by this cycle's `WB_stage`. -/
theorem runCycle_id_ex_of_latch (s : RISCVSimulator) (h1 : ¬ squashSeen s)
    (h2 : s.if_id.valid = true) (h3 : ¬ stallNow s) :
    (runCycle s).id_ex.valid = true ∧ (runCycle s).id_ex.IR = s.if_id.IR ∧
    (runCycle s).id_ex.NPC = s.if_id.NPC ∧
    (runCycle s).id_ex.A = (WB_stage { s with stall := false }).registers (getRs1 s.if_id.IR) ∧
    (runCycle s).id_ex.B = (WB_stage { s with stall := false }).registers (getRs2 s.if_id.IR) := by
  rw [runCycle_id_ex]
  unfold afterID
  have h := ID_stage_latch (afterEX s) (afterEX_squash_false s h1)
    (by rw [(afterEX_frame s).1]; exact h2)
    (by
      rw [afterEX_checkDataHazard, (afterEX_frame s).1]
      intro hc
      exact h3 ⟨h1, h2, hc.1, hc.2⟩)
  rw [(afterEX_frame s).1, (afterEX_frame s).2.2.2.2.2] at h
  exact h

/-! ## Fetch -/

theorem IF_stage_next (s : RISCVSimulator) :
    (IF_stage s).if_id_next =
      if s.branch_taken = true then {} else fetchLatch s.instructionMemory s.PC := by
  unfold IF_stage fetchLatch
  split_ifs <;> rfl

/-- The IF/ID latch after a cycle that does not stall. -/
theorem runCycle_if_id_of_not_stall (s : RISCVSimulator) (h : ¬ stallNow s) :
    (runCycle s).if_id =
      if (afterEX s).branch_taken = true then {}
      else fetchLatch s.instructionMemory (afterEX s).PC := by
  have hst : (afterID s).stall = false := by
    cases hb : (afterID s).stall
    · rfl
    · exact absurd ((afterID_stall_iff s).1 hb) h
  rw [runCycle_if_id, if_pos hst, IF_stage_next]
  simp [afterID]

/-! ## Redirection of `PC` by `EX_stage` -/

theorem EX_stage_PC_branch (s : RISCVSimulator) (hv : s.id_ex.valid = true)
    (hop : getOpcode s.id_ex.IR = 0x63) :
    (EX_stage s).PC =
      if getFunct3 s.id_ex.IR = 0 ∧ s.id_ex.A = s.id_ex.B
      then add32 (sub32 s.id_ex.NPC 4) (toU32 s.id_ex.Imm) else s.id_ex.NPC := by
  simp only [EX_stage, setALU, hv, hop]
  by_cases h3 : getFunct3 s.id_ex.IR = 0 <;> by_cases hab : s.id_ex.A = s.id_ex.B <;>
    simp [h3, hab]

theorem EX_stage_PC_jal (s : RISCVSimulator) (hv : s.id_ex.valid = true)
    (hop : getOpcode s.id_ex.IR = 0x6F) :
    (EX_stage s).PC = add32 (sub32 s.id_ex.NPC 4) (toU32 s.id_ex.Imm) := by
  simp [EX_stage, setALU, hv, hop]

theorem EX_stage_PC_jalr (s : RISCVSimulator) (hv : s.id_ex.valid = true)
    (hop : getOpcode s.id_ex.IR = 0x67) :
    (EX_stage s).PC = toU32 (wrap32 (s.id_ex.A + s.id_ex.Imm)) &&& 0xFFFFFFFE := by
  simp [EX_stage, setALU, hv, hop]

/-- The redirect target `(NPC - 4) + Imm` as a 32-bit wrapping sum. -/
theorem target_eq (n : Nat) (i : Int) :
    ((add32 (sub32 n 4) (toU32 i) : Nat) : Int) = ((n : Int) - 4 + i) % 4294967296 := by
  unfold add32 sub32 toU32
  have h : (0 : Int) ≤ i % 4294967296 := Int.emod_nonneg _ (by norm_num)
  push_cast [Int.toNat_of_nonneg h]
  omega

/-- Masking a 32-bit pattern with `0xFFFFFFFE` clears bit 0. -/
theorem and_clear_bit0 (u : Nat) (hu : u < 4294967296) : u &&& 0xFFFFFFFE = u - u % 2 := by
  apply Nat.eq_of_testBit_eq
  intro i
  rw [Nat.testBit_and]
  cases i with
  | zero =>
    simp only [Nat.testBit_zero]
    have : (u - u % 2) % 2 = 0 := by omega
    simp [this]
  | succ j =>
    rw [Nat.testBit_succ, Nat.testBit_succ, Nat.testBit_succ]
    have h1 : (u - u % 2) / 2 = u / 2 := by omega
    have h2 : (4294967294 : Nat) / 2 = 2 ^ 31 - 1 := by norm_num
    rw [h1, h2, Nat.testBit_two_pow_sub_one]
    by_cases hj : j < 31
    · simp [hj]
    · have hlt : u / 2 < 2 ^ j := by
        have : (2 : Nat) ^ 31 ≤ 2 ^ j := Nat.pow_le_pow_right (by norm_num) (by omega)
        have : u / 2 < 2 ^ 31 := by norm_num; omega
        omega
      simp [hj, Nat.testBit_eq_false_of_lt hlt]

theorem toU32_lt (x : Int) : toU32 x < 4294967296 := by
  unfold toU32
  have : x % 4294967296 < 4294967296 := Int.emod_lt_of_pos _ (by norm_num)
  omega

theorem toU32_wrap32 (x : Int) : toU32 (wrap32 x) = toU32 x := by
  unfold toU32 wrap32
  congr 1
  omega

/-- Clearing bit 0 of the 32-bit pattern of a wrapped sum. -/
theorem jalr_target_eq (x : Int) :
    toU32 (wrap32 x) &&& 0xFFFFFFFE = toU32 x - toU32 x % 2 := by
  rw [toU32_wrap32, and_clear_bit0 _ (toU32_lt x)]


/-! ## Invariants of reachable states -/

/-- An invariant of `runCycle` holds after any number of cycles. -/
theorem runCycles_invariant (P : RISCVSimulator → Prop)
    (step : ∀ s, P s → P (runCycle s)) : ∀ (n : Nat) (s : RISCVSimulator), P s → P (runCycles n s)
  | 0, _, h => h
  | n + 1, s, h => runCycles_invariant P step n (runCycle s) (step s h)

theorem WB_stage_registers_zero_eq (s : RISCVSimulator) :
    (WB_stage s).registers 0 = if s.mem_wb.valid = true then 0 else s.registers 0 := by
  unfold WB_stage
  dsimp only
  split_ifs <;> simp_all [setReg]

theorem runCycle_registers_zero (s : RISCVSimulator) (h : s.registers 0 = 0) :
    (runCycle s).registers 0 = 0 := by
  rw [runCycle_registers]
  exact WB_stage_registers_zero _ h

/-! ## C2: register 0 -/

/-- C2: in every state reachable from reset (of any simulator state, hence
for any instruction-memory contents, and in particular from the state `main`
starts with for any loaded program) `registers[0]` is 0; `WB_stage` leaves
`registers[0]` at 0 whenever it retires an instruction. In particular
`addi x0,x0,7` reaches MEM/WB with `ALUOutput = 7`, retires in the fifth cycle
(`instructionsCompleted` becomes 1) and `registers[0]` is still 0. -/
theorem register_zero_invariant (s0 : RISCVSimulator) (words : List Nat) (n : Nat) :
    (runCycles n (reset s0)).registers 0 = 0 ∧
    (runCycles n (initial words)).registers 0 = 0 ∧
    (WB_stage s0).registers 0 = (if s0.mem_wb.valid = true then 0 else s0.registers 0) ∧
    (runCycles 4 (initial [0x00700013])).mem_wb = { IR := 0x00700013, ALUOutput := 7, valid := true } ∧
    (runCycles 5 (initial [0x00700013])).instructionsCompleted = 1 ∧
    (runCycles 5 (initial [0x00700013])).registers 0 = 0 ∧
    (runToCompletion 5 (initial [0x00700013])).map
      (fun s => (s.registers 0, s.instructionsCompleted, s.totalCycles)) = some (0, 1, 5) := by
  refine ⟨?_, ?_, WB_stage_registers_zero_eq s0, by decide, by decide, by decide, by decide⟩
  · exact runCycles_invariant (fun s => s.registers 0 = 0) runCycle_registers_zero n _ rfl
  · exact runCycles_invariant (fun s => s.registers 0 = 0) runCycle_registers_zero n _ rfl

/-! ## Parity of the program counter -/

theorem toS32_mod_two (u : Nat) : toS32 u % 2 = (u : Int) % 2 := by
  unfold toS32 wrap32
  omega

theorem toU32_mod_two (x : Int) : ((toU32 x : Nat) : Int) % 2 = x % 2 := by
  unfold toU32
  have h : (0 : Int) ≤ x % 4294967296 := Int.emod_nonneg _ (by norm_num)
  rw [Int.toNat_of_nonneg h]
  omega

theorem getImmB_even (w : Nat) : getImmB w % 2 = 0 := by
  unfold getImmB
  dsimp only
  have h : ∀ m : Nat, ¬ (m % 2 = 1) → (m : Int) % 2 = 0 := by
    intro m hm
    omega
  split_ifs <;> rw [toS32_mod_two] <;> apply h <;>
    simp [Nat.or_mod_two_eq_one, Nat.and_mod_two_eq_one]

theorem getImmJ_even (w : Nat) : getImmJ w % 2 = 0 := by
  unfold getImmJ
  dsimp only
  have h : ∀ m : Nat, ¬ (m % 2 = 1) → (m : Int) % 2 = 0 := by
    intro m hm
    omega
  split_ifs <;> rw [toS32_mod_two] <;> apply h <;>
    simp [Nat.or_mod_two_eq_one, Nat.and_mod_two_eq_one]

theorem target_even (n : Nat) (i : Int) (hn : n % 2 = 0) (hi : i % 2 = 0) :
    add32 (sub32 n 4) (toU32 i) % 2 = 0 := by
  have h := target_eq n i
  omega

theorem add32_four_even (n : Nat) (hn : n % 2 = 0) : add32 n 4 % 2 = 0 := by
  unfold add32
  omega

theorem fetchLatch_NPC_even (mem : Nat → Nat) (pc : Nat) (h : pc % 2 = 0) :
    (fetchLatch mem pc).NPC % 2 = 0 := by
  unfold fetchLatch
  split
  · exact add32_four_even pc h
  · rfl

/-- The immediate that the normal path of `ID_stage` latches for a branch
and for JAL. -/
theorem ID_stage_latch_Imm (s : RISCVSimulator) (h1 : s.squash_if_id = false)
    (h2 : s.if_id.valid = true) :
    (getOpcode s.if_id.IR = 0x63 → (ID_stage s).id_ex_next.Imm = getImmB s.if_id.IR) ∧
    (getOpcode s.if_id.IR = 0x6F → (ID_stage s).id_ex_next.Imm = getImmJ s.if_id.IR) := by
  obtain ⟨P, hP⟩ : ∃ P : RISCVSimulator → Prop, P = fun t =>
      (getOpcode s.if_id.IR = 0x63 → t.id_ex_next.Imm = getImmB s.if_id.IR) ∧
      (getOpcode s.if_id.IR = 0x6F → t.id_ex_next.Imm = getImmJ s.if_id.IR) := ⟨_, rfl⟩
  suffices h : P (ID_stage s) by rw [hP] at h; exact h
  unfold ID_stage
  dsimp only
  repeat' (refine ite_cases P _ _ _ (fun _ => ?_) (fun _ => ?_))
  all_goals (subst hP; refine ⟨fun h => ?_, fun h => ?_⟩ <;> simp_all)


theorem afterEX_PC_even (s : RISCVSimulator) (h : PCEven s) : (afterEX s).PC % 2 = 0 := by
  obtain ⟨hpc, -, hnpc, himm⟩ := h
  by_cases hc : ctlInEX s
  · have hv : (MEM_stage (WB_stage { s with stall := false })).id_ex.valid = true := by
      simpa using hc.1
    have hIR : (MEM_stage (WB_stage { s with stall := false })).id_ex = s.id_ex := by simp
    unfold afterEX
    rcases hc.2 with hop | hop | hop
    · rw [EX_stage_PC_branch _ hv (by rw [hIR]; exact hop), hIR]
      split
      · exact target_even _ _ hnpc (himm (Or.inl hop))
      · exact hnpc
    · rw [EX_stage_PC_jal _ hv (by rw [hIR]; exact hop), hIR]
      exact target_even _ _ hnpc (himm (Or.inr hop))
    · rw [EX_stage_PC_jalr _ hv (by rw [hIR]; exact hop), hIR, jalr_target_eq]
      omega
  · rw [(afterEX_not_ctl s hc).1]
    exact hpc

theorem PCEven_runCycle (s : RISCVSimulator) (h : PCEven s) : PCEven (runCycle s) := by
  have he := afterEX_PC_even s h
  obtain ⟨-, hif, -, -⟩ := h
  refine ⟨?_, ?_, ?_, ?_⟩
  · rw [runCycle_PC]
    split
    · exact add32_four_even _ he
    · exact he
  · rw [runCycle_if_id, IF_stage_next]
    split
    · split
      · rfl
      · apply fetchLatch_NPC_even
        have : (afterID s).PC = (afterEX s).PC := by simp [afterID]
        rw [this]
        exact he
    · exact hif
  · rw [runCycle_id_ex]
    unfold afterID
    by_cases hb : (afterEX s).squash_if_id = true ∨ (afterEX s).if_id.valid = false ∨
        (checkDataHazard (afterEX s) = true ∧ ¬ ctlOpcode (getOpcode (afterEX s).if_id.IR))
    · rw [ID_stage_bubble _ hb]
      rfl
    · have hb' := not_or.1 hb
      have hb'' := not_or.1 hb'.2
      have h1 : (afterEX s).squash_if_id = false := by simpa using hb'.1
      have h2 : (afterEX s).if_id.valid = true := by simpa using hb''.1
      rw [(ID_stage_latch _ h1 h2 hb''.2).2.2.1, (afterEX_frame s).1]
      exact hif
  · rw [runCycle_id_ex]
    unfold afterID
    by_cases hb : (afterEX s).squash_if_id = true ∨ (afterEX s).if_id.valid = false ∨
        (checkDataHazard (afterEX s) = true ∧ ¬ ctlOpcode (getOpcode (afterEX s).if_id.IR))
    · rw [ID_stage_bubble _ hb]
      intro h
      rcases h with h | h <;> exact absurd h (by decide)
    · have hb' := not_or.1 hb
      have hb'' := not_or.1 hb'.2
      have h1 : (afterEX s).squash_if_id = false := by simpa using hb'.1
      have h2 : (afterEX s).if_id.valid = true := by simpa using hb''.1
      have hI := ID_stage_latch_Imm _ h1 h2
      rw [(ID_stage_latch _ h1 h2 hb''.2).2.1]
      intro h
      rcases h with h | h
      · rw [hI.1 h]
        exact getImmB_even _
      · rw [hI.2 h]
        exact getImmJ_even _

theorem PCEven_reset (s0 : RISCVSimulator) : PCEven (reset s0) :=
  ⟨rfl, rfl, rfl, fun h => by
    have h' : getOpcode 0 = 0x63 ∨ getOpcode 0 = 0x6F := h
    rcases h' with h' | h' <;> exact absurd h' (by decide)⟩

theorem PCEven_initial (words : List Nat) : PCEven (initial words) :=
  ⟨rfl, rfl, rfl, fun h => by
    have h' : getOpcode 0 = 0x63 ∨ getOpcode 0 = 0x6F := h
    rcases h' with h' | h' <;> exact absurd h' (by decide)⟩

/-! ## C3: alignment of the program counter -/

/-- C3, as stated, fails: a branch whose offset is 2 (`beq x0,x0,+2`) is
taken in the third cycle and leaves `PC = 2`. -/
theorem pc_multiple_of_four_counterexample :
    (runCycles 3 (initial [0x00000163])).PC = 2 ∧
      ¬ ((runCycles 3 (initial [0x00000163])).PC % 4 = 0) := by
  decide

/-- C3, amended: in every state reachable from reset, for any loaded program,
`PC` is even (a multiple of 2). -/
theorem pc_even_invariant (s0 : RISCVSimulator) (words : List Nat) (n : Nat) :
    (runCycles n (reset s0)).PC % 2 = 0 ∧ (runCycles n (initial words)).PC % 2 = 0 := by
  exact ⟨(runCycles_invariant PCEven PCEven_runCycle n _ (PCEven_reset s0)).1,
    (runCycles_invariant PCEven PCEven_runCycle n _ (PCEven_initial words)).1⟩

/-! ## C4: a control transfer in EX redirects fetch and squashes -/

/-- C4: when ID/EX holds a valid branch, JAL or JALR, then after `runCycle`
IF/ID is invalid, ID/EX is invalid, `stall` is false and `PC` is the redirect
target with no further `+4`: `(NPC - 4) + Imm` modulo `2^32` for JAL and for a
BEQ whose latched `A` equals `B`; `NPC` for a branch that is not taken;
`A + Imm` modulo `2^32` with bit 0 cleared for JALR. The fetch of the
following cycle is made at that redirected `PC`. -/
theorem control_transfer_redirects (s : RISCVSimulator) (hv : s.id_ex.valid = true)
    (hop : ctlOpcode (getOpcode s.id_ex.IR)) :
    (runCycle s).if_id.valid = false ∧ (runCycle s).id_ex.valid = false ∧
    (runCycle s).stall = false ∧
    (getOpcode s.id_ex.IR = 0x6F →
      ((runCycle s).PC : Int) = ((s.id_ex.NPC : Int) - 4 + s.id_ex.Imm) % 4294967296) ∧
    (getOpcode s.id_ex.IR = 0x63 → getFunct3 s.id_ex.IR = 0 → s.id_ex.A = s.id_ex.B →
      ((runCycle s).PC : Int) = ((s.id_ex.NPC : Int) - 4 + s.id_ex.Imm) % 4294967296) ∧
    (getOpcode s.id_ex.IR = 0x63 → ¬ (getFunct3 s.id_ex.IR = 0 ∧ s.id_ex.A = s.id_ex.B) →
      (runCycle s).PC = s.id_ex.NPC) ∧
    (getOpcode s.id_ex.IR = 0x67 →
      ((runCycle s).PC : Int) =
        (s.id_ex.A + s.id_ex.Imm) % 4294967296 - (s.id_ex.A + s.id_ex.Imm) % 2) ∧
    (runCycle (runCycle s)).if_id = fetchLatch s.instructionMemory (runCycle s).PC := by
  have hctl : ctlInEX s := ⟨hv, hop⟩
  have hns : ¬ stallNow s := fun h => h.1 (Or.inr hctl)
  have hbt : (afterEX s).branch_taken = true := afterEX_ctl s hctl
  have hstall : (runCycle s).stall = false := by
    cases hb : (runCycle s).stall
    · rfl
    · exact absurd ((runCycle_stall_iff s).1 hb) hns
  have hif : (runCycle s).if_id = {} := by
    rw [runCycle_if_id_of_not_stall s hns, if_pos hbt]
  have hid : (runCycle s).id_ex = {} := by
    rw [runCycle_id_ex]
    unfold afterID
    exact ID_stage_bubble _ (Or.inl ((afterEX_squash_iff s).2 (Or.inr hctl)))
  have hpc : (runCycle s).PC = (afterEX s).PC := by
    rw [runCycle_PC]
    simp [hbt]
  have hv' : (MEM_stage (WB_stage { s with stall := false })).id_ex.valid = true := by
    simpa using hv
  have hIR : (MEM_stage (WB_stage { s with stall := false })).id_ex = s.id_ex := by simp
  refine ⟨by rw [hif], by rw [hid], hstall, ?_, ?_, ?_, ?_, ?_⟩
  · intro h
    rw [hpc]
    unfold afterEX
    rw [EX_stage_PC_jal _ hv' (by rw [hIR]; exact h), hIR, target_eq]
  · intro h h3 hab
    rw [hpc]
    unfold afterEX
    rw [EX_stage_PC_branch _ hv' (by rw [hIR]; exact h), hIR, if_pos ⟨h3, hab⟩, target_eq]
  · intro h hnt
    rw [hpc]
    unfold afterEX
    rw [EX_stage_PC_branch _ hv' (by rw [hIR]; exact h), hIR, if_neg hnt]
  · intro h
    rw [hpc]
    unfold afterEX
    rw [EX_stage_PC_jalr _ hv' (by rw [hIR]; exact h), hIR, jalr_target_eq]
    have h1 : toU32 (s.id_ex.A + s.id_ex.Imm) % 2 ≤ toU32 (s.id_ex.A + s.id_ex.Imm) :=
      Nat.mod_le _ _
    have h2 : (0 : Int) ≤ (s.id_ex.A + s.id_ex.Imm) % 4294967296 :=
      Int.emod_nonneg _ (by norm_num)
    rw [Nat.cast_sub h1]
    unfold toU32
    push_cast [Int.toNat_of_nonneg h2]
    omega
  · have hsq : ¬ squashSeen (runCycle s) := by
      intro hq
      rcases hq with hq | hq
      · rw [runCycle_squash_if_id] at hq
        exact Bool.noConfusion hq
      · have := hq.1
        rw [hid] at this
        exact Bool.noConfusion this
    have hns1 : ¬ stallNow (runCycle s) := by
      intro h
      have := h.2.1
      rw [hif] at this
      exact Bool.noConfusion this
    have hnc : ¬ ctlInEX (runCycle s) := fun h => hsq (Or.inr h)
    have h2 := afterEX_not_ctl (runCycle s) hnc
    rw [runCycle_if_id_of_not_stall _ hns1, h2.1, h2.2, runCycle_branch_taken,
      runCycle_instructionMemory]
    simp

/-- Witness for C4: after four cycles of the taken-branch program the BEQ is
in ID/EX. -/
theorem control_transfer_redirects_witness :
    branchState.id_ex.valid = true ∧ ctlOpcode (getOpcode branchState.id_ex.IR) ∧
    ((runCycle branchState).if_id.valid = false ∧ (runCycle branchState).id_ex.valid = false ∧
    (runCycle branchState).stall = false ∧
    (getOpcode branchState.id_ex.IR = 0x6F →
      ((runCycle branchState).PC : Int)
        = ((branchState.id_ex.NPC : Int) - 4 + branchState.id_ex.Imm) % 4294967296) ∧
    (getOpcode branchState.id_ex.IR = 0x63 → getFunct3 branchState.id_ex.IR = 0 →
      branchState.id_ex.A = branchState.id_ex.B →
      ((runCycle branchState).PC : Int)
        = ((branchState.id_ex.NPC : Int) - 4 + branchState.id_ex.Imm) % 4294967296) ∧
    (getOpcode branchState.id_ex.IR = 0x63 →
      ¬ (getFunct3 branchState.id_ex.IR = 0 ∧ branchState.id_ex.A = branchState.id_ex.B) →
      (runCycle branchState).PC = branchState.id_ex.NPC) ∧
    (getOpcode branchState.id_ex.IR = 0x67 →
      ((runCycle branchState).PC : Int) =
        (branchState.id_ex.A + branchState.id_ex.Imm) % 4294967296
          - (branchState.id_ex.A + branchState.id_ex.Imm) % 2) ∧
    (runCycle (runCycle branchState)).if_id
      = fetchLatch branchState.instructionMemory (runCycle branchState).PC) :=
  ⟨by decide, by decide, control_transfer_redirects branchState (by decide) (by decide)⟩

/-- What a cycle that ends with `stall` asserted leaves behind. -/
theorem runCycle_of_stall (s : RISCVSimulator) (h : (runCycle s).stall = true) :
    (runCycle s).if_id = s.if_id ∧ (runCycle s).PC = s.PC ∧ (runCycle s).id_ex = {} := by
  have hs : stallNow s := (runCycle_stall_iff s).1 h
  have hst : (afterID s).stall = true := by rw [← runCycle_stall]; exact h
  have hctl : ¬ ctlInEX s := fun hc => hs.1 (Or.inr hc)
  refine ⟨?_, ?_, runCycle_id_ex_of_stall s hs⟩
  · rw [runCycle_if_id]
    simp [hst]
  · rw [runCycle_PC]
    simp [hst, (afterEX_not_ctl s hctl).1]

/-! ## C5: a stalling cycle freezes fetch and bubbles decode -/

/-- C5: if `runCycle` ends with `stall` asserted, then the IF/ID latch (all of
`IR`, `NPC`, `valid`) and `PC` are exactly what they were before the cycle,
and the resulting ID/EX latch is the bubble, hence invalid. -/
theorem stall_holds_fetch_and_bubbles_decode (s : RISCVSimulator)
    (h : (runCycle s).stall = true) :
    (runCycle s).if_id = s.if_id ∧ (runCycle s).PC = s.PC ∧
      (runCycle s).id_ex = {} ∧ (runCycle s).id_ex.valid = false := by
  obtain ⟨h1, h2, h3⟩ := runCycle_of_stall s h
  exact ⟨h1, h2, h3, by rw [h3]⟩

/-! ## C6: a stalled instruction is not lost in the next cycle -/

/-- C6: if `stall` is asserted at the end of a cycle, then after the following
cycle the instruction held in IF/ID is either still there (the latch is
unchanged and valid) or has been latched into ID/EX, valid and with the same
`IR`. -/
theorem stalled_instruction_survives (s : RISCVSimulator)
    (h : (runCycle s).stall = true) :
    ((runCycle (runCycle s)).if_id = (runCycle s).if_id ∧ (runCycle s).if_id.valid = true) ∨
    ((runCycle (runCycle s)).id_ex.valid = true ∧
      (runCycle (runCycle s)).id_ex.IR = (runCycle s).if_id.IR) := by
  have hs : stallNow s := (runCycle_stall_iff s).1 h
  obtain ⟨hif, -, hid⟩ := runCycle_of_stall s h
  have hv : (runCycle s).if_id.valid = true := by rw [hif]; exact hs.2.1
  have hsq : ¬ squashSeen (runCycle s) := by
    intro hq
    rcases hq with hq | hq
    · rw [runCycle_squash_if_id] at hq
      exact Bool.noConfusion hq
    · have := hq.1
      rw [hid] at this
      exact Bool.noConfusion this
  by_cases h2 : stallNow (runCycle s)
  · left
    have hst : (afterID (runCycle s)).stall = true := (afterID_stall_iff _).2 h2
    refine ⟨?_, hv⟩
    rw [runCycle_if_id]
    simp [hst]
  · right
    have := runCycle_id_ex_of_latch (runCycle s) hsq hv h2
    exact ⟨this.1, this.2.1⟩

/-! ## C7: the retirement counter -/

/-- C7: one `runCycle` adds exactly 1 to `instructionsCompleted` when MEM/WB is
valid at the start of the cycle and exactly 0 when it is a bubble; the counter
never decreases and never grows by more than 1. -/
theorem instructionsCompleted_step (s : RISCVSimulator) :
    (runCycle s).instructionsCompleted
        = s.instructionsCompleted + (if s.mem_wb.valid = true then 1 else 0) ∧
      s.instructionsCompleted ≤ (runCycle s).instructionsCompleted ∧
      (runCycle s).instructionsCompleted ≤ s.instructionsCompleted + 1 := by
  rw [runCycle_instructionsCompleted]
  split <;> simp


/-- Witness for C5: the fourth cycle of the hazard program stalls. -/
theorem stall_holds_fetch_and_bubbles_decode_witness :
    (runCycle hazardState).stall = true ∧
      ((runCycle hazardState).if_id = hazardState.if_id ∧
        (runCycle hazardState).PC = hazardState.PC ∧
        (runCycle hazardState).id_ex = {} ∧ (runCycle hazardState).id_ex.valid = false) :=
  ⟨by decide, stall_holds_fetch_and_bubbles_decode hazardState (by decide)⟩

/-- Witness for C6: the fourth cycle of the hazard program stalls. -/
theorem stalled_instruction_survives_witness :
    (runCycle hazardState).stall = true ∧
      (((runCycle (runCycle hazardState)).if_id = (runCycle hazardState).if_id ∧
          (runCycle hazardState).if_id.valid = true) ∨
        ((runCycle (runCycle hazardState)).id_ex.valid = true ∧
          (runCycle (runCycle hazardState)).id_ex.IR = (runCycle hazardState).if_id.IR)) :=
  ⟨by decide, stalled_instruction_survives hazardState (by decide)⟩


/-! ## Running to completion -/

theorem runToCompletion_succ (n : Nat) (s : RISCVSimulator) :
    runToCompletion (n + 1) s =
      if isProgramComplete s = true then some s else runToCompletion n (runCycle s) := rfl

theorem runToCompletion_zero (s : RISCVSimulator) :
    runToCompletion 0 s = if isProgramComplete s = true then some s else none := rfl

/-- More fuel does not change the result of a run that completes. -/
theorem runToCompletion_add (m : Nat) : ∀ (n : Nat) (s f : RISCVSimulator),
    runToCompletion n s = some f → runToCompletion (n + m) s = some f
  | 0, s, f, h => by
    rw [runToCompletion_zero] at h
    by_cases hc : isProgramComplete s = true
    · rw [if_pos hc] at h
      cases m with
      | zero => rw [Nat.add_zero, runToCompletion_zero, if_pos hc]; exact h
      | succ k => rw [Nat.zero_add, runToCompletion_succ, if_pos hc]; exact h
    · rw [if_neg hc] at h
      exact Option.noConfusion h
  | n + 1, s, f, h => by
    rw [runToCompletion_succ] at h
    rw [Nat.add_right_comm, runToCompletion_succ]
    by_cases hc : isProgramComplete s = true
    · rw [if_pos hc] at h
      rw [if_pos hc]
      exact h
    · rw [if_neg hc] at h
      rw [if_neg hc]
      exact runToCompletion_add m n _ f h


theorem runTrace_succ (n : Nat) (s : RISCVSimulator) :
    runTrace (n + 1) s = s :: runTrace n (runCycle s) := rfl

theorem runTrace_zero (s : RISCVSimulator) : runTrace 0 s = [s] := rfl

theorem ite_setALU (c : Prop) [Decidable c] (s : RISCVSimulator) (x y : Int) :
    (if c then setALU s x else setALU s y) = setALU s (if c then x else y) := by
  split <;> rfl


/-- The trace in terms of `runCycles`. -/
theorem runTrace_eq : ∀ (n : Nat) (s : RISCVSimulator),
    runTrace n s = (List.range (n + 1)).map (fun k => runCycles k s)
  | 0, s => rfl
  | n + 1, s => by
    rw [runTrace_succ, runTrace_eq n (runCycle s)]
    conv_rhs => rw [List.range_succ_eq_map, List.map_cons, List.map_map]
    rfl

/-- A run whose first complete state is the one after `n` cycles. -/
theorem runToCompletion_of_trace : ∀ (n : Nat) (s : RISCVSimulator),
    (runTrace n s).map (fun t => isProgramComplete t) = List.replicate n false ++ [true] →
    runToCompletion n s = some (runCycles n s)
  | 0, s, h => by
    rw [runTrace_zero] at h
    have hc : isProgramComplete s = true := by simpa using h
    rw [runToCompletion_zero, if_pos hc]
    rfl
  | n + 1, s, h => by
    rw [runTrace_succ, List.map_cons, List.replicate_succ, List.cons_append] at h
    have h1 := List.cons.inj h
    have hc : ¬ isProgramComplete s = true := by rw [h1.1]; exact Bool.false_ne_true
    rw [runToCompletion_succ, if_neg hc, runCycles_succ]
    exact runToCompletion_of_trace n (runCycle s) h1.2


/-! ## Field extraction as division and remainder -/

theorem getOpcode_eq (w : Nat) : getOpcode w = w % 128 := by
  unfold getOpcode
  exact Nat.and_pow_two_sub_one_eq_mod w 7

theorem getRd_eq (w : Nat) : getRd w = w / 128 % 32 := by
  unfold getRd
  rw [Nat.shiftRight_eq_div_pow]
  exact Nat.and_pow_two_sub_one_eq_mod _ 5

theorem getFunct3_eq (w : Nat) : getFunct3 w = w / 4096 % 8 := by
  unfold getFunct3
  rw [Nat.shiftRight_eq_div_pow]
  exact Nat.and_pow_two_sub_one_eq_mod _ 3

theorem getRs1_eq (w : Nat) : getRs1 w = w / 32768 % 32 := by
  unfold getRs1
  rw [Nat.shiftRight_eq_div_pow]
  exact Nat.and_pow_two_sub_one_eq_mod _ 5

theorem getRs2_eq (w : Nat) : getRs2 w = w / 1048576 % 32 := by
  unfold getRs2
  rw [Nat.shiftRight_eq_div_pow]
  exact Nat.and_pow_two_sub_one_eq_mod _ 5

theorem getFunct7_eq (w : Nat) : getFunct7 w = w / 33554432 % 128 := by
  unfold getFunct7
  rw [Nat.shiftRight_eq_div_pow]
  exact Nat.and_pow_two_sub_one_eq_mod _ 7

theorem bit30_eq (w : Nat) : (w >>> 30) &&& 1 = w / 1073741824 % 2 := by
  rw [Nat.shiftRight_eq_div_pow]
  exact Nat.and_pow_two_sub_one_eq_mod _ 1

/-- The fields of an `addi rd, x0, imm` word. -/
theorem encodeI_addi_fields (imm rd : Nat) (hi : imm < 4096) (hr : rd < 32) :
    getOpcode (encodeI imm 0 0 rd 0x13) = 19 ∧ getRd (encodeI imm 0 0 rd 0x13) = rd ∧
    getRs1 (encodeI imm 0 0 rd 0x13) = 0 ∧ getFunct3 (encodeI imm 0 0 rd 0x13) = 0 ∧
    encodeI imm 0 0 rd 0x13 < 4294967296 ∧ encodeI imm 0 0 rd 0x13 ≠ 0 := by
  rw [getOpcode_eq, getRd_eq, getRs1_eq, getFunct3_eq]
  unfold encodeI
  norm_num
  omega

/-! ## C9: read-after-write hazard on both operands -/

set_option maxHeartbeats 4000000 in
/-- The cycle-by-cycle run of `addi x1,x0,_ ; addi x2,x0,_ ; add x3,x1,x2`. -/
theorem hazard_trace (w1 w2 : Nat)
    (o1 : getOpcode w1 = 19) (r1 : getRd w1 = 1) (s1 : getRs1 w1 = 0) (f1 : getFunct3 w1 = 0)
    (l1 : w1 < 4294967296) (n1 : w1 ≠ 0)
    (o2 : getOpcode w2 = 19) (r2 : getRd w2 = 2) (s2 : getRs1 w2 = 0) (f2 : getFunct3 w2 = 0)
    (l2 : w2 < 4294967296) (n2 : w2 ≠ 0) :
    ∃ l, runTrace 9 (initial [w1, w2, 0x002081B3]) = l ∧
      l.map (fun s => s.stall)
        = [false, false, false, false, true, true, false, false, false, false] ∧
      l.map (fun s => isProgramComplete s)
        = [false, false, false, false, false, false, false, false, false, true] ∧
      l.map (fun s => (s.if_id.valid, s.if_id.IR))
        = [(false, 0), (true, w1), (true, w2), (true, 0x002081B3), (true, 0x002081B3),
           (true, 0x002081B3), (false, 0), (false, 0), (false, 0), (false, 0)] ∧
      l.map (fun s => (s.id_ex.valid, s.id_ex.IR))
        = [(false, 0), (false, 0), (true, w1), (true, w2), (false, 0), (false, 0),
           (true, 0x002081B3), (false, 0), (false, 0), (false, 0)] ∧
      l.map (fun s => s.instructionsCompleted) = [0, 0, 0, 0, 0, 1, 2, 2, 2, 3] ∧
      l.map (fun s => s.totalCycles) = [0, 1, 2, 3, 4, 5, 6, 7, 8, 9] ∧
      ∃ s0 s1 s2 s3 s4 s5 s6 s7 s8 f, l = [s0, s1, s2, s3, s4, s5, s6, s7, s8, f] ∧
        s6.registers 1 = f.registers 1 ∧ s6.registers 2 = f.registers 2 ∧
        s6.id_ex.A = f.registers 1 ∧ s6.id_ex.B = f.registers 2 ∧
        f.registers 3 = wrap32 (f.registers 1 + f.registers 2) := by
  have c1 : getOpcode 0x002081B3 = 51 := by decide
  have c2 : getRd 0x002081B3 = 3 := by decide
  have c3 : getRs1 0x002081B3 = 1 := by decide
  have c4 : getRs2 0x002081B3 = 2 := by decide
  have c5 : getFunct3 0x002081B3 = 0 := by decide
  have c6 : getFunct7 0x002081B3 = 0 := by decide
  obtain ⟨P, hP⟩ : ∃ P : List RISCVSimulator → Prop, P = fun l =>
      l.map (fun s => s.stall)
        = [false, false, false, false, true, true, false, false, false, false] ∧
      l.map (fun s => isProgramComplete s)
        = [false, false, false, false, false, false, false, false, false, true] ∧
      l.map (fun s => (s.if_id.valid, s.if_id.IR))
        = [(false, 0), (true, w1), (true, w2), (true, 0x002081B3), (true, 0x002081B3),
           (true, 0x002081B3), (false, 0), (false, 0), (false, 0), (false, 0)] ∧
      l.map (fun s => (s.id_ex.valid, s.id_ex.IR))
        = [(false, 0), (false, 0), (true, w1), (true, w2), (false, 0), (false, 0),
           (true, 0x002081B3), (false, 0), (false, 0), (false, 0)] ∧
      l.map (fun s => s.instructionsCompleted) = [0, 0, 0, 0, 0, 1, 2, 2, 2, 3] ∧
      l.map (fun s => s.totalCycles) = [0, 1, 2, 3, 4, 5, 6, 7, 8, 9] ∧
      ∃ s0 s1 s2 s3 s4 s5 s6 s7 s8 f, l = [s0, s1, s2, s3, s4, s5, s6, s7, s8, f] ∧
        s6.registers 1 = f.registers 1 ∧ s6.registers 2 = f.registers 2 ∧
        s6.id_ex.A = f.registers 1 ∧ s6.id_ex.B = f.registers 2 ∧
        f.registers 3 = wrap32 (f.registers 1 + f.registers 2) := ⟨_, rfl⟩
  suffices h : P (runTrace 9 (initial [w1, w2, 0x002081B3])) by
    rw [hP] at h
    exact ⟨_, rfl, h⟩
  simp only [initial, loadProgram, construct, reset]
  iterate 9 (
    rw [runTrace_succ, runCycle_eq]
    simp only [afterID, afterEX]
    simp [WB_stage, o1, r1, o2, r2, c1, c2, -Nat.reduceShiftRight]
    simp [MEM_stage, o1, o2, c1, -Nat.reduceShiftRight]
    simp [EX_stage, ite_setALU, o1, f1, o2, f2, c1, c5, c6, -Nat.reduceShiftRight]
    try simp [setALU, -Nat.reduceShiftRight]
    simp [ID_stage, checkDataHazard, producerHazard, o1, r1, s1, o2, r2, s2, c1, c2, c3, c4,
      setReg, -Nat.reduceShiftRight]
    simp [fetchOrHold, IF_stage, add32, Nat.mod_eq_of_lt l1, Nat.mod_eq_of_lt l2, n1, n2,
      -Nat.reduceShiftRight]
    simp [commit, add32, -Nat.reduceShiftRight])
  rw [runTrace_zero]
  subst hP
  refine ⟨?_, ?_, ?_, ?_, ?_, ?_, ?_⟩
  · simp only [List.map]
  · simp [isProgramComplete, Nat.mod_eq_of_lt l1, n1]
  · simp only [List.map]
  · simp only [List.map]
  · simp only [List.map]
  · simp only [List.map]
  · refine ⟨_, _, _, _, _, _, _, _, _, _, rfl, ?_, ?_, ?_, ?_, ?_⟩ <;> simp [setReg]

/-- C9: for all 12-bit immediates `a` and `b` the program
`addi x1,x0,a ; addi x2,x0,b ; add x3,x1,x2` is complete after exactly 9
cycles (and not before), with 3 instructions retired and `reg[3]` the 32-bit
wrapping sum of the final `reg[1]` and `reg[2]`. `stall` is asserted at the end
of cycles 4 and 5 and of no other cycle; the `add` sits in IF/ID after cycles
3, 4 and 5 and is latched into ID/EX in cycle 6, when both producers have
retired and with `A`, `B` equal to the final `reg[1]`, `reg[2]`. For `a = 5`,
`b = 10` the program is scenario 2 of the specification and `reg[3]` ends as 15. -/
theorem add_waits_for_its_producers (a b : Nat) (ha : a < 4096) (hb : b < 4096) (extra : Nat) :
    runToCompletion (9 + extra) (initial (addChain a b))
      = some (runCycles 9 (initial (addChain a b))) ∧
    (runCycles 9 (initial (addChain a b))).totalCycles = 9 ∧
    (runCycles 9 (initial (addChain a b))).instructionsCompleted = 3 ∧
    (runCycles 9 (initial (addChain a b))).registers 3
      = wrap32 ((runCycles 9 (initial (addChain a b))).registers 1
          + (runCycles 9 (initial (addChain a b))).registers 2) ∧
    (List.range 10).map (fun k => isProgramComplete (runCycles k (initial (addChain a b))))
      = [false, false, false, false, false, false, false, false, false, true] ∧
    (List.range 10).map (fun k => (runCycles k (initial (addChain a b))).stall)
      = [false, false, false, false, true, true, false, false, false, false] ∧
    (List.range 10).map (fun k => ((runCycles k (initial (addChain a b))).if_id.valid,
        (runCycles k (initial (addChain a b))).if_id.IR))
      = [(false, 0), (true, encodeI a 0 0 1 0x13), (true, encodeI b 0 0 2 0x13),
         (true, 0x002081B3), (true, 0x002081B3), (true, 0x002081B3),
         (false, 0), (false, 0), (false, 0), (false, 0)] ∧
    (List.range 10).map (fun k => ((runCycles k (initial (addChain a b))).id_ex.valid,
        (runCycles k (initial (addChain a b))).id_ex.IR))
      = [(false, 0), (false, 0), (true, encodeI a 0 0 1 0x13), (true, encodeI b 0 0 2 0x13),
         (false, 0), (false, 0), (true, 0x002081B3), (false, 0), (false, 0), (false, 0)] ∧
    (List.range 10).map (fun k => (runCycles k (initial (addChain a b))).instructionsCompleted)
      = [0, 0, 0, 0, 0, 1, 2, 2, 2, 3] ∧
    (runCycles 6 (initial (addChain a b))).id_ex.A
      = (runCycles 9 (initial (addChain a b))).registers 1 ∧
    (runCycles 6 (initial (addChain a b))).id_ex.B
      = (runCycles 9 (initial (addChain a b))).registers 2 ∧
    addChain 5 10 = hazardProgram ∧
    (runCycles 9 (initial hazardProgram)).registers 3 = 15 := by
  obtain ⟨o1, r1, s1, f1, l1, n1⟩ := encodeI_addi_fields a 1 ha (by norm_num)
  obtain ⟨o2, r2, s2, f2, l2, n2⟩ := encodeI_addi_fields b 2 hb (by norm_num)
  obtain ⟨l, hl, hstall, hcomp, hif, hid, hic, htc, s0, t1, t2, t3, t4, t5, s6, t7, t8, f, hlist,
    -, -, hA, hB, h3⟩ := hazard_trace _ _ o1 r1 s1 f1 l1 n1 o2 r2 s2 f2 l2 n2
  have hrun : runToCompletion 9 (initial (addChain a b))
      = some (runCycles 9 (initial (addChain a b))) := by
    apply runToCompletion_of_trace
    unfold addChain
    rw [hl, hcomp]
    rfl
  have hr : List.range 10 = [0, 1, 2, 3, 4, 5, 6, 7, 8, 9] := by decide
  have hl' := hl
  rw [runTrace_eq, hr, hlist] at hl'
  simp only [List.map, List.cons.injEq, and_true] at hl'
  obtain ⟨-, -, -, -, -, -, e6, -, -, e9⟩ := hl'
  rw [runTrace_eq] at hl
  unfold addChain at hrun ⊢
  rw [e9] at hrun
  rw [e6, e9]
  refine ⟨runToCompletion_add extra 9 _ _ hrun, ?_, ?_, h3, ?_, ?_, ?_, ?_, ?_, hA, hB,
    by decide, by decide⟩
  · have := congrArg (fun l => l.getLast?) htc
    rw [hlist] at this
    simpa using this
  · have := congrArg (fun l => l.getLast?) hic
    rw [hlist] at this
    simpa using this
  · rw [← hcomp, ← hl, List.map_map]
    rfl
  · rw [← hstall, ← hl, List.map_map]
    rfl
  · rw [← hif, ← hl, List.map_map]
    rfl
  · rw [← hid, ← hl, List.map_map]
    rfl
  · rw [← hic, ← hl, List.map_map]
    rfl

/-- Witness for C9: the immediates 5 and 10 of scenario 2. -/
theorem add_waits_for_its_producers_witness :
    (5 < 4096 ∧ 10 < 4096) ∧
    runToCompletion 9 (initial (addChain 5 10)) = some (runCycles 9 (initial (addChain 5 10))) ∧
    (runCycles 9 (initial (addChain 5 10))).registers 3 = 15 :=
  ⟨by decide, (add_waits_for_its_producers 5 10 (by decide) (by decide) 0).1, by decide⟩

/-! ## C10: the word after a taken branch is squashed -/

set_option maxHeartbeats 4000000 in
/-- The run of the taken-branch program with an arbitrary word after the BEQ. -/
theorem branch_run (W : Nat) :
    ∃ f, runToCompletion 10 (initial [0x00500093, 0x00500113, 0x00208463, W, 0x01400213]) = some f ∧
      f.totalCycles = 10 ∧ f.instructionsCompleted = 4 ∧
      f.registers = setReg (setReg (setReg (setReg (setReg (setReg (setReg
        (fun _ => 0) 1 5) 0 0) 2 5) 0 0) 0 0) 4 20) 0 0 ∧
      f.dataMemory = fun _ => 0 := by
  have a1 : getOpcode 0x00500093 = 19 := by decide
  have a2 : getRd 0x00500093 = 1 := by decide
  have a3 : getRs1 0x00500093 = 0 := by decide
  have a4 : getRs2 0x00500093 = 5 := by decide
  have a5 : getFunct3 0x00500093 = 0 := by decide
  have a6 : getImmI 0x00500093 = 5 := by decide
  have b1 : getOpcode 0x00500113 = 19 := by decide
  have b2 : getRd 0x00500113 = 2 := by decide
  have b3 : getRs1 0x00500113 = 0 := by decide
  have b4 : getRs2 0x00500113 = 5 := by decide
  have b5 : getFunct3 0x00500113 = 0 := by decide
  have b6 : getImmI 0x00500113 = 5 := by decide
  have c1 : getOpcode 0x00208463 = 99 := by decide
  have c2 : getRd 0x00208463 = 8 := by decide
  have c3 : getRs1 0x00208463 = 1 := by decide
  have c4 : getRs2 0x00208463 = 2 := by decide
  have c5 : getFunct3 0x00208463 = 0 := by decide
  have c6 : getImmB 0x00208463 = 8 := by decide
  have d1 : getOpcode 0x01400213 = 19 := by decide
  have d2 : getRd 0x01400213 = 4 := by decide
  have d3 : getRs1 0x01400213 = 0 := by decide
  have d4 : getRs2 0x01400213 = 20 := by decide
  have d5 : getFunct3 0x01400213 = 0 := by decide
  have d6 : getImmI 0x01400213 = 20 := by decide
  have a7 : (0x00500093 >>> 30) &&& 1 = 0 := by decide
  have b7 : (0x00500113 >>> 30) &&& 1 = 0 := by decide
  have d7 : (0x01400213 >>> 30) &&& 1 = 0 := by decide
  have t1 : add32 (sub32 12 4) (toU32 8) = 16 := by decide
  have w1 : wrap32 (0 + 5) = 5 := by decide
  have w2 : wrap32 (0 + 20) = 20 := by decide
  obtain ⟨P, hP⟩ : ∃ P : Option RISCVSimulator → Prop, P = fun o =>
      ∃ f, o = some f ∧ f.totalCycles = 10 ∧ f.instructionsCompleted = 4 ∧
      f.registers = setReg (setReg (setReg (setReg (setReg (setReg (setReg
        (fun _ => 0) 1 5) 0 0) 2 5) 0 0) 0 0) 4 20) 0 0 ∧
      f.dataMemory = fun _ => 0 := ⟨_, rfl⟩
  suffices h : P (runToCompletion 10
      (initial [0x00500093, 0x00500113, 0x00208463, W, 0x01400213])) by
    rw [hP] at h
    exact h
  simp only [initial, loadProgram, construct, reset]
  by_cases h0 : W % 4294967296 = 0 <;> (
    iterate 10 (
      rw [runToCompletion_succ]
      simp [isProgramComplete, h0, -Nat.reduceShiftRight]
      rw [runCycle_eq]
      simp only [afterID, afterEX]
      simp [WB_stage, a1, a2, b1, b2, c1, c2, d1, d2, -Nat.reduceShiftRight]
      simp [MEM_stage, a1, b1, c1, d1, -Nat.reduceShiftRight]
      simp [EX_stage, setALU, a1, a5, a7, b1, b5, b7, c1, c5, d1, d5, d7, t1, w1, w2,
        -Nat.reduceShiftRight]
      simp [ID_stage, checkDataHazard, producerHazard, a1, a2, a3, a4, a6, b1, b2, b3, b4, b6,
        c1, c2, c3, c4, c6, d1, d2, d3, d4, d6, setReg, -Nat.reduceShiftRight]
      simp [fetchOrHold, IF_stage, add32, h0, -Nat.reduceShiftRight]
      simp [commit, add32, -Nat.reduceShiftRight])
    rw [runToCompletion_zero]
    simp [isProgramComplete, -Nat.reduceShiftRight]
    subst hP
    exact ⟨_, rfl, rfl, rfl, rfl, rfl⟩)

/-- C10: whatever word `W` is stored in the slot after the BEQ (the loader
keeps its low 32 bits), the run of
`addi x1,x0,5 ; addi x2,x0,5 ; beq x1,x2,+8 ; W ; addi x4,x0,20` completes
after 10 cycles with `reg[1] = 5`, `reg[2] = 5`, `reg[4] = 20`, every other
register (`reg[3]` included) 0, all of data memory 0 and 4 instructions
retired: the word after the taken BEQ is squashed without architectural
effect. -/
theorem taken_branch_squashes_next_word (W extra : Nat) :
    ∃ f, runToCompletion (10 + extra)
        (initial [0x00500093, 0x00500113, 0x00208463, W, 0x01400213]) = some f ∧
      f.totalCycles = 10 ∧ f.instructionsCompleted = 4 ∧
      (∀ r, f.registers r = if r = 1 ∨ r = 2 then 5 else if r = 4 then 20 else 0) ∧
      (∀ i, f.dataMemory i = 0) ∧ f.registers 3 = 0 := by
  obtain ⟨f, hf, htc, hic, hregs, hmem⟩ := branch_run W
  refine ⟨f, runToCompletion_add extra 10 _ _ hf, htc, hic, ?_, ?_, ?_⟩
  · intro r
    rw [hregs]
    unfold setReg
    split_ifs <;> first | rfl | omega
  · intro i
    rw [hmem]
  · rw [hregs]
    rfl

/-! ## C1: the hazard scan and the writes of in-flight instructions -/

/-- `WB_stage` changes no register outside `wbWrites` (and register 0). -/
theorem WB_stage_registers_of_not_written (s : RISCVSimulator) (r : Nat) (h0 : r ≠ 0)
    (hr : r ∉ wbWrites s.mem_wb.IR) : (WB_stage s).registers r = s.registers r := by
  unfold wbWrites at hr
  unfold WB_stage
  dsimp only
  split_ifs at hr ⊢ <;> simp_all [setReg]

/-- The hazard scan does cover the write to `rd`: when `runCycle` latches a
valid IF/ID instruction that is not a control transfer, a register that a
valid instruction in ID/EX or EX/MEM will write and that the latched
instruction reads can only be the multiply's `rd + 1`. -/
theorem latched_reads_avoid_rd (s : RISCVSimulator) (h1 : ¬ squashSeen s)
    (h2 : s.if_id.valid = true) (h3 : ¬ stallNow s)
    (hop : ¬ ctlOpcode (getOpcode s.if_id.IR)) :
    (s.id_ex.valid = true → ∀ r ∈ wbWrites s.id_ex.IR, r ∈ idReads s.if_id.IR →
      r = getRd s.id_ex.IR + 1) ∧
    (s.ex_mem.valid = true → ∀ r ∈ wbWrites s.ex_mem.IR, r ∈ idReads s.if_id.IR →
      r = getRd s.ex_mem.IR + 1) := by
  have hhz : checkDataHazard s = false := by
    cases hb : checkDataHazard s
    · rfl
    · exact absurd ⟨h1, h2, hb, hop⟩ h3
  have key : ∀ ir, producerHazard (getRs1 s.if_id.IR) (getRs2 s.if_id.IR)
        (decide (getOpcode s.if_id.IR ≠ 0x37 ∧ getOpcode s.if_id.IR ≠ 0x6F))
        (decide (getOpcode s.if_id.IR = 0x33 ∨ getOpcode s.if_id.IR = 0x23 ∨
          getOpcode s.if_id.IR = 0x63)) ir = false →
      ∀ r ∈ wbWrites ir, r ∈ idReads s.if_id.IR → r = getRd ir + 1 := by
    intro ir hp r hw hrd
    have hne : r ≠ getRd ir := by
      intro he
      subst he
      unfold wbWrites at hw
      have hw0 : getRd ir ≠ 0 ∧ (getOpcode ir = 0x33 ∨ getOpcode ir = 0x13 ∨
          getOpcode ir = 0x03 ∨ getOpcode ir = 0x37 ∨ getOpcode ir = 0x6F ∨
          getOpcode ir = 0x67) := by
        split_ifs at hw with a b c d <;> first
          | exact absurd hw (List.not_mem_nil _)
          | (refine ⟨a, ?_⟩
             first
               | exact Or.inr (Or.inr (Or.inl b))
               | (rcases c with c | c | c | c | c
                  · exact Or.inl c
                  · exact Or.inr (Or.inl c)
                  · exact Or.inr (Or.inr (Or.inr (Or.inl c)))
                  · exact Or.inr (Or.inr (Or.inr (Or.inr (Or.inl c))))
                  · exact Or.inr (Or.inr (Or.inr (Or.inr (Or.inr c))))))
      unfold producerHazard at hp
      dsimp only at hp
      rw [if_pos hw0] at hp
      unfold idReads at hrd
      rcases List.mem_append.1 hrd with h | h
      · split_ifs at h with a
        · rw [if_pos ⟨by simpa using a, List.mem_singleton.1 h⟩] at hp
          exact Bool.noConfusion hp
        · exact absurd h (List.not_mem_nil _)
      · split_ifs at h with a
        · have h2 := List.mem_singleton.1 h
          split_ifs at hp with b c
          exact c ⟨by simpa using a, h2⟩
        · exact absurd h (List.not_mem_nil _)
    unfold wbWrites at hw
    split_ifs at hw <;> simp at hw <;> omega
  unfold checkDataHazard at hhz
  rw [if_neg (by rw [h2]; decide)] at hhz
  dsimp only at hhz
  constructor
  · intro hv
    apply key
    by_contra hc
    rw [if_pos ⟨hv, by simpa using hc⟩] at hhz
    exact absurd hhz (by decide)
  · intro hv
    apply key
    by_contra hc
    split_ifs at hhz with a b
    exact b ⟨hv, by simpa using hc⟩

/-- C1 fails on the code: in `mulHighProgram` the `mul x3,x1,x2` is in ID/EX
after seven cycles while `addi x5,x4,0` is in IF/ID; the eighth cycle latches
the `addi` without a stall although it reads `x4`, which the multiply writes
at its writeback in cycle 10 (`rd + 1`). The `addi` latches `A = 9`, the value
of `x4` from before the multiply, and the run ends with `x4 = 0`, `x5 = 9`. -/
theorem mul_high_write_escapes_hazard_scan :
    (runCycles 7 (initial mulHighProgram)).if_id = { IR := 0x00020293, NPC := 20, valid := true } ∧
    (runCycles 7 (initial mulHighProgram)).id_ex.valid = true ∧
    (runCycles 7 (initial mulHighProgram)).id_ex.IR = 0x022081B3 ∧
    ¬ squashSeen (runCycles 7 (initial mulHighProgram)) ∧
    ¬ stallNow (runCycles 7 (initial mulHighProgram)) ∧
    ¬ ctlOpcode (getOpcode 0x00020293) ∧
    4 ∈ idReads 0x00020293 ∧ 4 ∈ wbWrites 0x022081B3 ∧
    (runCycles 8 (initial mulHighProgram)).stall = false ∧
    (runCycles 8 (initial mulHighProgram)).id_ex.valid = true ∧
    (runCycles 8 (initial mulHighProgram)).id_ex.IR = 0x00020293 ∧
    (runCycles 8 (initial mulHighProgram)).id_ex.A = 9 ∧
    (runCycles 9 (initial mulHighProgram)).mem_wb.valid = true ∧
    (runCycles 9 (initial mulHighProgram)).mem_wb.IR = 0x022081B3 ∧
    (runCycles 9 (initial mulHighProgram)).registers 4 = 9 ∧
    (runCycles 10 (initial mulHighProgram)).registers 4 = 0 ∧
    (runToCompletion 11 (initial mulHighProgram)).map
      (fun s => (s.registers 3, s.registers 4, s.registers 5, s.totalCycles)) = some (21, 0, 9, 11) := by
  decide

/-! ## C8: a stall-free stream of ALU-immediate instructions -/

theorem runCycles_succ_last : ∀ (n : Nat) (s : RISCVSimulator),
    runCycles (n + 1) s = runCycle (runCycles n s)
  | 0, _ => rfl
  | n + 1, s => by
    rw [runCycles_succ, runCycles_succ_last n (runCycle s)]
    rfl

/-- A run whose first complete state is the one after `n` cycles. -/
theorem runToCompletion_of_first : ∀ (n : Nat) (s : RISCVSimulator),
    (∀ k, k < n → isProgramComplete (runCycles k s) = false) →
    isProgramComplete (runCycles n s) = true →
    runToCompletion n s = some (runCycles n s)
  | 0, s, _, h2 => by
    rw [runCycles_zero] at h2
    rw [runToCompletion_zero, if_pos h2]
    rfl
  | n + 1, s, h1, h2 => by
    have hc : ¬ isProgramComplete s = true := by
      have := h1 0 (Nat.succ_pos n)
      rw [runCycles_zero] at this
      rw [this]
      exact Bool.false_ne_true
    rw [runToCompletion_succ, if_neg hc, runCycles_succ]
    exact runToCompletion_of_first n (runCycle s)
      (fun k hk => h1 (k + 1) (Nat.succ_lt_succ hk)) h2

/-- With an invalid IF/ID latch and no squash, decode produces the bubble. -/
theorem runCycle_id_ex_of_invalid (s : RISCVSimulator) (h : s.if_id.valid = false) :
    (runCycle s).id_ex = {} := by
  rw [runCycle_id_ex]
  unfold afterID
  apply ID_stage_bubble
  right; left
  rw [(afterEX_frame s).1]
  exact h

theorem runCycle_ex_mem_valid (s : RISCVSimulator) :
    (runCycle s).ex_mem.valid = s.id_ex.valid := by
  rw [runCycle_ex_mem]
  unfold afterEX
  rw [EX_stage_next_valid]
  simp

theorem runCycle_ex_mem_IR (s : RISCVSimulator) (h : s.id_ex.valid = true) :
    (runCycle s).ex_mem.IR = s.id_ex.IR := by
  rw [runCycle_ex_mem]
  unfold afterEX
  rw [EX_stage_next_IR _ (by simpa using h)]
  simp

theorem runCycle_mem_wb_valid (s : RISCVSimulator) :
    (runCycle s).mem_wb.valid = s.ex_mem.valid := by
  rw [runCycle_mem_wb, MEM_stage_next_valid]
  simp

theorem runCycle_mem_wb_IR (s : RISCVSimulator) (h : s.ex_mem.valid = true) :
    (runCycle s).mem_wb.IR = s.ex_mem.IR := by
  rw [runCycle_mem_wb, MEM_stage_next_IR _ (by simpa using h)]
  simp

/-- When the decoding instruction uses only `rs1`, a producer is a hazard
exactly when its nonzero `rd`, written by its opcode, is that `rs1`. -/
theorem producerHazard_rs1_false (rs1 rs2 ir : Nat)
    (h : getRd ir ≠ 0 → getRd ir ≠ rs1) :
    producerHazard rs1 rs2 true false ir = false := by
  unfold producerHazard
  dsimp only
  split_ifs with h1 h2 h3
  · exact absurd h2.2 (h h1.1)
  · exact absurd h3.1 (by decide)
  · rfl
  · rfl

/-- In the states of `PipeInv` the hazard scan finds nothing. -/
theorem PipeInv_no_hazard (prog : List Nat)
    (hop : ∀ w ∈ prog, w < 4294967296 ∧ getOpcode w = 0x13) (hraw : NoRAW prog)
    (k : Nat) (s : RISCVSimulator) (h : PipeInv prog k s) (hk1 : 1 ≤ k ∧ k ≤ prog.length) :
    checkDataHazard s = false := by
  obtain ⟨-, -, -, -, -, hif, hidv, hidIR, hexv, hexIR, -, -, -⟩ := h
  have hw : ∀ i, i < prog.length → getOpcode (prog.getD i 0) = 19 := by
    intro i hi
    rw [List.getD_eq_getElem _ _ hi]
    exact (hop _ (List.getElem_mem hi)).2
  have hv : s.if_id.valid = true := by rw [hif, if_pos hk1]
  have hIR : s.if_id.IR = prog.getD (k - 1) 0 := by rw [hif, if_pos hk1]
  have p1 : s.id_ex.valid = true →
      producerHazard (getRs1 (prog.getD (k - 1) 0)) (getRs2 (prog.getD (k - 1) 0)) true false
        s.id_ex.IR = false := by
    intro hv1
    have hk2 := hidv.1 hv1
    rw [hidIR hv1]
    apply producerHazard_rs1_false
    intro hrd heq
    exact hraw (k - 2) (k - 1) (by omega) (by omega) (by omega) hrd heq.symm
  have p2 : s.ex_mem.valid = true →
      producerHazard (getRs1 (prog.getD (k - 1) 0)) (getRs2 (prog.getD (k - 1) 0)) true false
        s.ex_mem.IR = false := by
    intro hv1
    have hk2 := hexv.1 hv1
    rw [hexIR hv1]
    apply producerHazard_rs1_false
    intro hrd heq
    exact hraw (k - 3) (k - 1) (by omega) (by omega) (by omega) hrd heq.symm
  have e1 : decide ((19 : Nat) ≠ 0x37 ∧ (19 : Nat) ≠ 0x6F) = true := by decide
  have e2 : decide ((19 : Nat) = 0x33 ∨ (19 : Nat) = 0x23 ∨ (19 : Nat) = 0x63) = false := by
    decide
  unfold checkDataHazard
  rw [if_neg (by rw [hv]; decide)]
  dsimp only
  rw [hIR, hw (k - 1) (by omega), e1, e2]
  split_ifs with a b
  · rw [p1 a.1] at a
    exact absurd a.2 Bool.false_ne_true
  · rw [p2 b.1] at b
    exact absurd b.2 Bool.false_ne_true
  · rfl

theorem initial_instructionMemory (prog : List Nat) (i : Nat) :
    (initial prog).instructionMemory i
      = if i < prog.length ∧ i < 512 then prog.getD i 0 % 4294967296 else 0 := rfl

/-- One cycle of the stall-free run. -/
theorem PipeInv_step (prog : List Nat) (hN : prog.length ≤ 512)
    (hop : ∀ w ∈ prog, w < 4294967296 ∧ getOpcode w = 0x13) (hraw : NoRAW prog)
    (k : Nat) (s : RISCVSimulator) (hk : k ≤ prog.length + 3) (h : PipeInv prog k s) :
    PipeInv prog (k + 1) (runCycle s) := by
  have hhz := PipeInv_no_hazard prog hop hraw k s h
  obtain ⟨him, hpc, hst, hsq, hbt, hif, hidv, hidIR, hexv, hexIR, hmwv, hic, htc⟩ := h
  have hw : ∀ i, i < prog.length →
      prog.getD i 0 < 4294967296 ∧ getOpcode (prog.getD i 0) = 19 := by
    intro i hi
    rw [List.getD_eq_getElem _ _ hi]
    exact hop _ (List.getElem_mem hi)
  have hnctl : ¬ ctlInEX s := by
    rintro ⟨hv, hc⟩
    have hk2 := hidv.1 hv
    rw [hidIR hv, (hw (k - 2) (by omega)).2] at hc
    rcases hc with hc | hc | hc <;> exact absurd hc (by decide)
  have hnsq : ¬ squashSeen s := by
    rintro (h | h)
    · rw [hsq] at h
      exact Bool.noConfusion h
    · exact hnctl h
  have hnstall : ¬ stallNow s := by
    rintro ⟨-, hv, hh, -⟩
    have hk1 : 1 ≤ k ∧ k ≤ prog.length := by
      by_contra hc
      rw [hif, if_neg hc] at hv
      exact Bool.noConfusion hv
    rw [hhz hk1] at hh
    exact Bool.noConfusion hh
  have hstall' : (runCycle s).stall = false := by
    cases hb : (runCycle s).stall
    · rfl
    · exact absurd ((runCycle_stall_iff s).1 hb) hnstall
  have hast : (afterID s).stall = false := by rw [← runCycle_stall]; exact hstall'
  obtain ⟨hepc, hebt⟩ := afterEX_not_ctl s hnctl
  have hadd : add32 (4 * k) 4 = 4 * (k + 1) := by
    unfold add32
    omega
  refine ⟨?_, ?_, hstall', runCycle_squash_if_id s, runCycle_branch_taken s, ?_, ?_, ?_, ?_, ?_,
    ?_, ?_, ?_⟩
  · rw [runCycle_instructionMemory, him]
  · rw [runCycle_PC, if_pos ⟨hast, by rw [hebt, hbt]⟩, hepc, hpc, hadd]
  · rw [runCycle_if_id_of_not_stall s hnstall, hebt, hbt, hepc, hpc, him]
    simp only [Bool.false_eq_true, if_false]
    unfold fetchLatch
    have hdiv : 4 * k / 4 = k := by omega
    rw [hdiv, hadd]
    by_cases hkN : k < prog.length
    · obtain ⟨hlt, hopc⟩ := hw k hkN
      have hne : prog.getD k 0 ≠ 0 := by
        intro h0
        rw [h0] at hopc
        exact absurd hopc (by decide)
      have h512 : k < 512 := by omega
      have hmem : (initial prog).instructionMemory k = prog.getD k 0 := by
        rw [initial_instructionMemory, if_pos ⟨hkN, h512⟩, Nat.mod_eq_of_lt hlt]
      rw [hmem, if_pos ⟨h512, hne⟩, if_pos ⟨by omega, by omega⟩]
      rfl
    · have hmem : (initial prog).instructionMemory k = 0 := by
        rw [initial_instructionMemory, if_neg (fun h => hkN h.1)]
      rw [hmem, if_neg (fun h => h.2 rfl), if_neg (by omega)]
  · rw [(show ((runCycle s).id_ex.valid = true ↔ s.if_id.valid = true) from ?_), hif]
    · constructor
      · intro hv
        by_contra hc
        rw [if_neg (by omega)] at hv
        exact Bool.noConfusion hv
      · intro hc
        rw [if_pos (by omega)]
    · by_cases hv : s.if_id.valid = true
      · exact ⟨fun _ => hv, fun _ => (runCycle_id_ex_of_latch s hnsq hv hnstall).1⟩
      · have hv' : s.if_id.valid = false := by simpa using hv
        rw [runCycle_id_ex_of_invalid s hv', hv']
  · intro hv
    by_cases hv0 : s.if_id.valid = true
    · rw [(runCycle_id_ex_of_latch s hnsq hv0 hnstall).2.1, hif]
      have hk1 : 1 ≤ k ∧ k ≤ prog.length := by
        by_contra hc
        rw [hif, if_neg hc] at hv0
        exact Bool.noConfusion hv0
      rw [if_pos hk1]
      rfl
    · have hv' : s.if_id.valid = false := by simpa using hv0
      rw [runCycle_id_ex_of_invalid s hv'] at hv
      exact Bool.noConfusion hv
  · rw [runCycle_ex_mem_valid, hidv]
    omega
  · intro hv
    rw [runCycle_ex_mem_valid] at hv
    rw [runCycle_ex_mem_IR s hv, hidIR hv]
    rfl
  · rw [runCycle_mem_wb_valid, hexv]
    omega
  · rw [runCycle_instructionsCompleted, hic]
    by_cases hv : s.mem_wb.valid = true
    · have := hmwv.1 hv
      rw [if_pos hv]
      omega
    · rw [if_neg hv]
      have : ¬ (4 ≤ k ∧ k ≤ prog.length + 3) := fun h => hv (hmwv.2 h)
      omega
  · rw [runCycle_totalCycles, htc]

theorem PipeInv_initial (prog : List Nat) : PipeInv prog 0 (initial prog) := by
  refine ⟨rfl, rfl, rfl, rfl, rfl, ?_, ?_, ?_, ?_, ?_, ?_, rfl, rfl⟩
  · rw [if_neg (by omega)]
    rfl
  · exact ⟨fun h => Bool.noConfusion h, fun h => by omega⟩
  · intro h
    exact Bool.noConfusion h
  · exact ⟨fun h => Bool.noConfusion h, fun h => by omega⟩
  · intro h
    exact Bool.noConfusion h
  · exact ⟨fun h => Bool.noConfusion h, fun h => by omega⟩

theorem PipeInv_runCycles (prog : List Nat) (hN : prog.length ≤ 512)
    (hop : ∀ w ∈ prog, w < 4294967296 ∧ getOpcode w = 0x13) (hraw : NoRAW prog) :
    ∀ k, k ≤ prog.length + 4 → PipeInv prog k (runCycles k (initial prog))
  | 0, _ => PipeInv_initial prog
  | k + 1, hk => by
    rw [runCycles_succ_last]
    exact PipeInv_step prog hN hop hraw k _ (by omega)
      (PipeInv_runCycles prog hN hop hraw k (by omega))

/-- Completion in the states of `PipeInv`: exactly at cycle `N + 4`. -/
theorem PipeInv_complete (prog : List Nat) (hN1 : 1 ≤ prog.length) (hN : prog.length ≤ 512)
    (hop : ∀ w ∈ prog, w < 4294967296 ∧ getOpcode w = 0x13)
    (k : Nat) (s : RISCVSimulator) (hk : k ≤ prog.length + 4) (h : PipeInv prog k s) :
    isProgramComplete s = decide (k = prog.length + 4) := by
  obtain ⟨him, hpc, -, -, -, hif, hidv, -, hexv, -, hmwv, -, -⟩ := h
  have hdiv : 4 * k / 4 = k := by omega
  unfold isProgramComplete
  rw [hpc, hdiv, him, initial_instructionMemory]
  by_cases hk0 : k = 0
  · subst hk0
    have hlt : (0 : Nat) < prog.length := hN1
    have h0 := hop _ (List.getElem_mem hlt)
    have hne : prog.getD 0 0 % 4294967296 ≠ 0 := by
      rw [List.getD_eq_getElem _ _ hlt, Nat.mod_eq_of_lt h0.1]
      intro hz
      rw [hz] at h0
      exact absurd h0.2 (by decide)
    have hd : decide (512 ≤ 0 ∨
        (if 0 < prog.length ∧ 0 < 512 then prog.getD 0 0 % 4294967296 else 0) = 0) = false := by
      rw [if_pos ⟨hlt, by norm_num⟩]
      simpa using hne
    rw [hd, Bool.and_false]
    symm
    simp
  · by_cases hkN : k = prog.length + 4
    · subst hkN
      have h1 : s.if_id.valid = false := by rw [hif, if_neg (by omega)]
      have h2 : s.id_ex.valid = false := by
        cases hb : s.id_ex.valid
        · rfl
        · have := hidv.1 hb
          omega
      have h3 : s.ex_mem.valid = false := by
        cases hb : s.ex_mem.valid
        · rfl
        · have := hexv.1 hb
          omega
      have h4 : s.mem_wb.valid = false := by
        cases hb : s.mem_wb.valid
        · rfl
        · have := hmwv.1 hb
          omega
      rw [h1, h2, h3, h4, if_neg (by omega)]
      simp
    · have hany : s.if_id.valid = true ∨ s.id_ex.valid = true ∨ s.ex_mem.valid = true ∨
          s.mem_wb.valid = true := by
        by_cases c1 : k ≤ prog.length
        · left
          rw [hif, if_pos ⟨by omega, c1⟩]
        · by_cases c2 : k ≤ prog.length + 1
          · exact Or.inr (Or.inl (hidv.2 ⟨by omega, c2⟩))
          · by_cases c3 : k ≤ prog.length + 2
            · exact Or.inr (Or.inr (Or.inl (hexv.2 ⟨by omega, c3⟩)))
            · exact Or.inr (Or.inr (Or.inr (hmwv.2 ⟨by omega, by omega⟩)))
      have hf : decide (k = prog.length + 4) = false := by simpa using hkN
      rw [hf]
      rcases hany with h | h | h | h <;> simp [h]

/-- C8, as stated, fails: `addi x1,x0,5 ; addi x2,x1,1` consists of two
ALU-immediate words with distinct `rd`, yet the third cycle ends with `stall`
asserted, the program is not complete after `N + 4 = 6` cycles and it
completes after 8. -/
theorem distinct_rd_stream_counterexample :
    (1 ≤ dependentPair.length ∧ dependentPair.length ≤ 512) ∧
    (∀ w ∈ dependentPair, w < 4294967296 ∧ getOpcode w = 0x13) ∧
    (dependentPair.map getRd).Nodup ∧
    (runCycles 3 (initial dependentPair)).stall = true ∧
    isProgramComplete (runCycles (dependentPair.length + 4) (initial dependentPair)) = false ∧
    (runToCompletion 8 (initial dependentPair)).map (fun s => s.totalCycles) = some 8 := by
  decide

/-- C8, amended: for every program of `N` words, `1 ≤ N ≤ 512`, all of them
ALU-immediate instructions (opcode 0x13) with pairwise distinct `rd` fields, in
which no instruction's `rs1` is the nonzero `rd` of either of the two
instructions before it, the run from reset is complete after exactly `N + 4`
cycles and not before, `total_cycles = N + 4`, `N` instructions have retired,
and `stall` is not asserted at the end of any of those cycles. -/
theorem alu_immediate_stream_throughput (prog : List Nat)
    (hN1 : 1 ≤ prog.length) (hN : prog.length ≤ 512)
    (hop : ∀ w ∈ prog, w < 4294967296 ∧ getOpcode w = 0x13)
    (_hrd : (prog.map getRd).Nodup) (hraw : NoRAW prog) (extra : Nat) :
    runToCompletion (prog.length + 4 + extra) (initial prog)
      = some (runCycles (prog.length + 4) (initial prog)) ∧
    (∀ k, k < prog.length + 4 → isProgramComplete (runCycles k (initial prog)) = false) ∧
    isProgramComplete (runCycles (prog.length + 4) (initial prog)) = true ∧
    (runCycles (prog.length + 4) (initial prog)).totalCycles = prog.length + 4 ∧
    (runCycles (prog.length + 4) (initial prog)).instructionsCompleted = prog.length ∧
    (∀ k, k ≤ prog.length + 4 → (runCycles k (initial prog)).stall = false) := by
  have hinv := PipeInv_runCycles prog hN hop hraw
  have hnot : ∀ k, k < prog.length + 4 →
      isProgramComplete (runCycles k (initial prog)) = false := by
    intro k hk
    rw [PipeInv_complete prog hN1 hN hop k _ (by omega) (hinv k (by omega))]
    simpa using (by omega : ¬ k = prog.length + 4)
  have hyes : isProgramComplete (runCycles (prog.length + 4) (initial prog)) = true := by
    rw [PipeInv_complete prog hN1 hN hop _ _ (le_refl _) (hinv _ (le_refl _))]
    simp
  obtain ⟨-, -, -, -, -, -, -, -, -, -, -, hic, htc⟩ := hinv _ (le_refl (prog.length + 4))
  refine ⟨runToCompletion_add extra _ _ _ (runToCompletion_of_first _ _ hnot hyes), hnot, hyes,
    htc, ?_, ?_⟩
  · rw [hic]
    omega
  · intro k hk
    exact (hinv k hk).2.2.1

/-- Witness for C8: the one-word program `addi x1,x0,5` of scenario 1 takes 5
cycles. -/
theorem alu_immediate_stream_throughput_witness :
    (1 ≤ [0x00500093].length ∧ [0x00500093].length ≤ 512) ∧
    (∀ w ∈ [0x00500093], w < 4294967296 ∧ getOpcode w = 0x13) ∧
    ([0x00500093].map getRd).Nodup ∧ NoRAW [0x00500093] ∧
    runToCompletion 5 (initial [0x00500093]) = some (runCycles 5 (initial [0x00500093])) ∧
    (runCycles 5 (initial [0x00500093])).totalCycles = 5 ∧
    (runCycles 5 (initial [0x00500093])).instructionsCompleted = 1 :=
  have hraw : NoRAW [0x00500093] := fun i j hij hj _ _ => by
    simp only [List.length_singleton] at hj
    omega
  have h := alu_immediate_stream_throughput [0x00500093] (by decide) (by decide) (by decide)
    (by decide) hraw 0
  ⟨by decide, by decide, by decide, hraw, h.1, h.2.2.2.1, h.2.2.2.2.1⟩

/-! ## C18: division by zero -/

theorem beforeEX_frame (s : RISCVSimulator) :
    (beforeEX s).id_ex = s.id_ex ∧ (beforeEX s).ex_mem_next = s.ex_mem_next := by
  have h1 := MEM_stage_frame (WB_stage { s with stall := false })
  have h2 := WB_stage_frame { s with stall := false }
  unfold beforeEX
  exact ⟨h1.2.2.2.2.2.1.trans h2.2.2.2.2.2.1, h1.2.2.2.2.2.2.2.2.1.trans h2.2.2.2.2.2.2.2.2.1⟩

theorem runCycle_ex_mem_beforeEX (s : RISCVSimulator) :
    (runCycle s).ex_mem = (EX_stage (beforeEX s)).ex_mem_next := runCycle_ex_mem s

/-- What `EX_stage` leaves in `ALUOutput` for the signed divide and the
signed remainder. -/
theorem EX_stage_div_rem (u : RISCVSimulator) (hv : u.id_ex.valid = true)
    (hop : getOpcode u.id_ex.IR = 0x33) (hf7 : getFunct7 u.id_ex.IR = 0x01) :
    (getFunct3 u.id_ex.IR = 0x4 → (EX_stage u).ex_mem_next.ALUOutput
      = if u.id_ex.B ≠ 0 then wrap32 (Int.tdiv u.id_ex.A u.id_ex.B) else -1) ∧
    (getFunct3 u.id_ex.IR = 0x6 → (EX_stage u).ex_mem_next.ALUOutput
      = if u.id_ex.B ≠ 0 then wrap32 (Int.tmod u.id_ex.A u.id_ex.B) else u.id_ex.A) := by
  constructor <;> intro hf3 <;> simp [EX_stage, setALU, hv, hop, hf7, hf3]

/-- C18: with a valid signed divide (opcode 0x33, funct7 = 1, funct3 = 4) in
ID/EX and latched `B = 0`, `EX_stage` produces `ALUOutput = -1` whatever `A`
is, and with a valid signed remainder (funct3 = 6) and `B = 0` it produces
`ALUOutput = A`; the EX/MEM latch after `runCycle` is valid, holds the same
instruction and that `ALUOutput`. -/
theorem division_by_zero_results (s : RISCVSimulator) (hv : s.id_ex.valid = true)
    (hop : getOpcode s.id_ex.IR = 0x33) (hf7 : getFunct7 s.id_ex.IR = 0x01)
    (hB : s.id_ex.B = 0) :
    (getFunct3 s.id_ex.IR = 0x4 →
      (EX_stage s).ex_mem_next.ALUOutput = -1 ∧ (runCycle s).ex_mem.ALUOutput = -1) ∧
    (getFunct3 s.id_ex.IR = 0x6 →
      (EX_stage s).ex_mem_next.ALUOutput = s.id_ex.A ∧
      (runCycle s).ex_mem.ALUOutput = s.id_ex.A) ∧
    (runCycle s).ex_mem.valid = true ∧ (runCycle s).ex_mem.IR = s.id_ex.IR := by
  obtain ⟨e1, -⟩ := beforeEX_frame s
  have hv2 : (beforeEX s).id_ex.valid = true := by rw [e1]; exact hv
  have hop2 : getOpcode (beforeEX s).id_ex.IR = 0x33 := by rw [e1]; exact hop
  have hf72 : getFunct7 (beforeEX s).id_ex.IR = 0x01 := by rw [e1]; exact hf7
  have k1 := EX_stage_div_rem s hv hop hf7
  have k2 := EX_stage_div_rem (beforeEX s) hv2 hop2 hf72
  rw [e1] at k2
  rw [hB] at k1 k2
  rw [runCycle_ex_mem_beforeEX]
  refine ⟨fun h => ⟨?_, ?_⟩, fun h => ⟨?_, ?_⟩, ?_, ?_⟩
  · rw [k1.1 h]; rfl
  · rw [k2.1 h]; rfl
  · rw [k1.2 h]; rfl
  · rw [k2.2 h]; rfl
  · rw [EX_stage_next_valid, e1]; exact hv
  · rw [EX_stage_next_IR _ hv2, e1]

/-- Witness for C18: `div x3,x1,x2` and `rem x3,x1,x2` with `A = 7`, `B = 0`. -/
theorem division_by_zero_results_witness :
    (EX_stage (stateInEX 0x0220C1B3 7 0)).ex_mem_next.ALUOutput = -1 ∧
    (runCycle (stateInEX 0x0220C1B3 7 0)).ex_mem.ALUOutput = -1 ∧
    (EX_stage (stateInEX 0x0220E1B3 7 0)).ex_mem_next.ALUOutput = 7 ∧
    (runCycle (stateInEX 0x0220E1B3 7 0)).ex_mem.ALUOutput = 7 :=
  ⟨((division_by_zero_results (stateInEX 0x0220C1B3 7 0) rfl (by decide) (by decide) rfl).1
      (by decide)).1,
   ((division_by_zero_results (stateInEX 0x0220C1B3 7 0) rfl (by decide) (by decide) rfl).1
      (by decide)).2,
   ((division_by_zero_results (stateInEX 0x0220E1B3 7 0) rfl (by decide) (by decide) rfl).2.1
      (by decide)).1,
   ((division_by_zero_results (stateInEX 0x0220E1B3 7 0) rfl (by decide) (by decide) rfl).2.1
      (by decide)).2⟩

/-! ## C15 and C17: latch fields that a stage leaves unassigned -/

/-- For opcode 0x33 with funct3 = 4 and funct7 = 0 `EX_stage` assigns no
`ALUOutput`: the field keeps what `ex_mem_next` held. -/
theorem EX_stage_unsupported_funct (u : RISCVSimulator) (hv : u.id_ex.valid = true)
    (hop : getOpcode u.id_ex.IR = 0x33) (hf3 : getFunct3 u.id_ex.IR = 0x4)
    (hf7 : getFunct7 u.id_ex.IR = 0x00) :
    (EX_stage u).ex_mem_next.ALUOutput = u.ex_mem_next.ALUOutput := by
  simp [EX_stage, setALU, hv, hop, hf7, hf3]

/-- For an opcode outside the eight that `EX_stage` dispatches on it assigns
no `ALUOutput` either. -/
theorem EX_stage_unsupported_opcode (u : RISCVSimulator) (hv : u.id_ex.valid = true)
    (h1 : getOpcode u.id_ex.IR ≠ 0x33) (h2 : getOpcode u.id_ex.IR ≠ 0x13)
    (h3 : getOpcode u.id_ex.IR ≠ 0x03) (h4 : getOpcode u.id_ex.IR ≠ 0x23)
    (h5 : getOpcode u.id_ex.IR ≠ 0x63) (h6 : getOpcode u.id_ex.IR ≠ 0x37)
    (h7 : getOpcode u.id_ex.IR ≠ 0x6F) (h8 : getOpcode u.id_ex.IR ≠ 0x67) :
    (EX_stage u).ex_mem_next.ALUOutput = u.ex_mem_next.ALUOutput := by
  simp [EX_stage, setALU, hv, h1, h2, h3, h4, h5, h6, h7, h8]

/-- After `runCycle` the EX/MEM latch of an unsupported instruction carries
the `ALUOutput` that `ex_mem_next` held before the cycle. -/
theorem runCycle_unsupported_keeps_ALUOutput (s : RISCVSimulator) (hv : s.id_ex.valid = true)
    (h : (getOpcode s.id_ex.IR = 0x33 ∧ getFunct3 s.id_ex.IR = 0x4 ∧ getFunct7 s.id_ex.IR = 0x00) ∨
      (getOpcode s.id_ex.IR ≠ 0x33 ∧ getOpcode s.id_ex.IR ≠ 0x13 ∧ getOpcode s.id_ex.IR ≠ 0x03 ∧
        getOpcode s.id_ex.IR ≠ 0x23 ∧ getOpcode s.id_ex.IR ≠ 0x63 ∧ getOpcode s.id_ex.IR ≠ 0x37 ∧
        getOpcode s.id_ex.IR ≠ 0x6F ∧ getOpcode s.id_ex.IR ≠ 0x67)) :
    (runCycle s).ex_mem.valid = true ∧ (runCycle s).ex_mem.IR = s.id_ex.IR ∧
    (runCycle s).ex_mem.ALUOutput = s.ex_mem_next.ALUOutput := by
  obtain ⟨e1, e2⟩ := beforeEX_frame s
  have hv2 : (beforeEX s).id_ex.valid = true := by rw [e1]; exact hv
  rw [runCycle_ex_mem_beforeEX]
  refine ⟨?_, ?_, ?_⟩
  · rw [EX_stage_next_valid, e1]; exact hv
  · rw [EX_stage_next_IR _ hv2, e1]
  · rw [← e2]
    rcases h with ⟨a, b, c⟩ | ⟨a1, a2, a3, a4, a5, a6, a7, a8⟩
    · exact EX_stage_unsupported_funct _ hv2 (by rw [e1]; exact a) (by rw [e1]; exact b)
        (by rw [e1]; exact c)
    · rw [← e1] at a1 a2 a3 a4 a5 a6 a7 a8
      exact EX_stage_unsupported_opcode _ hv2 a1 a2 a3 a4 a5 a6 a7 a8

/-- An out-of-range load leaves `LMD` of `mem_wb_next` unassigned. -/
theorem MEM_stage_load_out_of_range (u : RISCVSimulator) (hv : u.ex_mem.valid = true)
    (hop : getOpcode u.ex_mem.IR = 0x03)
    (hr : ¬ (0 ≤ Int.tdiv u.ex_mem.ALUOutput 4 ∧ Int.tdiv u.ex_mem.ALUOutput 4 < 512)) :
    (MEM_stage u).mem_wb_next.LMD = u.mem_wb_next.LMD := by
  simp [MEM_stage, hv, hop, hr]

/-- After `runCycle` the MEM/WB latch of an out-of-range load carries the
`LMD` that `mem_wb_next` held before the cycle. -/
theorem runCycle_load_out_of_range (s : RISCVSimulator) (hv : s.ex_mem.valid = true)
    (hop : getOpcode s.ex_mem.IR = 0x03)
    (hr : ¬ (0 ≤ Int.tdiv s.ex_mem.ALUOutput 4 ∧ Int.tdiv s.ex_mem.ALUOutput 4 < 512)) :
    (runCycle s).mem_wb.valid = true ∧ (runCycle s).mem_wb.IR = s.ex_mem.IR ∧
    (runCycle s).mem_wb.LMD = s.mem_wb_next.LMD := by
  have h2 := WB_stage_frame { s with stall := false }
  have e1 : (WB_stage { s with stall := false }).ex_mem = s.ex_mem := h2.2.2.2.2.2.2.2.1
  have e2 : (WB_stage { s with stall := false }).mem_wb_next = s.mem_wb_next :=
    h2.2.2.2.2.2.2.2.2.2.2.1
  rw [runCycle_mem_wb]
  refine ⟨?_, ?_, ?_⟩
  · rw [MEM_stage_next_valid, e1]; exact hv
  · rw [MEM_stage_next_IR _ (by rw [e1]; exact hv), e1]
  · have h := MEM_stage_load_out_of_range (WB_stage { s with stall := false })
      (by rw [e1]; exact hv) (by rw [e1]; exact hop) (by rw [e1]; exact hr)
    rw [e2] at h
    exact h

/-- C17 fails on the code: in `unsupportedProgram` the word 0x000041B3
(opcode 0x33, funct3 = 4, funct7 = 0) is valid in ID/EX after three cycles;
the fourth cycle leaves it valid in EX/MEM with `ALUOutput = 5`, the result of
the `addi` before it, not 0, and its writeback stores 5 in `x3`. -/
theorem unsupported_instruction_keeps_stale_ALUOutput :
    (runCycles 3 (initial unsupportedProgram)).id_ex.valid = true ∧
    (runCycles 3 (initial unsupportedProgram)).id_ex.IR = 0x000041B3 ∧
    getOpcode 0x000041B3 = 0x33 ∧ getFunct3 0x000041B3 = 0x4 ∧ getFunct7 0x000041B3 = 0x00 ∧
    (runCycles 3 (initial unsupportedProgram)).ex_mem.ALUOutput = 5 ∧
    (runCycles 3 (initial unsupportedProgram)).ex_mem_next.ALUOutput = 5 ∧
    (runCycle (runCycles 3 (initial unsupportedProgram))).ex_mem.valid = true ∧
    (runCycle (runCycles 3 (initial unsupportedProgram))).ex_mem.IR = 0x000041B3 ∧
    (runCycle (runCycles 3 (initial unsupportedProgram))).ex_mem.ALUOutput = 5 ∧
    (runToCompletion 6 (initial unsupportedProgram)).map
      (fun s => (s.registers 1, s.registers 3, s.instructionsCompleted, s.totalCycles))
      = some (5, 5, 2, 6) := by
  decide

/-- C15 fails on the code: in `staleLoadProgram` the load `lw x3,-4(x0)` is
valid in EX/MEM after eight cycles with `ALUOutput = -4`, word index -1; the
ninth cycle leaves MEM/WB valid with `LMD = 42`, the value the load before it
read, not 0, and its writeback stores 42 in `x3`. -/
theorem out_of_range_load_keeps_stale_LMD :
    (runCycles 8 (initial staleLoadProgram)).ex_mem.valid = true ∧
    (runCycles 8 (initial staleLoadProgram)).ex_mem.IR = 0xFFC02183 ∧
    getOpcode 0xFFC02183 = 0x03 ∧ getRd 0xFFC02183 = 3 ∧
    (runCycles 8 (initial staleLoadProgram)).ex_mem.ALUOutput = -4 ∧
    Int.tdiv (runCycles 8 (initial staleLoadProgram)).ex_mem.ALUOutput 4 = -1 ∧
    (runCycles 8 (initial staleLoadProgram)).mem_wb.LMD = 42 ∧
    (runCycles 8 (initial staleLoadProgram)).mem_wb_next.LMD = 42 ∧
    (runCycle (runCycles 8 (initial staleLoadProgram))).mem_wb.valid = true ∧
    (runCycle (runCycles 8 (initial staleLoadProgram))).mem_wb.IR = 0xFFC02183 ∧
    (runCycle (runCycles 8 (initial staleLoadProgram))).mem_wb.LMD = 42 ∧
    (runToCompletion 10 (initial staleLoadProgram)).map
      (fun s => (s.registers 2, s.registers 3, s.dataMemory 0, s.totalCycles))
      = some (42, 42, 42, 10) := by
  decide

/-! ## C16 and C20: stores below address zero, and decode after writeback -/

/-- The truncating word index `a / 4` is in `0..511` exactly for the byte
addresses `-3..2047`. -/
theorem tdiv_four_range (a : Int) :
    (0 ≤ Int.tdiv a 4 ∧ Int.tdiv a 4 < 512) ↔ (-4 < a ∧ a < 2048) := by
  by_cases h : 0 ≤ a
  · rw [Int.tdiv_eq_ediv h (by decide)]
    omega
  · have e : a = -(-a) := by omega
    rw [e, Int.neg_tdiv, Int.tdiv_eq_ediv (by omega) (by decide)]
    omega

theorem MEM_stage_store (u : RISCVSimulator) (hv : u.ex_mem.valid = true)
    (hop : getOpcode u.ex_mem.IR = 0x23) :
    (MEM_stage u).dataMemory =
      if -4 < u.ex_mem.ALUOutput ∧ u.ex_mem.ALUOutput < 2048
      then fun i => if i = (Int.tdiv u.ex_mem.ALUOutput 4).toNat then u.ex_mem.B else u.dataMemory i
      else u.dataMemory := by
  simp [MEM_stage, hv, hop, tdiv_four_range]
  split_ifs <;> rfl

theorem runCycle_dataMemory_store (s : RISCVSimulator) (hv : s.ex_mem.valid = true)
    (hop : getOpcode s.ex_mem.IR = 0x23) :
    (runCycle s).dataMemory =
      if -4 < s.ex_mem.ALUOutput ∧ s.ex_mem.ALUOutput < 2048
      then fun i => if i = (Int.tdiv s.ex_mem.ALUOutput 4).toNat then s.ex_mem.B else s.dataMemory i
      else s.dataMemory := by
  have h2 := WB_stage_frame { s with stall := false }
  have e1 : (WB_stage { s with stall := false }).ex_mem = s.ex_mem := h2.2.2.2.2.2.2.2.1
  have e2 : (WB_stage { s with stall := false }).dataMemory = s.dataMemory := h2.2.1
  have h := MEM_stage_store (WB_stage { s with stall := false }) (by rw [e1]; exact hv)
    (by rw [e1]; exact hop)
  rw [e1, e2] at h
  rw [runCycle_dataMemory]
  exact h

/-- C16, as stated, fails: in `negativeStoreProgram` the store `sw x1,-1(x0)`
is valid in EX/MEM after six cycles with the negative byte address
`ALUOutput = -1`, yet the seventh cycle changes data-memory word 0 from 0 to
42 (the truncating index `-1 / 4` is 0). -/
theorem negative_address_store_counterexample :
    (runCycles 6 (initial negativeStoreProgram)).ex_mem.valid = true ∧
    (runCycles 6 (initial negativeStoreProgram)).ex_mem.IR = 0xFE102FA3 ∧
    getOpcode 0xFE102FA3 = 0x23 ∧
    (runCycles 6 (initial negativeStoreProgram)).ex_mem.ALUOutput = -1 ∧
    (runCycles 6 (initial negativeStoreProgram)).ex_mem.ALUOutput < 0 ∧
    (runCycles 6 (initial negativeStoreProgram)).dataMemory 0 = 0 ∧
    (runCycle (runCycles 6 (initial negativeStoreProgram))).dataMemory 0 = 42 ∧
    (runCycle (runCycles 6 (initial negativeStoreProgram))).dataMemory 0
      ≠ (runCycles 6 (initial negativeStoreProgram)).dataMemory 0 := by
  decide

/-- C16, amended: for every state in which EX/MEM holds a valid store (opcode
0x23) whose byte address `ALUOutput` is at most -4 or at least 2048 (the
truncating word index `ALUOutput / 4` is outside `0..511`), `runCycle` leaves
every data-memory word unchanged. -/
theorem out_of_range_store_dropped (s : RISCVSimulator) (hv : s.ex_mem.valid = true)
    (hop : getOpcode s.ex_mem.IR = 0x23)
    (hr : s.ex_mem.ALUOutput ≤ -4 ∨ 2048 ≤ s.ex_mem.ALUOutput) (i : Nat) :
    (runCycle s).dataMemory i = s.dataMemory i := by
  rw [runCycle_dataMemory_store s hv hop, if_neg (by omega)]

/-- Witness for C16: stores to the byte addresses -4 and 2048. -/
theorem out_of_range_store_dropped_witness :
    (runCycle (stateInMEM 0xFE102E23 (-4) 42)).dataMemory 0
      = (stateInMEM 0xFE102E23 (-4) 42).dataMemory 0 ∧
    (runCycle (stateInMEM 0x00102023 2048 42)).dataMemory 511
      = (stateInMEM 0x00102023 2048 42).dataMemory 511 :=
  ⟨out_of_range_store_dropped (stateInMEM 0xFE102E23 (-4) 42) rfl (by decide)
      (Or.inl (by decide)) 0,
   out_of_range_store_dropped (stateInMEM 0x00102023 2048 42) rfl (by decide)
      (Or.inr (by decide)) 511⟩

/-- The register `rd` after `WB_stage` retired a register-writing
instruction. -/
theorem WB_stage_registers_rd (u : RISCVSimulator) (hv : u.mem_wb.valid = true)
    (hrd : getRd u.mem_wb.IR ≠ 0)
    (hop : getOpcode u.mem_wb.IR = 0x03 ∨ getOpcode u.mem_wb.IR = 0x33 ∨
      getOpcode u.mem_wb.IR = 0x13 ∨ getOpcode u.mem_wb.IR = 0x37 ∨
      getOpcode u.mem_wb.IR = 0x6F ∨ getOpcode u.mem_wb.IR = 0x67) :
    (WB_stage u).registers (getRd u.mem_wb.IR) =
      if getOpcode u.mem_wb.IR = 0x03 then u.mem_wb.LMD else u.mem_wb.ALUOutput := by
  unfold WB_stage
  rw [if_neg (by rw [hv]; decide)]
  dsimp only
  rw [if_pos hrd]
  by_cases h3 : getOpcode u.mem_wb.IR = 0x03
  · simp [h3, setReg, hrd]
  · have hop2 : getOpcode u.mem_wb.IR = 0x33 ∨ getOpcode u.mem_wb.IR = 0x13 ∨
        getOpcode u.mem_wb.IR = 0x37 ∨ getOpcode u.mem_wb.IR = 0x6F ∨
        getOpcode u.mem_wb.IR = 0x67 := by
      rcases hop with h | h
      · exact absurd h h3
      · exact h
    rw [if_neg h3, if_pos hop2, if_neg h3]
    split_ifs <;> simp [setReg, hrd]

/-- C20, as stated, fails: after four cycles of `sameCycleProgram`
`addi x1,x0,5` is valid in MEM/WB and `addi x2,x1,0` is valid in IF/ID, and
`x1` holds 0; the fifth cycle writes `x1 = 5` and latches the second
instruction into ID/EX with `A = 5`, the value written in that same cycle,
not the value 0 that `x1` held before the cycle. -/
theorem decode_sees_pre_writeback_counterexample :
    (runCycles 4 (initial sameCycleProgram)).mem_wb.valid = true ∧
    (runCycles 4 (initial sameCycleProgram)).mem_wb.IR = 0x00500093 ∧
    getOpcode 0x00500093 = 0x13 ∧ getRd 0x00500093 = 1 ∧
    (runCycles 4 (initial sameCycleProgram)).if_id.valid = true ∧
    (runCycles 4 (initial sameCycleProgram)).if_id.IR = 0x00008113 ∧
    getRs1 0x00008113 = 1 ∧
    (runCycles 4 (initial sameCycleProgram)).registers 1 = 0 ∧
    (runCycle (runCycles 4 (initial sameCycleProgram))).registers 1 = 5 ∧
    (runCycle (runCycles 4 (initial sameCycleProgram))).id_ex.valid = true ∧
    (runCycle (runCycles 4 (initial sameCycleProgram))).id_ex.IR = 0x00008113 ∧
    (runCycle (runCycles 4 (initial sameCycleProgram))).id_ex.A = 5 ∧
    (runCycle (runCycles 4 (initial sameCycleProgram))).id_ex.A
      ≠ (runCycles 4 (initial sameCycleProgram)).registers 1 := by
  decide

/-- C20, amended: within a cycle ID sees the post-WB register value. For every
state in which WB writes a register `r` during `runCycle` (valid MEM/WB with a
register-writing opcode and `rd = r ≠ 0`) and, in the same cycle, ID latches
into ID/EX an instruction whose `rs1` is `r`, the `A` latched into ID/EX equals
the value WB writes to `reg[r]` in that cycle (`LMD` for a load, `ALUOutput`
otherwise), which is also `reg[r]` after the cycle. -/
theorem decode_sees_same_cycle_writeback (s : RISCVSimulator) (hv : s.mem_wb.valid = true)
    (hrd : getRd s.mem_wb.IR ≠ 0)
    (hop : getOpcode s.mem_wb.IR = 0x03 ∨ getOpcode s.mem_wb.IR = 0x33 ∨
      getOpcode s.mem_wb.IR = 0x13 ∨ getOpcode s.mem_wb.IR = 0x37 ∨
      getOpcode s.mem_wb.IR = 0x6F ∨ getOpcode s.mem_wb.IR = 0x67)
    (h1 : ¬ squashSeen s) (h2 : s.if_id.valid = true) (h3 : ¬ stallNow s)
    (hrs : getRs1 s.if_id.IR = getRd s.mem_wb.IR) :
    (runCycle s).id_ex.valid = true ∧ (runCycle s).id_ex.IR = s.if_id.IR ∧
    (runCycle s).id_ex.A =
      (if getOpcode s.mem_wb.IR = 0x03 then s.mem_wb.LMD else s.mem_wb.ALUOutput) ∧
    (runCycle s).id_ex.A = (runCycle s).registers (getRd s.mem_wb.IR) := by
  obtain ⟨a, b, -, c, -⟩ := runCycle_id_ex_of_latch s h1 h2 h3
  have e := WB_stage_registers_rd { s with stall := false } hv hrd hop
  rw [hrs] at c
  refine ⟨a, b, ?_, ?_⟩
  · rw [c]
    exact e
  · rw [c, runCycle_registers]

/-- Witness for C20: the fifth cycle of `sameCycleProgram`. -/
theorem decode_sees_same_cycle_writeback_witness :
    (runCycle (runCycles 4 (initial sameCycleProgram))).id_ex.A
      = (runCycle (runCycles 4 (initial sameCycleProgram))).registers
          (getRd (runCycles 4 (initial sameCycleProgram)).mem_wb.IR) :=
  (decode_sees_same_cycle_writeback (runCycles 4 (initial sameCycleProgram)) (by decide)
    (by decide) (by decide) (by decide) (by decide) (by decide) (by decide)).2.2.2

/-! ## C14 and C19: the high word of the multiply, and the cost of a taken branch -/

/-- The high word of a product of two `int32_t` values needs no wrapping. -/
theorem wrap32_mul_high (a b : Int) (ha1 : -2147483648 ≤ a) (ha2 : a < 2147483648)
    (hb1 : -2147483648 ≤ b) (hb2 : b < 2147483648) :
    wrap32 (a * b / 4294967296) = a * b / 4294967296 := by
  have h1 : a * b ≤ 4611686018427387904 := by nlinarith
  have h2 : -4611686018427387904 ≤ a * b := by nlinarith
  unfold wrap32
  generalize a * b = p at h1 h2 ⊢
  omega

/-- What `EX_stage` leaves in `ALUOutput` for the multiply: the low 32 bits of
`A * B`. -/
theorem EX_stage_mul (u : RISCVSimulator) (hv : u.id_ex.valid = true)
    (hop : getOpcode u.id_ex.IR = 0x33) (hf3 : getFunct3 u.id_ex.IR = 0x0)
    (hf7 : getFunct7 u.id_ex.IR = 0x01) :
    (EX_stage u).ex_mem_next.ALUOutput = wrap32 ((u.id_ex.A * u.id_ex.B) % 4294967296) := by
  simp [EX_stage, setALU, hv, hop, hf7, hf3]

/-- The register file after `WB_stage` retired a multiply with `rd` in `1..30`. -/
theorem WB_stage_registers_mul (u : RISCVSimulator) (hv : u.mem_wb.valid = true)
    (hop : getOpcode u.mem_wb.IR = 0x33) (hf3 : getFunct3 u.mem_wb.IR = 0x0)
    (hf7 : getFunct7 u.mem_wb.IR = 0x01) (hrd0 : getRd u.mem_wb.IR ≠ 0)
    (hrd : getRd u.mem_wb.IR < 31) :
    (WB_stage u).registers =
      setReg (setReg (setReg u.registers (getRd u.mem_wb.IR) u.mem_wb.ALUOutput)
        (getRd u.mem_wb.IR + 1)
        (wrap32 (setReg u.registers (getRd u.mem_wb.IR) u.mem_wb.ALUOutput (getRs1 u.mem_wb.IR)
          * setReg u.registers (getRd u.mem_wb.IR) u.mem_wb.ALUOutput (getRs2 u.mem_wb.IR)
          / 4294967296))) 0 0 := by
  simp [WB_stage, hv, hop, hf3, hf7, hrd0, hrd]

/-- C14, as stated, fails. In `mulOverwriteProgram` the multiply
`mul x1,x1,x2` is valid in MEM/WB after eight cycles with both operands 65536,
whose product `2^32` has the high word 1 and the low word 0; the writeback
leaves 0 in `reg[rd+1] = x2`, because `x1` already holds the low word when the
product is formed again. In `mulZeroRdProgram` the multiply has `rd = 0` and
the writeback leaves `reg[1]` at 65536. -/
theorem mul_high_word_counterexample :
    ((runCycles 8 (initial mulOverwriteProgram)).mem_wb.valid = true ∧
     (runCycles 8 (initial mulOverwriteProgram)).mem_wb.IR = 0x022080B3 ∧
     getOpcode 0x022080B3 = 0x33 ∧ getFunct3 0x022080B3 = 0x0 ∧ getFunct7 0x022080B3 = 0x01 ∧
     getRd 0x022080B3 = 1 ∧ getRs1 0x022080B3 = 1 ∧ getRs2 0x022080B3 = 2 ∧
     (runCycles 8 (initial mulOverwriteProgram)).registers 1 = 65536 ∧
     (runCycles 8 (initial mulOverwriteProgram)).registers 2 = 65536 ∧
     (65536 * 65536 : Int) / 4294967296 = 1 ∧
     (runCycles 8 (initial mulOverwriteProgram)).mem_wb.ALUOutput = 0 ∧
     (WB_stage (runCycles 8 (initial mulOverwriteProgram))).registers 2 = 0 ∧
     (runCycle (runCycles 8 (initial mulOverwriteProgram))).registers 2 = 0) ∧
    ((runCycles 8 (initial mulZeroRdProgram)).mem_wb.valid = true ∧
     (runCycles 8 (initial mulZeroRdProgram)).mem_wb.IR = 0x02208033 ∧
     getOpcode 0x02208033 = 0x33 ∧ getFunct3 0x02208033 = 0x0 ∧ getFunct7 0x02208033 = 0x01 ∧
     getRd 0x02208033 = 0 ∧ getRs1 0x02208033 = 1 ∧ getRs2 0x02208033 = 2 ∧
     (runCycles 8 (initial mulZeroRdProgram)).registers 1 = 65536 ∧
     (runCycles 8 (initial mulZeroRdProgram)).registers 2 = 65536 ∧
     (WB_stage (runCycles 8 (initial mulZeroRdProgram))).registers 1 = 65536 ∧
     (runCycle (runCycles 8 (initial mulZeroRdProgram))).registers 1 = 65536) := by
  decide

/-- C14, amended: for every state in which MEM/WB holds a valid
register-register multiply (opcode 0x33, funct3 = 0, funct7 = 1) with `rd` in
`1..30` and `rd` different from both `rs1` and `rs2`, after writeback (and so
after `runCycle`) `reg[rd]` holds the latched `ALUOutput` and `reg[rd+1]` holds
the high 32 bits of the signed 64-bit product of the values that `reg[rs1]` and
`reg[rs2]` hold at that writeback: the wrapped floor quotient by `2^32`, which
for operands in the `int32_t` range is the quotient itself. The `ALUOutput` of
a multiply is what `EX_stage` computed from the operands latched at decode, the
low 32 bits of their product. -/
theorem mul_high_word_writeback (s : RISCVSimulator) (hv : s.mem_wb.valid = true)
    (hop : getOpcode s.mem_wb.IR = 0x33) (hf3 : getFunct3 s.mem_wb.IR = 0x0)
    (hf7 : getFunct7 s.mem_wb.IR = 0x01) (hrd0 : getRd s.mem_wb.IR ≠ 0)
    (hrd : getRd s.mem_wb.IR < 31) (h1 : getRd s.mem_wb.IR ≠ getRs1 s.mem_wb.IR)
    (h2 : getRd s.mem_wb.IR ≠ getRs2 s.mem_wb.IR) :
    (WB_stage s).registers (getRd s.mem_wb.IR + 1)
      = wrap32 (s.registers (getRs1 s.mem_wb.IR) * s.registers (getRs2 s.mem_wb.IR)
          / 4294967296) ∧
    (WB_stage s).registers (getRd s.mem_wb.IR) = s.mem_wb.ALUOutput ∧
    (runCycle s).registers (getRd s.mem_wb.IR + 1) = (WB_stage s).registers (getRd s.mem_wb.IR + 1) ∧
    (runCycle s).registers (getRd s.mem_wb.IR) = s.mem_wb.ALUOutput ∧
    (-2147483648 ≤ s.registers (getRs1 s.mem_wb.IR) →
      s.registers (getRs1 s.mem_wb.IR) < 2147483648 →
      -2147483648 ≤ s.registers (getRs2 s.mem_wb.IR) →
      s.registers (getRs2 s.mem_wb.IR) < 2147483648 →
      (WB_stage s).registers (getRd s.mem_wb.IR + 1)
        = s.registers (getRs1 s.mem_wb.IR) * s.registers (getRs2 s.mem_wb.IR) / 4294967296) ∧
    (∀ u : RISCVSimulator, u.id_ex.valid = true → u.id_ex.IR = s.mem_wb.IR →
      (EX_stage u).ex_mem_next.ALUOutput = wrap32 ((u.id_ex.A * u.id_ex.B) % 4294967296)) := by
  have e := WB_stage_registers_mul s hv hop hf3 hf7 hrd0 hrd
  have e2 := WB_stage_registers_mul { s with stall := false } hv hop hf3 hf7 hrd0 hrd
  have k1 : (WB_stage s).registers (getRd s.mem_wb.IR + 1)
      = wrap32 (s.registers (getRs1 s.mem_wb.IR) * s.registers (getRs2 s.mem_wb.IR)
          / 4294967296) := by
    rw [e]
    simp [setReg, Ne.symm h1, Ne.symm h2]
  have k2 : (WB_stage s).registers (getRd s.mem_wb.IR) = s.mem_wb.ALUOutput := by
    rw [e]
    simp [setReg, hrd0]
  refine ⟨k1, k2, ?_, ?_, ?_, ?_⟩
  · rw [runCycle_registers, e2, e]
  · rw [runCycle_registers, e2, ← e, k2]
  · intro a1 a2 b1 b2
    rw [k1, wrap32_mul_high _ _ a1 a2 b1 b2]
  · intro u hu hir
    exact EX_stage_mul u hu (by rw [hir]; exact hop) (by rw [hir]; exact hf3)
      (by rw [hir]; exact hf7)

/-- Witness for C14: `mul x3,x1,x2` retiring over `x1 = x2 = 65536`. -/
theorem mul_high_word_writeback_witness :
    (WB_stage (stateInWB 0x022081B3 0 (fun r => if r = 1 ∨ r = 2 then 65536 else 0))).registers 4
      = 1 ∧
    (WB_stage (stateInWB 0x022081B3 0 (fun r => if r = 1 ∨ r = 2 then 65536 else 0))).registers 3
      = 0 :=
  have h := mul_high_word_writeback
    (stateInWB 0x022081B3 0 (fun r => if r = 1 ∨ r = 2 then 65536 else 0)) rfl (by decide)
    (by decide) (by decide) (by decide) (by decide) (by decide) (by decide)
  ⟨h.1.trans (by decide), h.2.1⟩

/-- C19, as stated, fails: in the run of scenario 3 the BEQ retires in cycle 7
and the branch target `addi x4,x0,20` in cycle 10 (0-based 6 and 9), and the
number of cycles between them in which `instructionsCompleted` does not
increase is not 1. -/
theorem one_bubble_penalty_counterexample :
    retireCycles branchProgram 0x00208463 12 = [6] ∧
    retireCycles branchProgram 0x01400213 12 = [9] ∧
    (idleCyclesBetween branchProgram 6 9).length ≠ 1 := by
  decide

/-- C19, amended: a taken control transfer costs exactly two bubbles. When
scenario 3 is run from reset the program completes after 10 cycles, the BEQ
retires in cycle 7 and the branch target `addi x4,x0,20` in cycle 10 (0-based 6
and 9), and exactly two cycles in which `instructionsCompleted` does not
increase lie between them, cycles 8 and 9: one for the squashed word after the
BEQ and one for the fetch suppressed in the cycle of the redirect. -/
theorem taken_branch_costs_two_bubbles :
    (runToCompletion 10 (initial branchProgram)).map (fun s => s.totalCycles) = some 10 ∧
    retireCycles branchProgram 0x00208463 12 = [6] ∧
    retireCycles branchProgram 0x01400213 12 = [9] ∧
    idleCyclesBetween branchProgram 6 9 = [7, 8] ∧
    (idleCyclesBetween branchProgram 6 9).length = 2 ∧
    (List.range 11).map (fun k => (runCycles k (initial branchProgram)).instructionsCompleted)
      = [0, 0, 0, 0, 0, 1, 2, 3, 3, 3, 4] ∧
    (runCycles 5 (initial branchProgram)).if_id.valid = false ∧
    (runCycles 5 (initial branchProgram)).id_ex.valid = false := by
  decide

/-! ## C13: the immediate add and bit 30 -/

/-- Masking with a single bit. -/
theorem and_two_pow_eq (x k : Nat) : x &&& 2 ^ k = if x / 2 ^ k % 2 = 1 then 2 ^ k else 0 := by
  apply Nat.eq_of_testBit_eq
  intro i
  rw [Nat.testBit_and, Nat.testBit_two_pow]
  by_cases hi : k = i
  · subst hi
    by_cases hx : x / 2 ^ k % 2 = 1
    · simp [hx, Nat.testBit_to_div_mod, Nat.testBit_two_pow_self]
    · simp [hx, Nat.testBit_to_div_mod]
  · by_cases hx : x / 2 ^ k % 2 = 1
    · simp [hx, hi, Nat.testBit_two_pow_of_ne hi]
    · simp [hx, hi]

/-- Sign extension of a 12-bit field, as the decode helpers perform it. -/
theorem signExtend12 (x : Nat) (hx : x < 4096) :
    (if x &&& 0x800 ≠ 0 then toS32 (x ||| 0xFFFFF000) else toS32 x)
      = if x < 2048 then (x : Int) else (x : Int) - 4096 := by
  have h1 : x &&& 0x800 = if x / 2048 % 2 = 1 then 2048 else 0 := and_two_pow_eq x 11
  have h2 : x ||| 0xFFFFF000 = 4294963200 + x := by
    have h := Nat.mul_add_lt_is_or (show x < 2 ^ 12 from hx) 0xFFFFF
    rw [Nat.lor_comm]
    exact h.symm
  rw [h1, h2]
  unfold toS32 wrap32
  split_ifs <;> omega

/-- The immediate and bit 30 of an I-type word with `rs1 = 0`. -/
theorem encodeI_imm (imm rd funct3 opcode : Nat) (hi : imm < 4096) (hr : rd < 32)
    (hf : funct3 < 8) (ho : opcode < 128) :
    getImmI (encodeI imm 0 funct3 rd opcode) = (if imm < 2048 then (imm : Int) else (imm : Int) - 4096) ∧
    (encodeI imm 0 funct3 rd opcode >>> 30) &&& 1 = imm / 1024 % 2 := by
  have e : encodeI imm 0 funct3 rd opcode >>> 20 = imm := by
    rw [Nat.shiftRight_eq_div_pow]
    unfold encodeI
    omega
  constructor
  · unfold getImmI
    dsimp only
    rw [e]
    exact signExtend12 imm hi
  · rw [bit30_eq]
    unfold encodeI
    omega

set_option maxHeartbeats 4000000 in
/-- The run of a one-word program `addi rd,x0,_`. -/
theorem addi_run (w rd : Nat) (V : Int)
    (o : getOpcode w = 19) (r : getRd w = rd) (s1 : getRs1 w = 0) (f3 : getFunct3 w = 0)
    (i : getImmI w = V) (l : w < 4294967296) (n : w ≠ 0) (hrd : rd ≠ 0) :
    ∃ f, runToCompletion 5 (initial [w]) = some f ∧
      f.totalCycles = 5 ∧ f.instructionsCompleted = 1 ∧
      f.registers rd = (if (w >>> 30) &&& 1 = 1 then wrap32 (-V) else wrap32 V) ∧
      (∀ q, q ≠ rd → f.registers q = 0) ∧ f.dataMemory = fun _ => 0 := by
  obtain ⟨P, hP⟩ : ∃ P : Option RISCVSimulator → Prop, P = fun o =>
      ∃ f, o = some f ∧
      f.totalCycles = 5 ∧ f.instructionsCompleted = 1 ∧
      f.registers rd = (if (w >>> 30) &&& 1 = 1 then wrap32 (-V) else wrap32 V) ∧
      (∀ q, q ≠ rd → f.registers q = 0) ∧ f.dataMemory = fun _ => 0 := ⟨_, rfl⟩
  suffices h : P (runToCompletion 5 (initial [w])) by
    rw [hP] at h
    exact h
  simp only [initial, loadProgram, construct, reset]
  have hcases : (w >>> 30) &&& 1 = 1 ∨ (w >>> 30) &&& 1 = 0 := by
    rw [bit30_eq]
    omega
  rcases hcases with hb | hb <;> (
    iterate 5 (
      rw [runToCompletion_succ]
      simp [isProgramComplete, Nat.mod_eq_of_lt l, n, -Nat.reduceShiftRight]
      rw [runCycle_eq]
      simp only [afterID, afterEX]
      simp [WB_stage, o, r, hrd, -Nat.reduceShiftRight]
      simp [MEM_stage, o, -Nat.reduceShiftRight]
      simp [EX_stage, setALU, o, f3, hb, -Nat.reduceShiftRight]
      simp [ID_stage, checkDataHazard, producerHazard, o, r, s1, i, setReg, -Nat.reduceShiftRight]
      simp [fetchOrHold, IF_stage, add32, Nat.mod_eq_of_lt l, n, -Nat.reduceShiftRight]
      simp [commit, add32, -Nat.reduceShiftRight])
    rw [runToCompletion_zero]
    simp [isProgramComplete, -Nat.reduceShiftRight]
    subst hP
    refine ⟨_, rfl, ?_, ?_, ?_, ?_, ?_⟩
    · rfl
    · rfl
    · simp [setReg, hrd, hb]
    · intro q hq
      simp [setReg, hq]
    · rfl)

/-- C13, as stated, fails: `addi x1,x0,1024` (0x40000093) has bit 30 set and
ends with `reg[1] = -1024`, and `addi x1,x0,-1` (0xFFF00093) ends with
`reg[1] = 1`. -/
theorem addi_immediate_counterexample :
    (encodeI 1024 0 0 1 0x13 = 0x40000093 ∧ getImmI 0x40000093 = 1024 ∧
     (runToCompletion 5 (initial [0x40000093])).map (fun s => s.registers 1) = some (-1024)) ∧
    (encodeI 4095 0 0 1 0x13 = 0xFFF00093 ∧ getImmI 0xFFF00093 = -1 ∧
     (runToCompletion 5 (initial [0xFFF00093])).map (fun s => s.registers 1) = some 1) := by
  decide

/-- C13, amended: for every `rd` in `1..31` and every 12-bit signed immediate
`imm` in `-2048..2047`, the run of the one-word program `addi rd,x0,imm`
(standard I-type encoding, the immediate field holding `imm` modulo 4096) from
reset is complete after 5 cycles with one instruction retired, every register
other than `rd` 0 and `reg[rd] = imm` when bit 10 of the immediate is 0 (`imm`
in `-2048..-1025` or `0..1023`), but `reg[rd] = -imm` when bit 10 is 1 (`imm`
in `-1024..-1` or `1024..2047`): that bit is bit 30 of the word, which selects
subtraction. -/
theorem addi_immediate_result (rd : Nat) (imm : Int) (hrd1 : 1 ≤ rd) (hrd2 : rd ≤ 31)
    (hi1 : -2048 ≤ imm) (hi2 : imm ≤ 2047) (extra : Nat) :
    ∃ f, runToCompletion (5 + extra) (initial [encodeI (imm % 4096).toNat 0 0 rd 0x13]) = some f ∧
      f.totalCycles = 5 ∧ f.instructionsCompleted = 1 ∧
      f.registers rd = (if (-1024 ≤ imm ∧ imm < 0) ∨ 1024 ≤ imm then -imm else imm) ∧
      (∀ q, q ≠ rd → f.registers q = 0) := by
  have hf : (imm % 4096).toNat < 4096 := by omega
  obtain ⟨o, r, s1, f3, l, n⟩ := encodeI_addi_fields (imm % 4096).toNat rd hf (by omega)
  obtain ⟨i, b⟩ := encodeI_imm (imm % 4096).toNat rd 0 0x13 hf (by omega) (by norm_num)
    (by norm_num)
  obtain ⟨f, hrun, htc, hic, hreg, hothers, -⟩ := addi_run _ rd _ o r s1 f3 i l n (by omega)
  refine ⟨f, runToCompletion_add extra 5 _ _ hrun, htc, hic, ?_, hothers⟩
  rw [hreg, b]
  unfold wrap32
  split_ifs <;> omega

/-- Witness for C13: `addi x1,x0,5` is the word 0x00500093 of scenario 1 and
ends with `reg[1] = 5`. -/
theorem addi_immediate_result_witness :
    (1 ≤ 1 ∧ 1 ≤ 31 ∧ (-2048 : Int) ≤ 5 ∧ (5 : Int) ≤ 2047) ∧
    encodeI ((5 : Int) % 4096).toNat 0 0 1 0x13 = 0x00500093 ∧
    ∃ f, runToCompletion 5 (initial [encodeI ((5 : Int) % 4096).toNat 0 0 1 0x13]) = some f ∧
      f.totalCycles = 5 ∧ f.instructionsCompleted = 1 ∧ f.registers 1 = 5 :=
  ⟨by decide, by decide,
    (addi_immediate_result 1 5 (by decide) (by decide) (by decide) (by decide) 0).imp
      (fun _ h => ⟨h.1, h.2.1, h.2.2.1, h.2.2.2.1⟩)⟩

/-! ## C12: JAL links and squashes -/

/-- The fields of `jal rd,+8`. -/
theorem jalPlus8_fields : ∀ rd, rd < 32 →
    getOpcode (jalPlus8 rd) = 111 ∧ getRd (jalPlus8 rd) = rd ∧ getImmJ (jalPlus8 rd) = 8 ∧
    jalPlus8 rd < 4294967296 ∧ jalPlus8 rd ≠ 0 := by
  decide

set_option maxHeartbeats 4000000 in
/-- The cycle-by-cycle run of `jal rd,+8` followed by an arbitrary word. -/
theorem jal_trace (w rd W : Nat) (o : getOpcode w = 111) (r : getRd w = rd)
    (i : getImmJ w = 8) (l : w < 4294967296) (n : w ≠ 0) (hrd : rd ≠ 0) :
    ∃ t, runTrace 5 (initial [w, W]) = t ∧
      t.map (fun s => isProgramComplete s) = [false, false, false, false, false, true] ∧
      t.map (fun s => s.PC) = [0, 4, 8, 8, 12, 16] ∧
      t.map (fun s => (s.id_ex.valid, s.id_ex.IR))
        = [(false, 0), (false, 0), (true, w), (false, 0), (false, 0), (false, 0)] ∧
      t.map (fun s => (s.mem_wb.valid, s.mem_wb.IR))
        = [(false, 0), (false, 0), (false, 0), (false, 0), (true, w), (false, 0)] ∧
      t.map (fun s => s.instructionsCompleted) = [0, 0, 0, 0, 0, 1] ∧
      t.map (fun s => s.totalCycles) = [0, 1, 2, 3, 4, 5] ∧
      ∃ s0 s1 s2 s3 s4 f, t = [s0, s1, s2, s3, s4, f] ∧
        s2.if_id = (if W % 4294967296 = 0 then {} else { IR := W % 4294967296, NPC := 8, valid := true }) ∧
        s3.if_id.valid = false ∧
        f.registers rd = 4 ∧ (∀ q, q ≠ rd → f.registers q = 0) ∧ f.dataMemory = fun _ => 0 := by
  have t1 : add32 (sub32 4 4) (toU32 8) = 8 := by decide
  have t2 : toS32 4 = 4 := by decide
  obtain ⟨P, hP⟩ : ∃ P : List RISCVSimulator → Prop, P = fun t =>
      t.map (fun s => isProgramComplete s) = [false, false, false, false, false, true] ∧
      t.map (fun s => s.PC) = [0, 4, 8, 8, 12, 16] ∧
      t.map (fun s => (s.id_ex.valid, s.id_ex.IR))
        = [(false, 0), (false, 0), (true, w), (false, 0), (false, 0), (false, 0)] ∧
      t.map (fun s => (s.mem_wb.valid, s.mem_wb.IR))
        = [(false, 0), (false, 0), (false, 0), (false, 0), (true, w), (false, 0)] ∧
      t.map (fun s => s.instructionsCompleted) = [0, 0, 0, 0, 0, 1] ∧
      t.map (fun s => s.totalCycles) = [0, 1, 2, 3, 4, 5] ∧
      ∃ s0 s1 s2 s3 s4 f, t = [s0, s1, s2, s3, s4, f] ∧
        s2.if_id = (if W % 4294967296 = 0 then {} else { IR := W % 4294967296, NPC := 8, valid := true }) ∧
        s3.if_id.valid = false ∧
        f.registers rd = 4 ∧ (∀ q, q ≠ rd → f.registers q = 0) ∧ f.dataMemory = fun _ => 0 :=
    ⟨_, rfl⟩
  suffices h : P (runTrace 5 (initial [w, W])) by
    rw [hP] at h
    exact ⟨_, rfl, h⟩
  simp only [initial, loadProgram, construct, reset]
  by_cases h0 : W % 4294967296 = 0 <;> (
    iterate 5 (
      rw [runTrace_succ, runCycle_eq]
      simp only [afterID, afterEX]
      simp [WB_stage, o, r, hrd, -Nat.reduceShiftRight]
      simp [MEM_stage, o, -Nat.reduceShiftRight]
      simp [EX_stage, setALU, o, t1, t2, -Nat.reduceShiftRight]
      simp [ID_stage, checkDataHazard, producerHazard, o, r, i, setReg, -Nat.reduceShiftRight]
      simp [fetchOrHold, IF_stage, add32, Nat.mod_eq_of_lt l, n, h0, -Nat.reduceShiftRight]
      simp [commit, add32, -Nat.reduceShiftRight])
    rw [runTrace_zero]
    subst hP
    refine ⟨?_, ?_, ?_, ?_, ?_, ?_, ?_⟩
    · simp [isProgramComplete, Nat.mod_eq_of_lt l, n]
    · simp only [List.map]
    · simp only [List.map]
    · simp only [List.map]
    · simp only [List.map]
    · simp only [List.map]
    · refine ⟨_, _, _, _, _, _, rfl, ?_, ?_, ?_, ?_, ?_⟩
      · simp [h0]
      · rfl
      · simp [setReg, hrd]
      · intro q hq
        simp [setReg, hq]
      · rfl)

/-- C12: for every `rd` in `1..31` and every word `W` stored at word index 1
(the loader keeps its low 32 bits), the run of `jal rd,+8 ; W` from reset is
complete after 5 cycles with `reg[rd] = 4`, every other register 0 and one
instruction retired. The JAL is in ID/EX after cycle 2, so in EX during cycle
3, at the end of which `PC` is 8; the word at `PC = 4` is in IF/ID after cycle
2 (when it is not 0) and cycle 3 replaces it by bubbles in both IF/ID and
ID/EX; the only valid MEM/WB latch of the run holds the JAL. For `rd = 1` the
word is 0x008000EF. -/
theorem jal_links_and_squashes (rd W : Nat) (hrd1 : 1 ≤ rd) (hrd2 : rd ≤ 31) (extra : Nat) :
    ∃ f, runToCompletion (5 + extra) (initial [jalPlus8 rd, W]) = some f ∧
      f.totalCycles = 5 ∧ f.instructionsCompleted = 1 ∧
      f.registers rd = 4 ∧ (∀ q, q ≠ rd → f.registers q = 0) ∧
      (runCycles 2 (initial [jalPlus8 rd, W])).id_ex.valid = true ∧
      (runCycles 2 (initial [jalPlus8 rd, W])).id_ex.IR = jalPlus8 rd ∧
      (runCycles 3 (initial [jalPlus8 rd, W])).PC = 8 ∧
      (runCycles 2 (initial [jalPlus8 rd, W])).if_id
        = (if W % 4294967296 = 0 then {}
           else { IR := W % 4294967296, NPC := 8, valid := true }) ∧
      (runCycles 3 (initial [jalPlus8 rd, W])).if_id.valid = false ∧
      (runCycles 3 (initial [jalPlus8 rd, W])).id_ex.valid = false ∧
      (List.range 6).map (fun k => ((runCycles k (initial [jalPlus8 rd, W])).mem_wb.valid,
          (runCycles k (initial [jalPlus8 rd, W])).mem_wb.IR))
        = [(false, 0), (false, 0), (false, 0), (false, 0), (true, jalPlus8 rd), (false, 0)] ∧
      (List.range 6).map (fun k => (runCycles k (initial [jalPlus8 rd, W])).instructionsCompleted)
        = [0, 0, 0, 0, 0, 1] ∧
      jalPlus8 1 = 0x008000EF := by
  obtain ⟨o, r, i, l, n⟩ := jalPlus8_fields rd (by omega)
  obtain ⟨t, ht, hcomp, hpc, hid, hwb, hic, htc, s0, s1, s2, s3, s4, f, hlist, hif2, hif3,
    hreg, hothers, -⟩ := jal_trace _ rd W o r i l n (by omega)
  have hrun : runToCompletion 5 (initial [jalPlus8 rd, W])
      = some (runCycles 5 (initial [jalPlus8 rd, W])) := by
    apply runToCompletion_of_trace
    rw [ht, hcomp]
    rfl
  have hr : List.range 6 = [0, 1, 2, 3, 4, 5] := by decide
  have ht' := ht
  rw [runTrace_eq, hr, hlist] at ht'
  simp only [List.map, List.cons.injEq, and_true] at ht'
  obtain ⟨-, -, e2, e3, -, e5⟩ := ht'
  rw [runTrace_eq] at ht
  have hic0 := hic
  rw [hlist] at hpc hid htc hic
  simp only [List.map, List.cons.injEq, and_true, Prod.mk.injEq] at hpc hid htc hic
  rw [e5] at hrun
  rw [e2, e3]
  refine ⟨f, runToCompletion_add extra 5 _ _ hrun, htc.2.2.2.2.2, hic.2.2.2.2.2, hreg, hothers,
    hid.2.2.1.1, hid.2.2.1.2, hpc.2.2.2.1, hif2, hif3, hid.2.2.2.1.1, ?_, ?_, by decide⟩
  · rw [← hwb, ← ht, List.map_map]
    rfl
  · rw [← hic0, ← ht, List.map_map]
    rfl

/-- Witness for C12: `jal x1,+8` followed by `addi x3,x0,10`. -/
theorem jal_links_and_squashes_witness :
    (1 ≤ 1 ∧ 1 ≤ 31) ∧ jalPlus8 1 = 0x008000EF ∧
    ∃ f, runToCompletion 5 (initial [jalPlus8 1, 0x00A00193]) = some f ∧
      f.totalCycles = 5 ∧ f.instructionsCompleted = 1 ∧ f.registers 1 = 4 ∧
      (∀ q, q ≠ 1 → f.registers q = 0) :=
  ⟨by decide, by decide,
    (jal_links_and_squashes 1 0x00A00193 (by decide) (by decide) 0).imp
      (fun _ h => ⟨h.1, h.2.1, h.2.2.1, h.2.2.2.1, h.2.2.2.2.1⟩)⟩

/-! ## C11: store followed by load -/

/-- Masking with `0xFE0` keeps bits 11:5. -/
theorem and_FE0 (y : Nat) : y &&& 0xFE0 = y / 32 % 128 * 32 := by
  apply Nat.eq_of_testBit_eq
  intro j
  have h1 : (0xFE0 : Nat) = 2 ^ 5 * (2 ^ 7 - 1) := by norm_num
  have h2 : y / 32 % 128 * 32 = 2 ^ 5 * ((y >>> 5) % 2 ^ 7) := by
    rw [Nat.shiftRight_eq_div_pow]
    norm_num [Nat.mul_comm]
  rw [Nat.testBit_and, h1, h2, Nat.testBit_mul_pow_two, Nat.testBit_mul_pow_two,
    Nat.testBit_two_pow_sub_one, Nat.testBit_mod_two_pow, Nat.testBit_shiftRight]
  by_cases hj : 5 ≤ j
  · have e : 5 + (j - 5) = j := by omega
    simp [hj, e, Bool.and_comm]
  · simp [hj]

/-- The fields of an I-type word with `rs1 = 0`. -/
theorem encodeI_fields (imm rd funct3 opcode : Nat) (hi : imm < 4096) (hr : rd < 32)
    (hf : funct3 < 8) (ho : opcode < 128) :
    getOpcode (encodeI imm 0 funct3 rd opcode) = opcode ∧
    getRd (encodeI imm 0 funct3 rd opcode) = rd ∧
    getRs1 (encodeI imm 0 funct3 rd opcode) = 0 ∧
    getFunct3 (encodeI imm 0 funct3 rd opcode) = funct3 ∧
    encodeI imm 0 funct3 rd opcode < 4294967296 ∧
    (opcode ≠ 0 → encodeI imm 0 funct3 rd opcode ≠ 0) := by
  rw [getOpcode_eq, getRd_eq, getRs1_eq, getFunct3_eq]
  unfold encodeI
  norm_num
  omega

/-- The fields of an S-type word with a non-negative immediate. -/
theorem encodeS_fields (imm rs2 rs1 funct3 opcode : Nat) (hi : imm < 2048) (h2 : rs2 < 32)
    (h1 : rs1 < 32) (hf : funct3 < 8) (ho : opcode < 128) :
    getOpcode (encodeS imm rs2 rs1 funct3 opcode) = opcode ∧
    getRs1 (encodeS imm rs2 rs1 funct3 opcode) = rs1 ∧
    getRs2 (encodeS imm rs2 rs1 funct3 opcode) = rs2 ∧
    getImmS (encodeS imm rs2 rs1 funct3 opcode) = imm ∧
    encodeS imm rs2 rs1 funct3 opcode < 4294967296 ∧
    (opcode ≠ 0 → encodeS imm rs2 rs1 funct3 opcode ≠ 0) := by
  have hq : encodeS imm rs2 rs1 funct3 opcode / 1048576 = 32 * (imm / 32) + rs2 := by
    unfold encodeS
    omega
  have hlt : encodeS imm rs2 rs1 funct3 opcode < 4294967296 := by
    unfold encodeS
    omega
  have hop : getOpcode (encodeS imm rs2 rs1 funct3 opcode) = opcode := by
    rw [getOpcode_eq]
    unfold encodeS
    omega
  have hrs1 : getRs1 (encodeS imm rs2 rs1 funct3 opcode) = rs1 := by
    rw [getRs1_eq]
    unfold encodeS
    omega
  have hrs2 : getRs2 (encodeS imm rs2 rs1 funct3 opcode) = rs2 := by
    rw [getRs2_eq, hq]
    omega
  have hne : opcode ≠ 0 → encodeS imm rs2 rs1 funct3 opcode ≠ 0 := by
    unfold encodeS
    omega
  have a : (encodeS imm rs2 rs1 funct3 opcode >>> 7) &&& 0x1F = imm % 32 := by
    have h := getRd_eq (encodeS imm rs2 rs1 funct3 opcode)
    unfold getRd at h
    rw [h]
    unfold encodeS
    omega
  have b : (encodeS imm rs2 rs1 funct3 opcode >>> 20) &&& 0xFE0 = 2 ^ 5 * (imm / 32) := by
    rw [and_FE0, Nat.shiftRight_eq_div_pow]
    norm_num
    rw [hq]
    omega
  have c : getImmS (encodeS imm rs2 rs1 funct3 opcode) = imm := by
    unfold getImmS
    dsimp only
    rw [a, b, Nat.lor_comm, ← Nat.mul_add_lt_is_or (by omega) (imm / 32)]
    have e : 2 ^ 5 * (imm / 32) + imm % 32 = imm := by omega
    rw [e, signExtend12 imm (by omega), if_pos hi]
  exact ⟨hop, hrs1, hrs2, c, hlt, hne⟩

set_option maxHeartbeats 4000000 in
/-- The run of `addi x1,x0,_ ; sw x1,_(x0) ; lw x2,_(x0)`. -/
theorem store_load_run (w1 w2 w3 : Nat) (V K : Int)
    (o1 : getOpcode w1 = 19) (r1 : getRd w1 = 1) (s1 : getRs1 w1 = 0) (f1 : getFunct3 w1 = 0)
    (b1 : (w1 >>> 30) &&& 1 = 0) (i1 : getImmI w1 = V) (l1 : w1 < 4294967296) (n1 : w1 ≠ 0)
    (o2 : getOpcode w2 = 35) (s2 : getRs1 w2 = 0) (t2 : getRs2 w2 = 1) (i2 : getImmS w2 = K)
    (l2 : w2 < 4294967296) (n2 : w2 ≠ 0)
    (o3 : getOpcode w3 = 3) (r3 : getRd w3 = 2) (s3 : getRs1 w3 = 0) (i3 : getImmI w3 = K)
    (l3 : w3 < 4294967296) (n3 : w3 ≠ 0)
    (hV : wrap32 V = V) (hK : wrap32 K = K) (hK1 : -4 < K) (hK2 : K < 2048) :
    ∃ f, runToCompletion 9 (initial [w1, w2, w3]) = some f ∧
      f.totalCycles = 9 ∧ f.instructionsCompleted = 3 ∧
      f.registers 1 = V ∧ f.registers 2 = V ∧
      (∀ q, q ≠ 1 → q ≠ 2 → f.registers q = 0) ∧
      f.dataMemory = fun j => if j = (Int.tdiv K 4).toNat then V else 0 := by
  have hA : 0 ≤ Int.tdiv K 4 := ((tdiv_four_range K).2 ⟨hK1, hK2⟩).1
  have hB : Int.tdiv K 4 < 512 := ((tdiv_four_range K).2 ⟨hK1, hK2⟩).2
  obtain ⟨P, hP⟩ : ∃ P : Option RISCVSimulator → Prop, P = fun o =>
      ∃ f, o = some f ∧
      f.totalCycles = 9 ∧ f.instructionsCompleted = 3 ∧
      f.registers 1 = V ∧ f.registers 2 = V ∧
      (∀ q, q ≠ 1 → q ≠ 2 → f.registers q = 0) ∧
      f.dataMemory = fun j => if j = (Int.tdiv K 4).toNat then V else 0 := ⟨_, rfl⟩
  suffices h : P (runToCompletion 9 (initial [w1, w2, w3])) by
    rw [hP] at h
    exact h
  simp only [initial, loadProgram, construct, reset]
  iterate 9 (
    rw [runToCompletion_succ]
    simp [isProgramComplete, Nat.mod_eq_of_lt l1, Nat.mod_eq_of_lt l2, Nat.mod_eq_of_lt l3,
      n1, n2, n3, -Nat.reduceShiftRight]
    rw [runCycle_eq]
    simp only [afterID, afterEX]
    simp [WB_stage, o1, r1, o2, o3, r3, -Nat.reduceShiftRight]
    simp [MEM_stage, o1, o2, o3, hA, hB, -Nat.reduceShiftRight]
    simp [EX_stage, setALU, o1, f1, b1, o2, o3, hV, hK, -Nat.reduceShiftRight]
    simp [ID_stage, checkDataHazard, producerHazard, o1, r1, s1, i1, o2, s2, t2, i2, o3, r3, s3,
      i3, setReg, -Nat.reduceShiftRight]
    simp [fetchOrHold, IF_stage, add32, Nat.mod_eq_of_lt l1, Nat.mod_eq_of_lt l2,
      Nat.mod_eq_of_lt l3, n1, n2, n3, -Nat.reduceShiftRight]
    simp [commit, add32, -Nat.reduceShiftRight])
  rw [runToCompletion_zero]
  simp [isProgramComplete, -Nat.reduceShiftRight]
  subst hP
  refine ⟨_, rfl, ?_, ?_, ?_, ?_, ?_, ?_⟩
  · rfl
  · rfl
  · simp [setReg]
  · simp [setReg]
  · intro q hq1 hq2
    simp [setReg, hq1, hq2]
  · rfl

/-- Small natural numbers are their own `int32_t` value. -/
theorem wrap32_natCast (n : Nat) (h : n < 2048) : wrap32 (n : Int) = n := by
  unfold wrap32
  omega

/-- The truncating word index of a non-negative byte address. -/
theorem tdiv_four_toNat (k : Nat) : (Int.tdiv (k : Int) 4).toNat = k / 4 := by
  rw [Int.tdiv_eq_ediv (by omega) (by decide)]
  omega

/-- The fields of `addi x1,x0,v` for `v` in `0..1023`. -/
theorem addi_x1_fields (v : Nat) (hv : v ≤ 1023) :
    getImmI (encodeI v 0 0 1 0x13) = v ∧ (encodeI v 0 0 1 0x13 >>> 30) &&& 1 = 0 := by
  obtain ⟨i1, b1⟩ := encodeI_imm v 1 0 0x13 (by omega) (by norm_num) (by norm_num) (by norm_num)
  constructor
  · rw [i1, if_pos (by omega)]
  · rw [b1]
    omega

/-- The fields of `sw x1,k(x0)` for `k` in `0..2047`. -/
theorem sw_x1_fields (k : Nat) (hk : k ≤ 2047) :
    getOpcode (encodeS k 1 0 2 0x23) = 35 ∧ getRs1 (encodeS k 1 0 2 0x23) = 0 ∧
    getRs2 (encodeS k 1 0 2 0x23) = 1 ∧ getImmS (encodeS k 1 0 2 0x23) = k ∧
    encodeS k 1 0 2 0x23 < 4294967296 ∧ encodeS k 1 0 2 0x23 ≠ 0 := by
  obtain ⟨o2, s2, t2, i2, l2, n2⟩ := encodeS_fields k 1 0 2 0x23 (by omega) (by norm_num)
    (by norm_num) (by norm_num) (by norm_num)
  exact ⟨o2, s2, t2, i2, l2, n2 (by norm_num)⟩

/-- The fields of `lw x2,k(x0)` for `k` in `0..2047`. -/
theorem lw_x2_fields (k : Nat) (hk : k ≤ 2047) :
    getOpcode (encodeI k 0 2 2 0x03) = 3 ∧ getRd (encodeI k 0 2 2 0x03) = 2 ∧
    getRs1 (encodeI k 0 2 2 0x03) = 0 ∧ getImmI (encodeI k 0 2 2 0x03) = k ∧
    encodeI k 0 2 2 0x03 < 4294967296 ∧ encodeI k 0 2 2 0x03 ≠ 0 := by
  obtain ⟨o3, r3, s3, -, l3, n3⟩ := encodeI_fields k 2 2 0x03 (by omega) (by norm_num)
    (by norm_num) (by norm_num)
  obtain ⟨i3, -⟩ := encodeI_imm k 2 2 0x03 (by omega) (by norm_num) (by norm_num) (by norm_num)
  refine ⟨o3, r3, s3, ?_, l3, n3 (by norm_num)⟩
  rw [i3, if_pos (by omega)]

/-- C11: for every value `v` in `0..1023` and every byte offset `k` in
`0..2047`, the run of `addi x1,x0,v ; sw x1,k(x0) ; lw x2,k(x0)` from reset is
complete after 9 cycles with three instructions retired, `reg[2] = v`
(and `reg[1] = v`), `dataMemory[k/4] = v` and every other data-memory word 0.
For `v = 42`, `k = 0` the program is the round-trip scenario of the
specification. -/
theorem store_then_load_round_trip (v k : Nat) (hv : v ≤ 1023) (hk : k ≤ 2047) (extra : Nat) :
    ∃ f, runToCompletion (9 + extra) (initial (storeLoad v k)) = some f ∧
      f.totalCycles = 9 ∧ f.instructionsCompleted = 3 ∧
      f.registers 2 = v ∧ f.registers 1 = v ∧
      f.dataMemory (k / 4) = v ∧ (∀ j, j ≠ k / 4 → f.dataMemory j = 0) ∧
      storeLoad 42 0 = [0x02A00093, 0x00102023, 0x00002103] := by
  have hK1 : -4 < (k : Int) := by omega
  have hK2 : (k : Int) < 2048 := by omega
  have hV := wrap32_natCast v (by omega)
  have hK := wrap32_natCast k (by omega)
  obtain ⟨o1, r1, s1, f1, l1, n1⟩ := encodeI_addi_fields v 1 (Nat.lt_of_le_of_lt hv (by decide))
    (by decide)
  obtain ⟨i1, b1⟩ := addi_x1_fields v hv
  obtain ⟨o2, s2, t2, i2, l2, n2⟩ := sw_x1_fields k hk
  obtain ⟨o3, r3, s3, i3, l3, n3⟩ := lw_x2_fields k hk
  obtain ⟨f, hrun, htc, hic, hr1, hr2, -, hmem⟩ := store_load_run _ _ _ (v : Int) (k : Int)
    o1 r1 s1 f1 b1 i1 l1 n1 o2 s2 t2 i2 l2 n2 o3 r3 s3 i3 l3 n3 hV hK hK1 hK2
  rw [tdiv_four_toNat] at hmem
  unfold storeLoad
  refine ⟨f, runToCompletion_add extra 9 _ _ hrun, htc, hic, hr2, hr1, ?_, ?_, by decide⟩
  · rw [hmem]
    simp
  · intro j hj
    rw [hmem]
    simp [hj]

/-- Witness for C11: `v = 42`, `k = 0`. -/
theorem store_then_load_round_trip_witness :
    (42 ≤ 1023 ∧ 0 ≤ 2047) ∧
    ∃ f, runToCompletion 9 (initial (storeLoad 42 0)) = some f ∧
      f.registers 2 = 42 ∧ f.dataMemory 0 = 42 :=
  ⟨by decide,
    (store_then_load_round_trip 42 0 (by decide) (by decide) 0).imp
      (fun _ h => ⟨h.1, h.2.2.2.1, h.2.2.2.2.2.1⟩)⟩

/-! ## C24: no three stalling cycles in a row -/

/-- With bubbles in both ID/EX and EX/MEM the hazard scan finds nothing. -/
theorem checkDataHazard_of_invalid (s : RISCVSimulator) (h1 : s.id_ex.valid = false)
    (h2 : s.ex_mem.valid = false) : checkDataHazard s = false := by
  unfold checkDataHazard
  simp [h1, h2]

/-- Two stalling cycles in a row leave bubbles in ID/EX and EX/MEM, so the
cycle after them does not stall. -/
theorem stall_after_two_stalls (s : RISCVSimulator) (h1 : (runCycle s).stall = true)
    (h2 : (runCycle (runCycle s)).stall = true) :
    (runCycle (runCycle s)).id_ex.valid = false ∧ (runCycle (runCycle s)).ex_mem.valid = false ∧
    (runCycle (runCycle (runCycle s))).stall = false := by
  have a1 : (runCycle s).id_ex = {} := (runCycle_of_stall s h1).2.2
  have a2 : (runCycle (runCycle s)).id_ex = {} := (runCycle_of_stall _ h2).2.2
  have b1 : (runCycle (runCycle s)).id_ex.valid = false := by rw [a2]
  have b2 : (runCycle (runCycle s)).ex_mem.valid = false := by
    rw [runCycle_ex_mem_valid, a1]
  refine ⟨b1, b2, ?_⟩
  cases h3 : (runCycle (runCycle (runCycle s))).stall
  · rfl
  · have h := (runCycle_stall_iff _).1 h3
    have hc : checkDataHazard (runCycle (runCycle s)) = true := h.2.2.1
    rw [checkDataHazard_of_invalid _ b1 b2] at hc
    exact absurd hc (by decide)

/-- C24: for every state `s`, reachable or not, `stall` is not asserted at the
end of all three of `runCycle s`, `runCycle (runCycle s)` and
`runCycle (runCycle (runCycle s))`: a stalling cycle leaves a bubble in ID/EX,
so after two stalling cycles in a row ID/EX and EX/MEM are both bubbles and
the hazard scan finds nothing. Two stalling cycles in a row do occur (cycles 4
and 5 of scenario 2). -/
theorem no_three_consecutive_stalls (s : RISCVSimulator) :
    ((runCycle s).stall = false ∨ (runCycle (runCycle s)).stall = false ∨
      (runCycle (runCycle (runCycle s))).stall = false) ∧
    ((runCycle s).stall = true ∧ (runCycle (runCycle s)).stall = true →
      (runCycle (runCycle s)).id_ex.valid = false ∧
      (runCycle (runCycle s)).ex_mem.valid = false ∧
      checkDataHazard (runCycle (runCycle s)) = false) ∧
    ((runCycle hazardState).stall = true ∧ (runCycle (runCycle hazardState)).stall = true ∧
      (runCycle (runCycle (runCycle hazardState))).stall = false) := by
  refine ⟨?_, ?_, by decide⟩
  · cases h1 : (runCycle s).stall
    · exact Or.inl rfl
    · cases h2 : (runCycle (runCycle s)).stall
      · exact Or.inr (Or.inl rfl)
      · exact Or.inr (Or.inr (stall_after_two_stalls s h1 h2).2.2)
  · intro h
    obtain ⟨b1, b2, -⟩ := stall_after_two_stalls s h.1 h.2
    exact ⟨b1, b2, checkDataHazard_of_invalid _ b1 b2⟩

/-! ## C22 and C23: the branch and jump immediates -/

/-- Masking with a run of `n` ones that starts at bit `a`. -/
theorem and_shifted_mask (y a n : Nat) :
    y &&& (2 ^ a * (2 ^ n - 1)) = 2 ^ a * (y / 2 ^ a % 2 ^ n) := by
  apply Nat.eq_of_testBit_eq
  intro j
  rw [← Nat.shiftRight_eq_div_pow, Nat.testBit_and, Nat.testBit_mul_pow_two,
    Nat.testBit_mul_pow_two, Nat.testBit_two_pow_sub_one, Nat.testBit_mod_two_pow,
    Nat.testBit_shiftRight]
  by_cases hj : a ≤ j
  · have e : a + (j - a) = j := by omega
    simp [hj, e, Bool.and_comm]
  · simp [hj]

/-- A bitwise or with a multiple of a power of two above the other operand is
a sum. -/
theorem or_eq_add (x i q : Nat) (h : x < 2 ^ i) : x ||| 2 ^ i * q = 2 ^ i * q + x := by
  rw [Nat.lor_comm]
  exact (Nat.mul_add_lt_is_or h q).symm

/-- Sign extension of a 13-bit field, as `getImmB` performs it. -/
theorem signExtend13 (x : Nat) (hx : x < 8192) :
    (if x &&& 0x1000 ≠ 0 then toS32 (x ||| 0xFFFFE000) else toS32 x)
      = if x < 4096 then (x : Int) else (x : Int) - 8192 := by
  have h1 : x &&& 0x1000 = if x / 4096 % 2 = 1 then 4096 else 0 := and_two_pow_eq x 12
  have h2 : x ||| 0xFFFFE000 = 4294959104 + x := or_eq_add x 13 0x7FFFF hx
  rw [h1, h2]
  unfold toS32 wrap32
  split_ifs <;> omega

/-- Sign extension of a 21-bit field, as `getImmJ` performs it. -/
theorem signExtend21 (x : Nat) (hx : x < 2097152) :
    (if x &&& 0x100000 ≠ 0 then toS32 (x ||| 0xFFE00000) else toS32 x)
      = if x < 1048576 then (x : Int) else (x : Int) - 2097152 := by
  have h1 : x &&& 0x100000 = if x / 1048576 % 2 = 1 then 1048576 else 0 := and_two_pow_eq x 20
  have h2 : x ||| 0xFFE00000 = 4292870144 + x := or_eq_add x 21 0x7FF hx
  rw [h1, h2]
  unfold toS32 wrap32
  split_ifs <;> omega

/-- Division and remainder recover the fields of a B-type word. -/
theorem fieldsB (a b r2 r1 f c d op : Nat) (ha : a < 2) (hb : b < 64) (h2 : r2 < 32)
    (h1 : r1 < 32) (hf : f < 8) (hc : c < 16) (hd : d < 2) (ho : op < 128) :
    (a * 2 ^ 31 + b * 2 ^ 25 + r2 * 2 ^ 20 + r1 * 2 ^ 15 + f * 2 ^ 12 + c * 2 ^ 8 + d * 2 ^ 7 + op)
        / 256 % 16 = c ∧
    (a * 2 ^ 31 + b * 2 ^ 25 + r2 * 2 ^ 20 + r1 * 2 ^ 15 + f * 2 ^ 12 + c * 2 ^ 8 + d * 2 ^ 7 + op)
        / 33554432 % 64 = b ∧
    (a * 2 ^ 31 + b * 2 ^ 25 + r2 * 2 ^ 20 + r1 * 2 ^ 15 + f * 2 ^ 12 + c * 2 ^ 8 + d * 2 ^ 7 + op)
        * 16 % 4294967296 / 2048 % 2 = d ∧
    (a * 2 ^ 31 + b * 2 ^ 25 + r2 * 2 ^ 20 + r1 * 2 ^ 15 + f * 2 ^ 12 + c * 2 ^ 8 + d * 2 ^ 7 + op)
        / 2147483648 % 2 = a := by
  refine ⟨?_, ?_, ?_, ?_⟩ <;> omega

/-- Division and remainder recover the fields of a J-type word. -/
theorem fieldsJ (a b c d rd op : Nat) (ha : a < 2) (hb : b < 1024) (hc : c < 2) (hd : d < 256)
    (hr : rd < 32) (ho : op < 128) :
    (a * 2 ^ 31 + b * 2 ^ 21 + c * 2 ^ 20 + d * 2 ^ 12 + rd * 2 ^ 7 + op) / 2097152 % 1024 = b ∧
    (a * 2 ^ 31 + b * 2 ^ 21 + c * 2 ^ 20 + d * 2 ^ 12 + rd * 2 ^ 7 + op) / 1048576 % 2 = c ∧
    (a * 2 ^ 31 + b * 2 ^ 21 + c * 2 ^ 20 + d * 2 ^ 12 + rd * 2 ^ 7 + op) / 4096 % 256 = d ∧
    (a * 2 ^ 31 + b * 2 ^ 21 + c * 2 ^ 20 + d * 2 ^ 12 + rd * 2 ^ 7 + op) / 2147483648 % 2 = a := by
  refine ⟨?_, ?_, ?_, ?_⟩ <;> omega

/-- The bit pattern that `getImmB` assembles from a B-type word. -/
theorem getImmB_pattern (u rs2 rs1 funct3 opcode : Nat) (hu : u < 8192) (he : u % 2 = 0)
    (h2 : rs2 < 32) (h1 : rs1 < 32) (hf : funct3 < 8) (ho : opcode < 128) :
    ((encodeB u rs2 rs1 funct3 opcode >>> 7) &&& 0x1E) |||
      ((encodeB u rs2 rs1 funct3 opcode >>> 20) &&& 0x7E0) |||
      (((encodeB u rs2 rs1 funct3 opcode <<< 4) % 4294967296) &&& 0x800) |||
      ((encodeB u rs2 rs1 funct3 opcode >>> 19) &&& 0x1000) = u := by
  have F : encodeB u rs2 rs1 funct3 opcode / 256 % 16 = u / 2 % 16 ∧
      encodeB u rs2 rs1 funct3 opcode / 33554432 % 64 = u / 32 % 64 ∧
      encodeB u rs2 rs1 funct3 opcode * 16 % 4294967296 / 2048 % 2 = u / 2048 % 2 ∧
      encodeB u rs2 rs1 funct3 opcode / 2147483648 % 2 = u / 4096 :=
    fieldsB (u / 4096) (u / 32 % 64) rs2 rs1 funct3 (u / 2 % 16) (u / 2048 % 2) opcode
      (by omega) (by omega) h2 h1 hf (by omega) (by omega) ho
  have A : (encodeB u rs2 rs1 funct3 opcode >>> 7) &&& 0x1E = 2 ^ 1 * (u / 2 % 16) := by
    show _ &&& (2 ^ 1 * (2 ^ 4 - 1)) = _
    rw [and_shifted_mask, Nat.shiftRight_eq_div_pow, Nat.div_div_eq_div_mul]
    show 2 ^ 1 * (encodeB u rs2 rs1 funct3 opcode / 256 % 16) = _
    rw [F.1]
  have B : (encodeB u rs2 rs1 funct3 opcode >>> 20) &&& 0x7E0 = 2 ^ 5 * (u / 32 % 64) := by
    show _ &&& (2 ^ 5 * (2 ^ 6 - 1)) = _
    rw [and_shifted_mask, Nat.shiftRight_eq_div_pow, Nat.div_div_eq_div_mul]
    show 2 ^ 5 * (encodeB u rs2 rs1 funct3 opcode / 33554432 % 64) = _
    rw [F.2.1]
  have C : ((encodeB u rs2 rs1 funct3 opcode <<< 4) % 4294967296) &&& 0x800
      = 2 ^ 11 * (u / 2048 % 2) := by
    show _ &&& (2 ^ 11 * (2 ^ 1 - 1)) = _
    rw [and_shifted_mask, Nat.shiftLeft_eq]
    show 2 ^ 11 * (encodeB u rs2 rs1 funct3 opcode * 16 % 4294967296 / 2048 % 2) = _
    rw [F.2.2.1]
  have D : (encodeB u rs2 rs1 funct3 opcode >>> 19) &&& 0x1000 = 2 ^ 12 * (u / 4096) := by
    show _ &&& (2 ^ 12 * (2 ^ 1 - 1)) = _
    rw [and_shifted_mask, Nat.shiftRight_eq_div_pow, Nat.div_div_eq_div_mul]
    show 2 ^ 12 * (encodeB u rs2 rs1 funct3 opcode / 2147483648 % 2) = _
    rw [F.2.2.2]
  rw [A, B, C, D, or_eq_add _ 5 _ (by omega), or_eq_add _ 11 _ (by omega),
    or_eq_add _ 12 _ (by omega)]
  clear F A B C D
  omega

/-- The bit pattern that `getImmJ` assembles from a J-type word. -/
theorem getImmJ_pattern (u rd opcode : Nat) (hu : u < 2097152) (he : u % 2 = 0)
    (hr : rd < 32) (ho : opcode < 128) :
    ((encodeJ u rd opcode >>> 20) &&& 0x7FE) ||| ((encodeJ u rd opcode >>> 9) &&& 0x800) |||
      (encodeJ u rd opcode &&& 0xFF000) ||| ((encodeJ u rd opcode >>> 11) &&& 0x100000) = u := by
  have F : encodeJ u rd opcode / 2097152 % 1024 = u / 2 % 1024 ∧
      encodeJ u rd opcode / 1048576 % 2 = u / 2048 % 2 ∧
      encodeJ u rd opcode / 4096 % 256 = u / 4096 % 256 ∧
      encodeJ u rd opcode / 2147483648 % 2 = u / 1048576 :=
    fieldsJ (u / 1048576) (u / 2 % 1024) (u / 2048 % 2) (u / 4096 % 256) rd opcode
      (by omega) (by omega) (by omega) (by omega) hr ho
  have A : (encodeJ u rd opcode >>> 20) &&& 0x7FE = 2 ^ 1 * (u / 2 % 1024) := by
    show _ &&& (2 ^ 1 * (2 ^ 10 - 1)) = _
    rw [and_shifted_mask, Nat.shiftRight_eq_div_pow, Nat.div_div_eq_div_mul]
    show 2 ^ 1 * (encodeJ u rd opcode / 2097152 % 1024) = _
    rw [F.1]
  have B : (encodeJ u rd opcode >>> 9) &&& 0x800 = 2 ^ 11 * (u / 2048 % 2) := by
    show _ &&& (2 ^ 11 * (2 ^ 1 - 1)) = _
    rw [and_shifted_mask, Nat.shiftRight_eq_div_pow, Nat.div_div_eq_div_mul]
    show 2 ^ 11 * (encodeJ u rd opcode / 1048576 % 2) = _
    rw [F.2.1]
  have C : encodeJ u rd opcode &&& 0xFF000 = 2 ^ 12 * (u / 4096 % 256) := by
    show _ &&& (2 ^ 12 * (2 ^ 8 - 1)) = _
    rw [and_shifted_mask]
    show 2 ^ 12 * (encodeJ u rd opcode / 4096 % 256) = _
    rw [F.2.2.1]
  have D : (encodeJ u rd opcode >>> 11) &&& 0x100000 = 2 ^ 20 * (u / 1048576) := by
    show _ &&& (2 ^ 20 * (2 ^ 1 - 1)) = _
    rw [and_shifted_mask, Nat.shiftRight_eq_div_pow, Nat.div_div_eq_div_mul]
    show 2 ^ 20 * (encodeJ u rd opcode / 2147483648 % 2) = _
    rw [F.2.2.2]
  rw [A, B, C, D, or_eq_add _ 11 _ (by omega), or_eq_add _ 12 _ (by omega),
    or_eq_add _ 20 _ (by omega)]
  clear F A B C D
  omega

/-- C22: for every even offset `o` in `-4096..4094` and every choice of the
remaining instruction bits (`opcode < 128`, `funct3 < 8`, `rs1, rs2 < 32`),
`getImmB` applied to the standard B-format word that carries the 13-bit
pattern of `o` (imm[12] in bit 31, imm[10:5] in bits 30:25, imm[4:1] in bits
11:8, imm[11] in bit 7) returns exactly `o`; the word is a 32-bit word. -/
theorem getImmB_decodes_encodeB (o : Int) (rs2 rs1 funct3 opcode : Nat)
    (ho1 : -4096 ≤ o) (ho2 : o ≤ 4094) (he : o % 2 = 0)
    (h2 : rs2 < 32) (h1 : rs1 < 32) (hf : funct3 < 8) (hop : opcode < 128) :
    getImmB (encodeB (o % 8192).toNat rs2 rs1 funct3 opcode) = o ∧
    encodeB (o % 8192).toNat rs2 rs1 funct3 opcode < 4294967296 := by
  have hu : (o % 8192).toNat < 8192 := by omega
  have hev : (o % 8192).toNat % 2 = 0 := by omega
  constructor
  · unfold getImmB
    dsimp only
    rw [getImmB_pattern _ rs2 rs1 funct3 opcode hu hev h2 h1 hf hop, signExtend13 _ hu]
    split_ifs <;> omega
  · unfold encodeB
    omega

/-- Witness for C22: the offsets 8 and -8 with the other bits of
`beq x1,x2` (0x00208463 is the BEQ of scenario 3). -/
theorem getImmB_decodes_encodeB_witness :
    encodeB ((8 : Int) % 8192).toNat 2 1 0 0x63 = 0x00208463 ∧
    getImmB (encodeB ((8 : Int) % 8192).toNat 2 1 0 0x63) = 8 ∧
    getImmB (encodeB ((-8 : Int) % 8192).toNat 2 1 0 0x63) = -8 :=
  ⟨by decide,
   (getImmB_decodes_encodeB 8 2 1 0 0x63 (by decide) (by decide) (by decide) (by decide)
      (by decide) (by decide) (by decide)).1,
   (getImmB_decodes_encodeB (-8) 2 1 0 0x63 (by decide) (by decide) (by decide) (by decide)
      (by decide) (by decide) (by decide)).1⟩

/-- C23: for every even offset `o` in `-1048576..1048574` and every choice of
the opcode and `rd` bits (`opcode < 128`, `rd < 32`), `getImmJ` applied to the
standard J-format word that carries the 21-bit pattern of `o` (imm[20] in bit
31, imm[10:1] in bits 30:21, imm[11] in bit 20, imm[19:12] in bits 19:12)
returns exactly `o`; the word is a 32-bit word. -/
theorem getImmJ_decodes_encodeJ (o : Int) (rd opcode : Nat)
    (ho1 : -1048576 ≤ o) (ho2 : o ≤ 1048574) (he : o % 2 = 0)
    (hr : rd < 32) (hop : opcode < 128) :
    getImmJ (encodeJ (o % 2097152).toNat rd opcode) = o ∧
    encodeJ (o % 2097152).toNat rd opcode < 4294967296 := by
  have hu : (o % 2097152).toNat < 2097152 := by omega
  have hev : (o % 2097152).toNat % 2 = 0 := by omega
  constructor
  · unfold getImmJ
    dsimp only
    rw [getImmJ_pattern _ rd opcode hu hev hr hop, signExtend21 _ hu]
    split_ifs <;> omega
  · unfold encodeJ
    omega

/-- Witness for C23: the offsets 8 and -8 with the other bits of `jal x1`
(0x008000EF is `jal x1,+8`). -/
theorem getImmJ_decodes_encodeJ_witness :
    encodeJ ((8 : Int) % 2097152).toNat 1 0x6F = 0x008000EF ∧
    getImmJ (encodeJ ((8 : Int) % 2097152).toNat 1 0x6F) = 8 ∧
    getImmJ (encodeJ ((-8 : Int) % 2097152).toNat 1 0x6F) = -8 :=
  ⟨by decide,
   (getImmJ_decodes_encodeJ 8 1 0x6F (by decide) (by decide) (by decide) (by decide)
      (by decide)).1,
   (getImmJ_decodes_encodeJ (-8) 1 0x6F (by decide) (by decide) (by decide) (by decide)
      (by decide)).1⟩

/-! ## C21: zero words and the end of the run -/

/-- One cycle of a state that holds no control transfer in ID/EX and has both
redirect flags clear. -/
theorem runCycle_no_ctl (s : RISCVSimulator) (hsq : s.squash_if_id = false)
    (hbt : s.branch_taken = false) (hn : ¬ ctlInEX s) :
    ((runCycle s).stall = true →
      (runCycle s).if_id = s.if_id ∧ (runCycle s).PC = s.PC ∧ (runCycle s).id_ex = {} ∧
      s.if_id.valid = true ∧ checkDataHazard s = true) ∧
    ((runCycle s).stall = false →
      (runCycle s).if_id = fetchLatch s.instructionMemory s.PC ∧
      (runCycle s).PC = add32 s.PC 4 ∧
      (s.if_id.valid = true → (runCycle s).id_ex.valid = true ∧
        (runCycle s).id_ex.IR = s.if_id.IR ∧ (runCycle s).id_ex.NPC = s.if_id.NPC) ∧
      (s.if_id.valid = false → (runCycle s).id_ex = {})) := by
  have hnsq : ¬ squashSeen s := by
    rintro (h | h)
    · rw [hsq] at h
      exact Bool.noConfusion h
    · exact hn h
  obtain ⟨hepc, hebt⟩ := afterEX_not_ctl s hn
  constructor
  · intro hst
    obtain ⟨a, b, c⟩ := runCycle_of_stall s hst
    have h := (runCycle_stall_iff s).1 hst
    exact ⟨a, b, c, h.2.1, h.2.2.1⟩
  · intro hst
    have hnstall : ¬ stallNow s := by
      intro h
      rw [(runCycle_stall_iff s).2 h] at hst
      exact Bool.noConfusion hst
    have hast : (afterID s).stall = false := by rw [← runCycle_stall]; exact hst
    refine ⟨?_, ?_, ?_, ?_⟩
    · rw [runCycle_if_id_of_not_stall s hnstall, hebt, hbt, hepc]
      simp only [Bool.false_eq_true, if_false]
    · rw [runCycle_PC, if_pos ⟨hast, by rw [hebt, hbt]⟩, hepc]
    · intro hv
      obtain ⟨a, b, c, -⟩ := runCycle_id_ex_of_latch s hnsq hv hnstall
      exact ⟨a, b, c⟩
    · intro hv
      exact runCycle_id_ex_of_invalid s hv

/-- With the pipeline drained behind five zero words the run is complete. -/
theorem ZeroInv_complete (mem : Nat → Nat) (k : Nat) (s : RISCVSimulator)
    (hzero : ∀ j, k ≤ j → j ≤ k + 4 → mem j = 0) (h : ZeroInv mem k (k + 4) s) :
    isProgramComplete s = true := by
  obtain ⟨him, -, -, hpc, -, h1, h2, h3, h4, -⟩ := h
  have e : s.PC / 4 = k + 4 := by omega
  unfold isProgramComplete
  rw [h1 (by omega), h2 (by omega), h3 (by omega), h4 (by omega), e, him,
    hzero (k + 4) (by omega) (by omega)]
  simp

/-- One cycle preserves `ZeroInv`, and the pair of the fetch position and the
drain rank strictly increases. -/
theorem ZeroInv_step (mem : Nat → Nat) (k p : Nat) (s : RISCVSimulator) (hk : k < 512)
    (hctl : ∀ i, ¬ ctlOpcode (getOpcode (mem i)))
    (hzero : ∀ j, k ≤ j → j ≤ k + 4 → mem j = 0)
    (h : ZeroInv mem k p s) (hc : isProgramComplete s = false) :
    ∃ q, ZeroInv mem k q (runCycle s) ∧
      3 * p + drainRank s + 1 ≤ 3 * q + drainRank (runCycle s) := by
  have hp3 : p ≤ k + 3 := by
    by_contra hcon
    have hp : p = k + 4 := by
      have := h.2.2.2.2.1
      omega
    rw [hp] at h
    rw [ZeroInv_complete mem k s hzero h] at hc
    exact Bool.noConfusion hc
  obtain ⟨him, hsq, hbt, hpc, -, g1, g2, g3, g4, pif, pid, pex, pwb⟩ := h
  have hn : ¬ ctlInEX s := by
    rintro ⟨hv, hcl⟩
    obtain ⟨i, -, hir, -⟩ := pid hv
    rw [hir] at hcl
    exact hctl i hcl
  obtain ⟨hS, hN⟩ := runCycle_no_ctl s hsq hbt hn
  have pex' : (runCycle s).ex_mem.valid = true → ∃ i, i < k ∧ (runCycle s).ex_mem.IR = mem i := by
    intro hv
    rw [runCycle_ex_mem_valid] at hv
    obtain ⟨i, hi, hir, -⟩ := pid hv
    exact ⟨i, hi, by rw [runCycle_ex_mem_IR s hv, hir]⟩
  have pwb' : (runCycle s).mem_wb.valid = true → ∃ i, i < k ∧ (runCycle s).mem_wb.IR = mem i := by
    intro hv
    rw [runCycle_mem_wb_valid] at hv
    obtain ⟨i, hi, hir⟩ := pex hv
    exact ⟨i, hi, by rw [runCycle_mem_wb_IR s hv, hir]⟩
  cases hst : (runCycle s).stall
  · -- the cycle does not stall: fetch moves on
    obtain ⟨eif, epc, eid1, eid0⟩ := hN hst
    have hadd : add32 (4 * p) 4 = 4 * (p + 1) := by
      unfold add32
      omega
    have hdiv : 4 * p / 4 = p := by omega
    have hfetch : (runCycle s).if_id.valid = true →
        p < k ∧ (runCycle s).if_id.IR = mem p ∧ (runCycle s).if_id.NPC = 4 * (p + 1) := by
      intro hv
      rw [eif, hpc, him] at hv ⊢
      unfold fetchLatch at hv ⊢
      rw [hdiv, hadd] at hv ⊢
      by_cases hcnd : p < 512 ∧ mem p ≠ 0
      · rw [if_pos hcnd]
        refine ⟨?_, rfl, rfl⟩
        by_contra hpk
        exact hcnd.2 (hzero p (by omega) (by omega))
      · rw [if_neg hcnd] at hv
        exact Bool.noConfusion hv
    have hidv : (runCycle s).id_ex.valid = s.if_id.valid := by
      cases hv : s.if_id.valid
      · rw [eid0 hv]
      · exact (eid1 hv).1
    refine ⟨p + 1, ⟨?_, runCycle_squash_if_id s, runCycle_branch_taken s, ?_, by omega, ?_, ?_, ?_,
      ?_, ?_, ?_, pex', pwb'⟩, ?_⟩
    · rw [runCycle_instructionMemory, him]
    · rw [epc, hpc, hadd]
    · intro hkp
      cases hv : (runCycle s).if_id.valid
      · rfl
      · have := (hfetch hv).1
        omega
    · intro hkp
      rw [hidv]
      exact g1 (by omega)
    · intro hkp
      rw [runCycle_ex_mem_valid]
      exact g2 (by omega)
    · intro hkp
      rw [runCycle_mem_wb_valid]
      exact g3 (by omega)
    · intro hv
      exact ⟨p, hfetch hv⟩
    · intro hv
      rw [hidv] at hv
      obtain ⟨i, hi, hir, hnpc⟩ := pif hv
      obtain ⟨-, b, c⟩ := eid1 hv
      exact ⟨i, hi, by rw [b, hir], by rw [c, hnpc]⟩
    · unfold drainRank
      split_ifs <;> omega
  · -- the cycle stalls: fetch holds and the producers drain
    obtain ⟨eif, epc, eid, hv, hhz⟩ := hS hst
    have hpk : p ≤ k := by
      by_contra hcon
      rw [g1 (by omega)] at hv
      exact Bool.noConfusion hv
    refine ⟨p, ⟨?_, runCycle_squash_if_id s, runCycle_branch_taken s, ?_, by omega, ?_, ?_, ?_, ?_,
      ?_, ?_, pex', pwb'⟩, ?_⟩
    · rw [runCycle_instructionMemory, him]
    · rw [epc, hpc]
    · intro hkp
      omega
    · intro hkp
      omega
    · intro hkp
      omega
    · intro hkp
      omega
    · rw [eif]
      exact pif
    · intro hv'
      rw [eid] at hv'
      exact Bool.noConfusion hv'
    · have hprod : s.id_ex.valid = true ∨ s.ex_mem.valid = true := by
        by_contra hcon
        have h1 : s.id_ex.valid = false := by
          cases hx : s.id_ex.valid
          · rfl
          · exact absurd (Or.inl hx) hcon
        have h2 : s.ex_mem.valid = false := by
          cases hx : s.ex_mem.valid
          · rfl
          · exact absurd (Or.inr hx) hcon
        rw [checkDataHazard_of_invalid s h1 h2] at hhz
        exact Bool.noConfusion hhz
      have e1 : (runCycle s).id_ex.valid = false := by rw [eid]
      have e2 : (runCycle s).ex_mem.valid = s.id_ex.valid := runCycle_ex_mem_valid s
      unfold drainRank
      rw [e1, e2]
      rcases hprod with hx | hx
      · simp [hx]
      · cases hy : s.id_ex.valid
        · simp [hx]
        · simp

/-- The state `main` starts from satisfies `ZeroInv` at fetch position 0. -/
theorem ZeroInv_initial (prog : List Nat) (k : Nat) :
    ZeroInv (initial prog).instructionMemory k 0 (initial prog) ∧ drainRank (initial prog) = 2 := by
  refine ⟨⟨rfl, rfl, rfl, rfl, by omega, ?_, ?_, ?_, ?_, ?_, ?_, ?_, ?_⟩, rfl⟩
  · intro _; rfl
  · intro _; rfl
  · intro _; rfl
  · intro _; rfl
  · intro h; exact Bool.noConfusion h
  · intro h; exact Bool.noConfusion h
  · intro h; exact Bool.noConfusion h
  · intro h; exact Bool.noConfusion h

/-- While the run is not complete, `ZeroInv` holds and every cycle has either
moved fetch on or drained a producer. -/
theorem ZeroInv_runCycles (mem : Nat → Nat) (k : Nat) (s0 : RISCVSimulator) (hk : k < 512)
    (hctl : ∀ i, ¬ ctlOpcode (getOpcode (mem i)))
    (hzero : ∀ j, k ≤ j → j ≤ k + 4 → mem j = 0)
    (h0 : ZeroInv mem k 0 s0) (hr0 : drainRank s0 = 2) :
    ∀ n, (∀ m, m < n → isProgramComplete (runCycles m s0) = false) →
      ∃ p, ZeroInv mem k p (runCycles n s0) ∧ n + 2 ≤ 3 * p + drainRank (runCycles n s0)
  | 0, _ => ⟨0, h0, by rw [runCycles_zero, hr0]⟩
  | n + 1, hnc => by
    obtain ⟨p, hz, hr⟩ := ZeroInv_runCycles mem k s0 hk hctl hzero h0 hr0 n
      (fun m hm => hnc m (by omega))
    obtain ⟨q, hz', hr'⟩ := ZeroInv_step mem k p _ hk hctl hzero hz (hnc n (by omega))
    rw [runCycles_succ_last]
    exact ⟨q, hz', by omega⟩

/-- A run that satisfies `ZeroInv` is complete within `3 * k + 12` cycles. -/
theorem ZeroInv_terminates (mem : Nat → Nat) (k : Nat) (s0 : RISCVSimulator) (hk : k < 512)
    (hctl : ∀ i, ¬ ctlOpcode (getOpcode (mem i)))
    (hzero : ∀ j, k ≤ j → j ≤ k + 4 → mem j = 0)
    (h0 : ZeroInv mem k 0 s0) (hr0 : drainRank s0 = 2) :
    ∃ n, n ≤ 3 * k + 12 ∧ isProgramComplete (runCycles n s0) = true ∧
      ∀ m, m < n → isProgramComplete (runCycles m s0) = false := by
  have hlong : ¬ ∀ m, m < 3 * k + 13 → isProgramComplete (runCycles m s0) = false := by
    intro hall
    obtain ⟨p, hz, hr⟩ := ZeroInv_runCycles mem k s0 hk hctl hzero h0 hr0 (3 * k + 12)
      (fun m hm => hall m (by omega))
    have hp : p ≤ k + 4 := hz.2.2.2.2.1
    have hrank : drainRank (runCycles (3 * k + 12) s0) ≤ 2 := by
      unfold drainRank
      split_ifs <;> omega
    have hpe : p = k + 4 := by omega
    rw [hpe] at hz
    have := hall (3 * k + 12) (by omega)
    rw [ZeroInv_complete mem k _ hzero hz] at this
    exact Bool.noConfusion this
  have hex : ∃ n, isProgramComplete (runCycles n s0) = true := by
    by_contra hno
    apply hlong
    intro m _
    cases hc : isProgramComplete (runCycles m s0)
    · rfl
    · exact absurd ⟨m, hc⟩ hno
  refine ⟨Nat.find hex, ?_, Nat.find_spec hex, ?_⟩
  · by_contra hgt
    apply hlong
    intro m hm
    cases hc : isProgramComplete (runCycles m s0)
    · rfl
    · exact absurd hc (Nat.find_min hex (by omega))
  · intro m hm
    cases hc : isProgramComplete (runCycles m s0)
    · rfl
    · exact absurd hc (Nat.find_min hex hm)

/-- C21, as stated, fails. In `zeroGapProgram` the word at index 1 is 0 and no
word is a control transfer, yet after three cycles IF/ID holds the valid
`addi x2,x0,7` fetched from index 2 (`NPC = 12`), and the run completes after 7
cycles with two instructions retired and `x2 = 7`. Four zero words in a row do
not end the run either: `zeroGap4Program` completes after 10 cycles with
`x2 = 7`. -/
theorem zero_word_terminates_counterexample :
    (zeroGapProgram.getD 1 0 = 0 ∧ 1 < zeroGapProgram.length - 1 ∧
     (∀ w ∈ zeroGapProgram, ¬ ctlOpcode (getOpcode w)) ∧
     (List.range 3).map (fun m => isProgramComplete (runCycles m (initial zeroGapProgram)))
       = [false, false, false] ∧
     (runCycles 3 (initial zeroGapProgram)).if_id
       = { IR := zeroGapProgram.getD 2 0, NPC := 12, valid := true } ∧
     (runToCompletion 7 (initial zeroGapProgram)).map
       (fun s => (s.registers 2, s.instructionsCompleted, s.totalCycles)) = some (7, 2, 7)) ∧
    ((∀ d, d < 4 → zeroGap4Program.getD (1 + d) 0 = 0) ∧
     (runCycles 6 (initial zeroGap4Program)).if_id
       = { IR := zeroGap4Program.getD 5 0, NPC := 24, valid := true } ∧
     (runToCompletion 10 (initial zeroGap4Program)).map
       (fun s => (s.registers 2, s.instructionsCompleted, s.totalCycles)) = some (7, 2, 10)) := by
  decide

/-- C21, amended: for every program of at most 512 words without
branch/JAL/JALR words in which the five words at the indices `k..k+4` are 0
(`k < N - 1`; indices beyond the program hold 0), the run from reset is
complete after some `n ≤ 3 * k + 12` cycles and not before, and in every state
of that run `PC` is at most `4 * (k + 4)`, a valid IF/ID latch holds a word
fetched from an index below `k` (its `NPC` is `4 * (i + 1)` for that index
`i`), and a valid MEM/WB latch, the instruction about to retire, holds a word
stored at an index below `k`: no instruction stored at an index greater than
`k` is fetched or retired. -/
theorem zero_words_end_the_run (prog : List Nat) (k : Nat) (hN : prog.length ≤ 512)
    (hk : k + 1 < prog.length)
    (hctl : ∀ w ∈ prog, ¬ ctlOpcode (getOpcode (w % 4294967296)))
    (hzero : ∀ d, d < 5 → prog.getD (k + d) 0 % 4294967296 = 0) :
    ∃ n, n ≤ 3 * k + 12 ∧
      (∀ extra, runToCompletion (n + extra) (initial prog)
        = some (runCycles n (initial prog))) ∧
      (∀ m, m < n → isProgramComplete (runCycles m (initial prog)) = false) ∧
      (∀ m, m ≤ n →
        (runCycles m (initial prog)).PC ≤ 4 * (k + 4) ∧
        ((runCycles m (initial prog)).if_id.valid = true →
          ∃ i, i < k ∧
            (runCycles m (initial prog)).if_id.IR = (initial prog).instructionMemory i ∧
            (runCycles m (initial prog)).if_id.NPC = 4 * (i + 1)) ∧
        ((runCycles m (initial prog)).mem_wb.valid = true →
          ∃ i, i < k ∧
            (runCycles m (initial prog)).mem_wb.IR = (initial prog).instructionMemory i)) := by
  have hk512 : k < 512 := by omega
  have mctl : ∀ i, ¬ ctlOpcode (getOpcode ((initial prog).instructionMemory i)) := by
    intro i
    rw [initial_instructionMemory]
    by_cases hi : i < prog.length ∧ i < 512
    · rw [if_pos hi, List.getD_eq_getElem _ _ hi.1]
      exact hctl _ (List.getElem_mem hi.1)
    · rw [if_neg hi]
      decide
  have mzero : ∀ j, k ≤ j → j ≤ k + 4 → (initial prog).instructionMemory j = 0 := by
    intro j h1 h2
    rw [initial_instructionMemory]
    by_cases hi : j < prog.length ∧ j < 512
    · rw [if_pos hi]
      have := hzero (j - k) (by omega)
      rw [show k + (j - k) = j by omega] at this
      exact this
    · rw [if_neg hi]
  obtain ⟨h0, hr0⟩ := ZeroInv_initial prog k
  obtain ⟨n, hn, hcomp, hmin⟩ := ZeroInv_terminates _ k _ hk512 mctl mzero h0 hr0
  refine ⟨n, hn, fun extra => runToCompletion_add extra n _ _
    (runToCompletion_of_first n _ hmin hcomp), hmin, ?_⟩
  intro m hm
  obtain ⟨p, hz, -⟩ := ZeroInv_runCycles _ k _ hk512 mctl mzero h0 hr0 m
    (fun j hj => hmin j (by omega))
  obtain ⟨-, -, -, hpc, hp, -, -, -, -, pif, -, -, pwb⟩ := hz
  exact ⟨by omega, pif, pwb⟩

/-- Witness for C21: in `zeroGap5Program` the five words after the first are
0; the run is complete after 5 cycles and `addi x2,x0,7` is never executed. -/
theorem zero_words_end_the_run_witness :
    (zeroGap5Program.length ≤ 512 ∧ 1 + 1 < zeroGap5Program.length) ∧
    (∃ n, n ≤ 3 * 1 + 12 ∧
      runToCompletion n (initial zeroGap5Program) = some (runCycles n (initial zeroGap5Program)) ∧
      ((runCycles n (initial zeroGap5Program)).if_id.valid = true →
        ∃ i, i < 1 ∧ (runCycles n (initial zeroGap5Program)).if_id.NPC = 4 * (i + 1))) ∧
    (runToCompletion 5 (initial zeroGap5Program)).map
      (fun s => (s.registers 1, s.registers 2, s.instructionsCompleted, s.totalCycles))
      = some (5, 0, 1, 5) :=
  ⟨by decide,
    (zero_words_end_the_run zeroGap5Program 1 (by decide) (by decide) (by decide)
      (by decide)).imp (fun n h => ⟨h.1, h.2.1 0, fun hv =>
        ((h.2.2.2 n (le_refl n)).2.1 hv).imp (fun _ hi => ⟨hi.1, hi.2.2⟩)⟩),
    by decide⟩

end RISCV
